import Mathlib

/-!
Verification of the domain-aware concatenation subsystem of PyBaMM
(`pybamm/expression_tree/concatenations.py`), via a shallow embedding.

Python symbols are modelled as follows:
* a mesh is a function `String → Nat` giving the point count `mesh[name].npts`
  of each named domain;
* a domain descriptor (`Symbol.domains`) is the structure `Domains` below with
  the four levels `primary`, `secondary`, `tertiary`, `quaternary`;
* a Python `slice(a, b)` is the structure `Slice`;
* exceptions (`DomainError`, `ValueError`, ...) are modelled by the error type
  `ConcatError` together with `Except`.
-/

/-- A half-open integer index range `[start, stop)`, Python's `slice(start, stop)`. -/
structure Slice where
  start : Nat
  stop : Nat
deriving DecidableEq, Repr

/-- A domain descriptor: the `domains` dict of a PyBaMM symbol, with its four
levels.  `primary` is `Symbol.domain`. -/
structure Domains where
  primary : List String
  secondary : List String
  tertiary : List String
  quaternary : List String
deriving DecidableEq, Repr

/-- The exception kinds raised by the concatenation subsystem. -/
inductive ConcatError where
  | domainError (msg : String)
  | valueError (msg : String)
  | typeError (msg : String)
  | notImplementedError (msg : String)
  | indexError (msg : String)
deriving DecidableEq, Repr

/-! ## The domain validator `Concatenation.get_children_domains` -/

/-- The accumulation loop of `get_children_domains` (concatenations.py lines
73-86): starting from `acc`, append each child's primary domain after checking
that it is non-empty and disjoint from the accumulated domain.  The two
`DomainError`s are raised exactly as in the source. -/
def combinePrimary : List String → List Domains → Except ConcatError (List String)
  | acc, [] => .ok acc
  | acc, c :: cs =>
    if c.primary.isEmpty then
      .error (.domainError "Cannot concatenate child with empty domain")
    else if acc.all (fun d => !c.primary.contains d) then
      combinePrimary (acc ++ c.primary) cs
    else
      .error (.domainError "domain of children must be disjoint")

/-- One level of the auxiliary-domain compatibility check (lines 89-95): if
child 0's sequence `dom` at this level is non-empty, every later child must
have the same sequence or an empty one. -/
def checkLevel (dom : List String) (rest : List Domains) (get : Domains → List String) :
    Except ConcatError Unit :=
  if dom = [] then .ok ()
  else if rest.all (fun c => decide (get c = dom ∨ get c = [])) then .ok ()
  else .error (.domainError "children must have same or empty auxiliary domains")

/-- `Concatenation.get_children_domains` (lines 72-99).  Children are
represented by their domain descriptors (the method only reads
`child.domain` and `child.domains`; the `isinstance(child, pybamm.Symbol)`
`TypeError` cannot fire in this typed embedding).  For empty `children`,
CPython raises `IndexError` at `children[0].domains`; we model that error. -/
def getChildrenDomains (children : List Domains) : Except ConcatError Domains := do
  let primary ← combinePrimary [] children
  match children with
  | [] => .error (.indexError "list index out of range")
  | c0 :: rest =>
    checkLevel c0.secondary rest (·.secondary)
    checkLevel c0.tertiary rest (·.tertiary)
    checkLevel c0.quaternary rest (·.quaternary)
    return ⟨primary, c0.secondary, c0.tertiary, c0.quaternary⟩

/-! ## The domain-aware concatenation: repeats and slice layout -/

/-- Modelled from the spec: the external Mesh collaborator, queried as
`mesh[domain_name].npts`.  When `_get_auxiliary_domain_repeats` looks up a whole
auxiliary level (`self.full_mesh[dom].npts` with `dom` a list of names), the
point count of the level is the product over the names of that level of the
per-name point counts (spec section 4.5 step 2: "product over all non-primary
auxiliary levels present of `mesh[domain].npts` for each domain name at that
level").  The `Mesh` class itself is not part of the sources. -/
def meshNptsList (mesh : String → Nat) (doms : List String) : Nat :=
  (doms.map mesh).prod

/-- `DomainConcatenation._get_auxiliary_domain_repeats` (lines 272-278): the
product of the level point counts over every non-primary level that is
non-empty. -/
def getAuxiliaryDomainRepeats (mesh : String → Nat) (d : Domains) : Nat :=
  (if d.secondary ≠ [] then meshNptsList mesh d.secondary else 1) *
  ((if d.tertiary ≠ [] then meshNptsList mesh d.tertiary else 1) *
   (if d.quaternary ≠ [] then meshNptsList mesh d.quaternary else 1))

/-- The inner loop of `create_slices` (lines 295-298): one pass over the node's
primary domain names, each contributing a contiguous range of length
`mesh[dom].npts`, advancing the running cursor. -/
def slicesOneRepeat (mesh : String → Nat) : List String → Nat → List (String × Slice)
  | [], _ => []
  | dom :: ds, start =>
    (dom, ⟨start, start + mesh dom⟩) :: slicesOneRepeat mesh ds (start + mesh dom)

/-- Total primary point count of a node: the amount the cursor advances in one
pass of the inner loop. -/
def sumNpts (mesh : String → Nat) (doms : List String) : Nat :=
  (doms.map mesh).sum

/-- The outer loop of `create_slices` (line 294): repeat the inner pass
`second_pts` times; after each pass the running cursor has advanced by
`sumNpts mesh doms`, so the next pass starts there. -/
def createSlicesFrom (mesh : String → Nat) (doms : List String) : Nat → Nat → List (String × Slice)
  | 0, _ => []
  | n + 1, start =>
    slicesOneRepeat mesh doms start ++ createSlicesFrom mesh doms n (start + sumNpts mesh doms)

/-- The `defaultdict(list)` built by `create_slices`, read at one key:
the ordered list of slices recorded for the domain name `dom`. -/
def filterKey (dom : String) (l : List (String × Slice)) : List Slice :=
  l.filterMap (fun p => if p.1 = dom then some p.2 else none)

/-- The keys of the `defaultdict` in insertion order: first occurrence of each
domain name in iteration order. -/
def keysInOrder : List String → List String
  | [] => []
  | d :: ds => d :: (keysInOrder ds).filter (fun x => x ≠ d)

/-- The dict view of a flat slice list: keys in insertion order, each mapped to
its ordered slice list. -/
def dictOf (l : List (String × Slice)) : List (String × List Slice) :=
  (keysInOrder (l.map Prod.fst)).map (fun dom => (dom, filterKey dom l))

/-- `DomainConcatenation.create_slices` (lines 284-299).  `selfDomains` is the
composite's `self.domains` and `secondaryDimensionsNpts` the stored
`self.secondary_dimensions_npts`; the function recomputes
`second_pts = self._get_auxiliary_domain_repeats(self.domains)` — note: from
`self.domains`, not from the node's — compares it against the stored count,
and then lays out `second_pts` repeats of the node's primary domains. -/
def create_slices (mesh : String → Nat) (selfDomains : Domains)
    (secondaryDimensionsNpts : Nat) (nodeDomain : List String) :
    Except ConcatError (List (String × Slice)) :=
  let second_pts := getAuxiliaryDomainRepeats mesh selfDomains
  if second_pts ≠ secondaryDimensionsNpts then
    .error (.valueError "Concatenation and children must have the same number of points in secondary dimensions")
  else
    .ok (createSlicesFrom mesh nodeDomain second_pts 0)

/-- The state stored by a successfully constructed `DomainConcatenation`:
its merged domains, `secondary_dimensions_npts`, `_slices` (flat, in creation
order; the dict view is `dictOf`), `_size` and `_children_slices`. -/
structure DCData where
  domains : Domains
  secondaryDimensionsNpts : Nat
  slices : List (String × Slice)
  size : Nat
  childrenSlices : List (List (String × Slice))
deriving DecidableEq, Repr

/-- `DomainConcatenation.__init__` without `copy_this` (lines 235-264):
validate and merge the children's domains, compute the repeat count, the
composite slices, the total size `self._slices[self.domain[-1]][-1].stop`
(IndexError when the lookup is empty), and each child's slice table.
Children are represented by their domain descriptors. -/
def domainConcatenationInit (mesh : String → Nat) (childrenDomains : List Domains) :
    Except ConcatError DCData := do
  let doms ← getChildrenDomains childrenDomains
  let npts := getAuxiliaryDomainRepeats mesh doms
  let slices ← create_slices mesh doms npts doms.primary
  let size ← match doms.primary.getLast? with
    | none => .error (.indexError "list index out of range")
    | some dom =>
      match (filterKey dom slices).getLast? with
      | none => .error (.indexError "list index out of range")
      | some s => .ok s.stop
  let childrenSlices ← childrenDomains.mapM (fun cd => create_slices mesh doms npts cd.primary)
  return ⟨doms, npts, slices, size, childrenSlices⟩

/-! ## Chain structure of the computed slice layout -/

@[simp] theorem sumNpts_nil (mesh : String → Nat) : sumNpts mesh [] = 0 := rfl

@[simp] theorem sumNpts_cons (mesh : String → Nat) (d : String) (ds : List String) :
    sumNpts mesh (d :: ds) = mesh d + sumNpts mesh ds := by
  simp [sumNpts]

/-- `ChainFrom a l b`: the slices of `l` are contiguous well-formed ranges
starting at `a` and ending at `b`. -/
def ChainFrom : Nat → List (String × Slice) → Nat → Prop
  | a, [], b => a = b
  | a, p :: l, b => p.2.start = a ∧ a ≤ p.2.stop ∧ ChainFrom p.2.stop l b

theorem chainFrom_append {a b c : Nat} {l1 l2 : List (String × Slice)}
    (h1 : ChainFrom a l1 b) (h2 : ChainFrom b l2 c) : ChainFrom a (l1 ++ l2) c := by
  induction l1 generalizing a with
  | nil => have hab : a = b := h1; subst hab; simpa using h2
  | cons p t ih =>
    obtain ⟨h0, hle, ht⟩ := h1
    exact ⟨h0, hle, ih ht⟩

theorem slicesOneRepeat_chain (mesh : String → Nat) (doms : List String) (c : Nat) :
    ChainFrom c (slicesOneRepeat mesh doms c) (c + sumNpts mesh doms) := by
  induction doms generalizing c with
  | nil => simp [slicesOneRepeat, ChainFrom]
  | cons d ds ih =>
    refine ⟨rfl, show c ≤ c + mesh d from Nat.le_add_right _ _, ?_⟩
    have h := ih (c + mesh d)
    have he : c + mesh d + sumNpts mesh ds = c + sumNpts mesh (d :: ds) := by
      simp [sumNpts_cons]; omega
    exact he ▸ h

theorem createSlicesFrom_chain (mesh : String → Nat) (doms : List String) (n c : Nat) :
    ChainFrom c (createSlicesFrom mesh doms n c) (c + n * sumNpts mesh doms) := by
  induction n generalizing c with
  | zero => simp [createSlicesFrom, ChainFrom]
  | succ m ih =>
    have h3 := chainFrom_append (slicesOneRepeat_chain mesh doms c) (ih (c + sumNpts mesh doms))
    have he : c + sumNpts mesh doms + m * sumNpts mesh doms = c + (m + 1) * sumNpts mesh doms := by
      rw [Nat.succ_mul]; omega
    rw [createSlicesFrom]
    exact he ▸ h3

theorem chainFrom_le {a b : Nat} {l : List (String × Slice)} (h : ChainFrom a l b) : a ≤ b := by
  induction l generalizing a with
  | nil => exact Nat.le_of_eq h
  | cons p t ih =>
    obtain ⟨_, hle, ht⟩ := h
    exact le_trans hle (ih ht)

theorem chainFrom_mem {a b : Nat} {l : List (String × Slice)} (h : ChainFrom a l b)
    {p : String × Slice} (hp : p ∈ l) :
    a ≤ p.2.start ∧ p.2.start ≤ p.2.stop ∧ p.2.stop ≤ b := by
  induction l generalizing a with
  | nil => cases hp
  | cons q t ih =>
    obtain ⟨h0, hle, ht⟩ := h
    rcases List.mem_cons.mp hp with rfl | hp'
    · exact ⟨Nat.le_of_eq h0.symm, by omega, chainFrom_le ht⟩
    · have h2 := ih ht hp'
      refine ⟨le_trans ?_ h2.1, h2.2.1, h2.2.2⟩
      omega

theorem chainFrom_cover {a b : Nat} {l : List (String × Slice)} (h : ChainFrom a l b)
    {k : Nat} (h1 : a ≤ k) (h2 : k < b) :
    ∃ p ∈ l, p.2.start ≤ k ∧ k < p.2.stop := by
  induction l generalizing a with
  | nil => have hab : a = b := h; omega
  | cons q t ih =>
    obtain ⟨h0, hle, ht⟩ := h
    by_cases hk : k < q.2.stop
    · exact ⟨q, List.mem_cons_self _ _, by omega, hk⟩
    · obtain ⟨p, hp, hps⟩ := ih ht (by omega)
      exact ⟨p, List.mem_cons_of_mem _ hp, hps⟩

theorem chainFrom_get_start {a b : Nat} {l : List (String × Slice)} (h : ChainFrom a l b)
    (i : Nat) (hi : i < l.length) : a ≤ (l.get ⟨i, hi⟩).2.start := by
  induction l generalizing a i with
  | nil => simp at hi
  | cons q t ih =>
    obtain ⟨h0, hle, ht⟩ := h
    cases i with
    | zero => simpa using Nat.le_of_eq h0.symm
    | succ j =>
      have hj : j < t.length := by simpa using hi
      have h2 := ih ht j hj
      have hgoal : a ≤ (t.get ⟨j, hj⟩).2.start := le_trans hle h2
      exact hgoal

theorem chainFrom_sorted {a b : Nat} {l : List (String × Slice)} (h : ChainFrom a l b) :
    ∀ i j (hi : i < l.length) (hj : j < l.length), i < j →
      (l.get ⟨i, hi⟩).2.stop ≤ (l.get ⟨j, hj⟩).2.start := by
  induction l generalizing a with
  | nil => intro i j hi _ _; simp at hi
  | cons q t ih =>
    obtain ⟨h0, hle, ht⟩ := h
    intro i j hi hj hij
    cases i with
    | zero =>
      cases j with
      | zero => omega
      | succ j' =>
        have hj' : j' < t.length := by simpa using hj
        exact chainFrom_get_start ht j' hj'
    | succ i' =>
      cases j with
      | zero => omega
      | succ j' =>
        exact ih ht i' j' (by simpa using hi) (by simpa using hj) (by omega)

theorem chainFrom_getLast {a b : Nat} {l : List (String × Slice)} (h : ChainFrom a l b)
    (hne : l ≠ []) : (l.getLast hne).2.stop = b := by
  induction l generalizing a with
  | nil => exact absurd rfl hne
  | cons q t ih =>
    obtain ⟨h0, hle, ht⟩ := h
    cases t with
    | nil => exact ht
    | cons r s =>
      rw [List.getLast_cons (by simp)]
      exact ih ht (by simp)

/-! ## Keys, dict lookups and last elements of the layout -/

theorem slicesOneRepeat_map_fst (mesh : String → Nat) (doms : List String) (c : Nat) :
    (slicesOneRepeat mesh doms c).map Prod.fst = doms := by
  induction doms generalizing c with
  | nil => rfl
  | cons d ds ih => simp [slicesOneRepeat, ih]

theorem createSlicesFrom_map_fst (mesh : String → Nat) (doms : List String) (n c : Nat) :
    (createSlicesFrom mesh doms n c).map Prod.fst = (List.replicate n doms).flatten := by
  induction n generalizing c with
  | zero => rfl
  | succ m ih =>
    simp [createSlicesFrom, List.replicate_succ, slicesOneRepeat_map_fst, ih]

theorem flatten_replicate_nil {α : Type} (n : Nat) :
    (List.replicate n ([] : List α)).flatten = [] := by
  induction n with
  | zero => rfl
  | succ m ih => simp [List.replicate_succ, ih]

theorem flatten_replicate_getLast? {α : Type} (doms : List α) (n : Nat) (hn : 0 < n) :
    ((List.replicate n doms).flatten).getLast? = doms.getLast? := by
  induction n with
  | zero => omega
  | succ m ih =>
    rcases Nat.eq_zero_or_pos m with h0 | hm
    · subst h0; simp
    · rcases eq_or_ne doms [] with rfl | hne
      · simp [flatten_replicate_nil]
      · have hjoin : (List.replicate m doms).flatten ≠ [] := by
          intro hcontra
          have h1 := ih hm
          rw [hcontra] at h1
          have h2 := List.getLast?_eq_getLast_of_ne_nil hne
          rw [h2] at h1
          exact Option.noConfusion h1
        rw [List.replicate_succ, List.flatten_cons, List.getLast?_append_of_ne_nil _ hjoin]
        exact ih hm

theorem filterKey_getLast {l : List (String × Slice)} (hne : l ≠ []) (dom : String)
    (hd : (l.getLast hne).1 = dom) : (filterKey dom l).getLast? = some (l.getLast hne).2 := by
  induction l with
  | nil => exact absurd rfl hne
  | cons q t ih =>
    cases t with
    | nil =>
      simp only [List.getLast] at hd ⊢
      simp [filterKey, hd]
    | cons r s =>
      have htne : r :: s ≠ [] := by simp
      have hlast : (q :: r :: s).getLast hne = (r :: s).getLast htne := by
        rw [List.getLast_cons htne]
      rw [hlast] at hd ⊢
      have ihv := ih htne hd
      have hfne : filterKey dom (r :: s) ≠ [] := by
        intro hcontra
        rw [hcontra] at ihv
        exact Option.noConfusion ihv
      show (filterKey dom (q :: r :: s)).getLast? = _
      have hsplit : filterKey dom (q :: r :: s) =
          (if q.1 = dom then [q.2] else []) ++ filterKey dom (r :: s) := by
        by_cases hq : q.1 = dom <;> simp [filterKey, List.filterMap, hq]
      rw [hsplit, List.getLast?_append_of_ne_nil _ hfne, ihv]

/-! ## Inverting a successful `DomainConcatenation` construction -/

/-- The `second_pts` recomputed inside `create_slices` always equals the
`secondary_dimensions_npts` stored by `__init__`, because both are
`self._get_auxiliary_domain_repeats(self.domains)`: the guard is dead code. -/
theorem create_slices_self (mesh : String → Nat) (d : Domains) (nodeDomain : List String) :
    create_slices mesh d (getAuxiliaryDomainRepeats mesh d) nodeDomain =
      .ok (createSlicesFrom mesh nodeDomain (getAuxiliaryDomainRepeats mesh d) 0) := by
  simp [create_slices]

theorem exceptMapM_ok {α β : Type} (f : α → β) (l : List α) :
    l.mapM (fun a => (Except.ok (f a) : Except ConcatError β)) = .ok (l.map f) := by
  induction l with
  | nil => rfl
  | cons x t ih => rw [List.mapM_cons, ih]; rfl

theorem domainConcatenationInit_inv {mesh : String → Nat} {cds : List Domains} {data : DCData}
    (h : domainConcatenationInit mesh cds = .ok data) :
    getChildrenDomains cds = .ok data.domains ∧
    data.secondaryDimensionsNpts = getAuxiliaryDomainRepeats mesh data.domains ∧
    data.slices = createSlicesFrom mesh data.domains.primary data.secondaryDimensionsNpts 0 ∧
    (∃ dom, data.domains.primary.getLast? = some dom ∧
      ∃ s, (filterKey dom data.slices).getLast? = some s ∧ data.size = s.stop) ∧
    data.childrenSlices =
      cds.map (fun cd => createSlicesFrom mesh cd.primary data.secondaryDimensionsNpts 0) := by
  unfold domainConcatenationInit at h
  simp only [Bind.bind, Except.bind, create_slices_self, exceptMapM_ok] at h
  split at h
  next e heq => simp at h
  next doms hg =>
    split at h
    next hl => simp at h
    next dom hl =>
      split at h
      next hf => simp at h
      next s hf =>
        simp only [pure, Except.pure, Except.ok.injEq] at h
        subst h
        exact ⟨hg, rfl, rfl, ⟨dom, hl, s, hf, rfl⟩, rfl⟩

/-! ## C1: the composite slices exactly partition the index range -/

/-- C1: for every DomainConcatenation successfully constructed from children and
a mesh, `composite_slices` exactly partitions `[0, total_size)`: the union of
all stored slice ranges (across all domain names and all repeats, i.e. over the
flat creation-order list whose dict view is `composite_slices`) equals
`[0, total_size)`, the ranges are pairwise disjoint (in creation order each
slice ends no later than any later slice starts), they follow the composite's
primary-domain order within each repeat with the pattern repeated
`secondary_repeat_count` times, and `total_size` equals the stop bound of the
last recorded slice. -/
theorem composite_slices_partition (mesh : String → Nat) (cds : List Domains) (data : DCData)
    (h : domainConcatenationInit mesh cds = .ok data) :
    data.slices.getLast?.map (fun p => p.2.stop) = some data.size ∧
    data.size = data.secondaryDimensionsNpts * sumNpts mesh data.domains.primary ∧
    (∀ k, k < data.size ↔ ∃ p ∈ data.slices, p.2.start ≤ k ∧ k < p.2.stop) ∧
    (∀ i j (hi : i < data.slices.length) (hj : j < data.slices.length), i < j →
      (data.slices.get ⟨i, hi⟩).2.stop ≤ (data.slices.get ⟨j, hj⟩).2.start) ∧
    data.slices.map Prod.fst =
      (List.replicate data.secondaryDimensionsNpts data.domains.primary).flatten := by
  obtain ⟨hg, hnpts, hslices, ⟨dom, hdom, s, hfk, hsize⟩, hcs⟩ := domainConcatenationInit_inv h
  have hne : data.slices ≠ [] := by
    intro hc; rw [hc] at hfk; simp [filterKey] at hfk
  have hn : 0 < data.secondaryDimensionsNpts := by
    rcases Nat.eq_zero_or_pos data.secondaryDimensionsNpts with h0 | hpos
    · rw [h0] at hslices
      simp only [createSlicesFrom] at hslices
      exact absurd hslices hne
    · exact hpos
  have hchain : ChainFrom 0 data.slices
      (0 + data.secondaryDimensionsNpts * sumNpts mesh data.domains.primary) := by
    rw [hslices]; exact createSlicesFrom_chain _ _ _ _
  have hmapfst : data.slices.map Prod.fst =
      (List.replicate data.secondaryDimensionsNpts data.domains.primary).flatten := by
    rw [hslices]; exact createSlicesFrom_map_fst _ _ _ _
  have hlast1 : (data.slices.map Prod.fst).getLast? = some ((data.slices.getLast hne).1) := by
    rw [List.getLast?_map, List.getLast?_eq_getLast_of_ne_nil hne]; rfl
  have hlast2 : (data.slices.map Prod.fst).getLast? = some dom := by
    rw [hmapfst, flatten_replicate_getLast? _ _ hn, hdom]
  have hfst : (data.slices.getLast hne).1 = dom := by
    rw [hlast1] at hlast2; exact Option.some.inj hlast2
  have hfkl := filterKey_getLast hne dom hfst
  rw [hfk] at hfkl
  have hs : s = (data.slices.getLast hne).2 := Option.some.inj hfkl
  have hstop : (data.slices.getLast hne).2.stop =
      0 + data.secondaryDimensionsNpts * sumNpts mesh data.domains.primary :=
    chainFrom_getLast hchain hne
  have hsz : data.size = data.secondaryDimensionsNpts * sumNpts mesh data.domains.primary := by
    rw [hsize, hs]; omega
  refine ⟨?_, hsz, ?_, chainFrom_sorted hchain, hmapfst⟩
  · rw [List.getLast?_eq_getLast_of_ne_nil hne]
    simp only [Option.map_some', Option.some.injEq]
    omega
  · intro k
    constructor
    · intro hk
      exact chainFrom_cover hchain (Nat.zero_le k) (by omega)
    · rintro ⟨p, hp, hps1, hps2⟩
      have hb := chainFrom_mem hchain hp
      omega

/-- The concrete battery mesh of the spec's running example:
negative=5, separator=3, positive=4 points. -/
def exMesh1 : String → Nat := fun d =>
  if d = "negative" then 5 else if d = "separator" then 3 else if d = "positive" then 4 else 0

/-- Three single-domain children over the example mesh. -/
def exChildren1 : List Domains :=
  [⟨["negative"], [], [], []⟩, ⟨["separator"], [], [], []⟩, ⟨["positive"], [], [], []⟩]

/-- The state the constructor computes for the running example:
total size 12, slices `[0,5)`, `[5,8)`, `[8,12)`. -/
def exData1 : DCData :=
  ⟨⟨["negative", "separator", "positive"], [], [], []⟩, 1,
   [("negative", ⟨0, 5⟩), ("separator", ⟨5, 8⟩), ("positive", ⟨8, 12⟩)], 12,
   [[("negative", ⟨0, 5⟩)], [("separator", ⟨0, 3⟩)], [("positive", ⟨0, 4⟩)]]⟩

/-- Witness for C1 at the running example. -/
theorem composite_slices_partition_witness :
    domainConcatenationInit exMesh1 exChildren1 = .ok exData1 ∧
    (exData1.slices.getLast?.map (fun p => p.2.stop) = some exData1.size ∧
    exData1.size = exData1.secondaryDimensionsNpts * sumNpts exMesh1 exData1.domains.primary ∧
    (∀ k, k < exData1.size ↔ ∃ p ∈ exData1.slices, p.2.start ≤ k ∧ k < p.2.stop) ∧
    (∀ i j (hi : i < exData1.slices.length) (hj : j < exData1.slices.length), i < j →
      (exData1.slices.get ⟨i, hi⟩).2.stop ≤ (exData1.slices.get ⟨j, hj⟩).2.start) ∧
    exData1.slices.map Prod.fst =
      (List.replicate exData1.secondaryDimensionsNpts exData1.domains.primary).flatten) :=
  ⟨rfl, composite_slices_partition exMesh1 exChildren1 exData1 rfl⟩

/-! ## C3: the child repeat-count consistency check is dead code -/

/-- A mesh with `a=3`, `b=4` primary points and a secondary level `cc=2`. -/
def exMesh2 : String → Nat := fun d =>
  if d = "a" then 3 else if d = "b" then 4 else if d = "cc" then 2 else 0

/-- Two children: child 0 carries the secondary level `cc`, child 1 has empty
auxiliary domains, so child 1's own repeat count (1) differs from the
composite's (2). -/
def exChildren2 : List Domains :=
  [⟨["a"], ["cc"], [], []⟩, ⟨["b"], [], [], []⟩]

/-- The state the constructor actually computes for `exChildren2`: no error. -/
def exData2 : DCData :=
  ⟨⟨["a", "b"], ["cc"], [], []⟩, 2,
   [("a", ⟨0, 3⟩), ("b", ⟨3, 7⟩), ("a", ⟨7, 10⟩), ("b", ⟨10, 14⟩)], 14,
   [[("a", ⟨0, 3⟩), ("a", ⟨3, 6⟩)], [("b", ⟨0, 4⟩), ("b", ⟨4, 8⟩)]]⟩

/-- C3 (code bug): `create_slices` computes `second_pts` from `self.domains`
instead of the visited node's domains, so the `ValueError` guard compares the
composite's repeat count with itself and can never fire; in particular for
`exChildren2`, where child 1's auxiliary-domain sizing gives repeat count 1
while the composite's `secondary_repeat_count` is 2, construction succeeds
instead of raising `ValueError`. -/
theorem child_repeat_mismatch_not_detected :
    (∀ (mesh : String → Nat) (d : Domains) (nodeDomain : List String),
      create_slices mesh d (getAuxiliaryDomainRepeats mesh d) nodeDomain =
        .ok (createSlicesFrom mesh nodeDomain (getAuxiliaryDomainRepeats mesh d) 0)) ∧
    getAuxiliaryDomainRepeats exMesh2 ⟨["b"], [], [], []⟩ = 1 ∧
    getAuxiliaryDomainRepeats exMesh2 ⟨["a", "b"], ["cc"], [], []⟩ = 2 ∧
    domainConcatenationInit exMesh2 exChildren2 = .ok exData2 :=
  ⟨fun mesh d nodeDomain => by simp [create_slices], rfl, rfl, rfl⟩

/-! ## Properties of the domain validator -/

/-- Children have disjoint primary domains. -/
def DomsDisjoint (a b : Domains) : Prop := ∀ x ∈ a.primary, x ∉ b.primary

instance (a b : Domains) : Decidable (DomsDisjoint a b) := by
  unfold DomsDisjoint
  infer_instance

theorem combinePrimary_ok_shape {acc : List String} {cs : List Domains} {p : List String}
    (h : combinePrimary acc cs = .ok p) : p = acc ++ (cs.map (·.primary)).flatten := by
  induction cs generalizing acc with
  | nil =>
    simp only [combinePrimary, Except.ok.injEq] at h
    simp [h]
  | cons c t ih =>
    rw [combinePrimary] at h
    split at h
    · exact absurd h (by simp)
    · split at h
      · have hp := ih h
        simp [hp, List.append_assoc]
      · exact absurd h (by simp)

theorem combinePrimary_ok (acc : List String) (cs : List Domains)
    (hne : ∀ c ∈ cs, c.primary ≠ [])
    (hdisj : cs.Pairwise DomsDisjoint)
    (hacc : ∀ c ∈ cs, ∀ x ∈ acc, x ∉ c.primary) :
    combinePrimary acc cs = .ok (acc ++ (cs.map (·.primary)).flatten) := by
  induction cs generalizing acc with
  | nil => simp [combinePrimary]
  | cons c t ih =>
    rw [combinePrimary]
    have h1 : c.primary.isEmpty = false := by
      have := hne c (List.mem_cons_self _ _)
      simpa [List.isEmpty_iff] using this
    have h2 : acc.all (fun d => !c.primary.contains d) = true := by
      simp only [List.all_eq_true, Bool.not_eq_true']
      intro x hx
      have := hacc c (List.mem_cons_self _ _) x hx
      simpa using this
    rw [h1]
    simp only [Bool.false_eq_true, if_false, h2, if_true]
    obtain ⟨hhead, htail⟩ := List.pairwise_cons.mp hdisj
    have ihres := ih (acc ++ c.primary)
      (fun c' hc' => hne c' (List.mem_cons_of_mem _ hc'))
      htail
      (fun c' hc' x hx => by
        rcases List.mem_append.mp hx with hxa | hxc
        · exact hacc c' (List.mem_cons_of_mem _ hc') x hxa
        · exact hhead c' hc' x hxc)
    rw [ihres]
    simp [List.append_assoc]

theorem combinePrimary_error_of_empty {cs : List Domains}
    (hempty : ∃ c ∈ cs, c.primary = []) (acc : List String) :
    ∃ msg, combinePrimary acc cs = .error (.domainError msg) := by
  induction cs generalizing acc with
  | nil => simp at hempty
  | cons c t ih =>
    by_cases h1 : c.primary.isEmpty
    · exact ⟨_, by rw [combinePrimary, if_pos h1]⟩
    · have hct : ∃ c' ∈ t, c'.primary = [] := by
        rcases hempty with ⟨c', hc', he⟩
        rcases List.mem_cons.mp hc' with rfl | hmem
        · exact absurd (by simp [he]) h1
        · exact ⟨c', hmem, he⟩
      by_cases h2 : acc.all (fun d => !c.primary.contains d) = true
      · rw [combinePrimary, if_neg h1, if_pos h2]
        exact ih hct _
      · exact ⟨_, by rw [combinePrimary, if_neg h1, if_neg h2]⟩

theorem combinePrimary_error_of_acc_overlap {cs : List Domains}
    (acc : List String) (hover : ∃ c ∈ cs, ∃ x ∈ acc, x ∈ c.primary) :
    ∃ msg, combinePrimary acc cs = .error (.domainError msg) := by
  induction cs generalizing acc with
  | nil => simp at hover
  | cons c t ih =>
    by_cases h1 : c.primary.isEmpty
    · exact ⟨_, by rw [combinePrimary, if_pos h1]⟩
    · by_cases h2 : acc.all (fun d => !c.primary.contains d) = true
      · rw [combinePrimary, if_neg h1, if_pos h2]
        refine ih (acc ++ c.primary) ?_
        rcases hover with ⟨c', hc', x, hxacc, hxc⟩
        rcases List.mem_cons.mp hc' with heq | hmem
        · exfalso
          simp only [List.all_eq_true, Bool.not_eq_true'] at h2
          have hfalse := h2 x hxacc
          have hx : x ∉ c.primary := by simpa using hfalse
          exact hx (heq ▸ hxc)
        · exact ⟨c', hmem, x, List.mem_append_left _ hxacc, hxc⟩
      · exact ⟨_, by rw [combinePrimary, if_neg h1, if_neg h2]⟩

theorem combinePrimary_error_of_not_pairwise {cs : List Domains}
    (h : ¬ cs.Pairwise DomsDisjoint) (acc : List String) :
    ∃ msg, combinePrimary acc cs = .error (.domainError msg) := by
  induction cs generalizing acc with
  | nil => exact absurd List.Pairwise.nil h
  | cons c t ih =>
    by_cases h1 : c.primary.isEmpty
    · exact ⟨_, by rw [combinePrimary, if_pos h1]⟩
    · by_cases h2 : acc.all (fun d => !c.primary.contains d) = true
      · rw [combinePrimary, if_neg h1, if_pos h2]
        by_cases hhead : ∀ b ∈ t, DomsDisjoint c b
        · have htail : ¬ t.Pairwise DomsDisjoint := by
            intro hp
            exact h (List.pairwise_cons.mpr ⟨hhead, hp⟩)
          exact ih htail _
        · push_neg at hhead
          obtain ⟨b, hb, hnd⟩ := hhead
          unfold DomsDisjoint at hnd
          push_neg at hnd
          obtain ⟨x, hx1, hx2⟩ := hnd
          exact combinePrimary_error_of_acc_overlap (acc ++ c.primary)
            ⟨b, hb, x, List.mem_append_right _ hx1, hx2⟩
      · exact ⟨_, by rw [combinePrimary, if_neg h1, if_neg h2]⟩

theorem getChildrenDomains_error {cs : List Domains} {e : ConcatError}
    (h : combinePrimary [] cs = .error e) : getChildrenDomains cs = .error e := by
  unfold getChildrenDomains
  rw [h]
  rfl

theorem checkLevel_ok {dom : List String} {rest : List Domains} {get : Domains → List String}
    (h : dom = [] ∨ ∀ c ∈ rest, get c = dom ∨ get c = []) :
    checkLevel dom rest get = .ok () := by
  unfold checkLevel
  rcases h with rfl | hall
  · simp
  · rcases eq_or_ne dom [] with rfl | hne
    · simp
    · rw [if_neg hne, if_pos]
      simp only [List.all_eq_true, decide_eq_true_eq]
      exact hall

theorem checkLevel_error {dom : List String} {rest : List Domains} {get : Domains → List String}
    (hne : dom ≠ []) (hbad : ∃ c ∈ rest, get c ≠ dom ∧ get c ≠ []) :
    checkLevel dom rest get =
      .error (.domainError "children must have same or empty auxiliary domains") := by
  unfold checkLevel
  have hcond : ¬ (rest.all (fun c => decide (get c = dom ∨ get c = [])) = true) := by
    simp only [List.all_eq_true, decide_eq_true_eq]
    push_neg
    obtain ⟨c, hc, h1, h2⟩ := hbad
    exact ⟨c, hc, h1, h2⟩
  rw [if_neg hne, if_neg hcond]

theorem checkLevel_cases (dom : List String) (rest : List Domains) (get : Domains → List String) :
    checkLevel dom rest get = .ok () ∨
    checkLevel dom rest get =
      .error (.domainError "children must have same or empty auxiliary domains") := by
  unfold checkLevel
  split
  · exact Or.inl rfl
  · split
    · exact Or.inl rfl
    · exact Or.inr rfl

/-- Compatibility of every auxiliary level with child 0: the condition under
which the aux-domain loop of `get_children_domains` raises nothing. -/
def AuxCompatible (c0 : Domains) (rest : List Domains) : Prop :=
  (c0.secondary = [] ∨ ∀ c ∈ rest, c.secondary = c0.secondary ∨ c.secondary = []) ∧
  (c0.tertiary = [] ∨ ∀ c ∈ rest, c.tertiary = c0.tertiary ∨ c.tertiary = []) ∧
  (c0.quaternary = [] ∨ ∀ c ∈ rest, c.quaternary = c0.quaternary ∨ c.quaternary = [])

/-- Some auxiliary level of child 0 is non-empty while a later child has a
different non-empty sequence at that level. -/
def AuxViolation (c0 : Domains) (rest : List Domains) : Prop :=
  (c0.secondary ≠ [] ∧ ∃ c ∈ rest, c.secondary ≠ c0.secondary ∧ c.secondary ≠ []) ∨
  (c0.tertiary ≠ [] ∧ ∃ c ∈ rest, c.tertiary ≠ c0.tertiary ∧ c.tertiary ≠ []) ∨
  (c0.quaternary ≠ [] ∧ ∃ c ∈ rest, c.quaternary ≠ c0.quaternary ∧ c.quaternary ≠ [])

theorem getChildrenDomains_ok_of {c0 : Domains} {rest : List Domains} {p : List String}
    (hprim : combinePrimary [] (c0 :: rest) = .ok p)
    (haux : AuxCompatible c0 rest) :
    getChildrenDomains (c0 :: rest) = .ok ⟨p, c0.secondary, c0.tertiary, c0.quaternary⟩ := by
  obtain ⟨h1, h2, h3⟩ := haux
  unfold getChildrenDomains
  rw [hprim]
  simp only [Bind.bind, Except.bind]
  rw [checkLevel_ok h1, checkLevel_ok h2, checkLevel_ok h3]
  rfl

theorem getChildrenDomains_error_of_aux {c0 : Domains} {rest : List Domains} {p : List String}
    (hprim : combinePrimary [] (c0 :: rest) = .ok p)
    (hviol : AuxViolation c0 rest) :
    getChildrenDomains (c0 :: rest) =
      .error (.domainError "children must have same or empty auxiliary domains") := by
  unfold getChildrenDomains
  rw [hprim]
  simp only [Bind.bind, Except.bind]
  rcases hviol with ⟨hne, hbad⟩ | ⟨hne, hbad⟩ | ⟨hne, hbad⟩
  · rw [checkLevel_error hne hbad]
  · rcases checkLevel_cases c0.secondary rest (·.secondary) with hok | herr
    · rw [hok, checkLevel_error hne hbad]
    · rw [herr]
  · rcases checkLevel_cases c0.secondary rest (·.secondary) with hok | herr
    · rw [hok]
      rcases checkLevel_cases c0.tertiary rest (·.tertiary) with hok2 | herr2
      · rw [hok2, checkLevel_error hne hbad]
      · rw [herr2]
    · rw [herr]

theorem getChildrenDomains_shape {cs : List Domains} {d : Domains}
    (h : getChildrenDomains cs = .ok d) :
    d.primary = (cs.map (·.primary)).flatten ∧
    ∃ c0 rest, cs = c0 :: rest ∧ d.secondary = c0.secondary ∧
      d.tertiary = c0.tertiary ∧ d.quaternary = c0.quaternary := by
  unfold getChildrenDomains at h
  cases hp : combinePrimary [] cs with
  | error e =>
    rw [hp] at h
    exact absurd h (by simp [Bind.bind, Except.bind])
  | ok p =>
    rw [hp] at h
    simp only [Bind.bind, Except.bind] at h
    have hshape := combinePrimary_ok_shape hp
    cases cs with
    | nil => exact absurd h (by simp)
    | cons c0 rest =>
      split at h
      next heq => exact absurd h (by simp)
      next c1 u heq =>
        injection heq with hc0 hu
        subst hc0
        subst hu
        split at h
        next heq2 => exact absurd h (by simp)
        next u2 heq2 =>
          split at h
          next heq3 => exact absurd h (by simp)
          next u3 heq3 =>
            split at h
            next heq4 => exact absurd h (by simp)
            next u4 heq4 =>
              simp only [pure, Except.pure, Except.ok.injEq] at h
              subst h
              refine ⟨by simpa using hshape, c0, rest, rfl, rfl, rfl, rfl⟩

/-! ## C6: primary domains concatenate in child order, overlaps are DomainError -/

/-- C6: for children whose primary domains are non-empty and pairwise disjoint,
the merged primary domain sequence is the concatenation of the children's
primary sequences in child order (both at the accumulation loop and through
`get_children_domains`); and whenever some child's primary domain is empty, or
two children share a primary-domain name, the validator fails with a
`DomainError`. -/
theorem concat_primary_domains (cs : List Domains) :
    ((∀ c ∈ cs, c.primary ≠ []) → cs.Pairwise DomsDisjoint →
      (combinePrimary [] cs = .ok ((cs.map (·.primary)).flatten) ∧
       ∀ d, getChildrenDomains cs = .ok d → d.primary = (cs.map (·.primary)).flatten)) ∧
    (((∃ c ∈ cs, c.primary = []) ∨ ¬ cs.Pairwise DomsDisjoint) →
      ∃ msg, getChildrenDomains cs = .error (.domainError msg)) := by
  constructor
  · intro hne hdisj
    refine ⟨?_, fun d hd => (getChildrenDomains_shape hd).1⟩
    have := combinePrimary_ok [] cs hne hdisj (by intro c _ x hx; simp at hx)
    simpa using this
  · intro hbad
    rcases hbad with hempty | hover
    · obtain ⟨msg, hmsg⟩ := combinePrimary_error_of_empty hempty []
      exact ⟨msg, getChildrenDomains_error hmsg⟩
    · obtain ⟨msg, hmsg⟩ := combinePrimary_error_of_not_pairwise hover []
      exact ⟨msg, getChildrenDomains_error hmsg⟩

/-- Two children sharing the primary-domain name `a`. -/
def exBadChildren : List Domains := [⟨["a"], [], [], []⟩, ⟨["a"], [], [], []⟩]

/-- Witness for C6: the good branch at the three-domain example, the error
branch at two children sharing a name. -/
theorem concat_primary_domains_witness :
    (combinePrimary [] exChildren1 = .ok ((exChildren1.map (·.primary)).flatten) ∧
     ∀ d, getChildrenDomains exChildren1 = .ok d →
       d.primary = (exChildren1.map (·.primary)).flatten) ∧
    (∃ msg, getChildrenDomains exBadChildren = .error (.domainError msg)) :=
  ⟨(concat_primary_domains exChildren1).1 (by decide) (by decide),
   (concat_primary_domains exBadChildren).2 (Or.inr (by decide))⟩

/-! ## C7: auxiliary levels are inherited from child 0 -/

/-- C7 (amended): past the primary-domain checks, each auxiliary level of the
merged descriptor equals child 0's sequence at that level, and the validator
fails with `DomainError` exactly when some level is non-empty in child 0 while
a later child has a different non-empty sequence at that level. -/
theorem aux_domains_follow_child0 (c0 : Domains) (rest : List Domains)
    (hne : ∀ c ∈ c0 :: rest, c.primary ≠ [])
    (hdisj : (c0 :: rest).Pairwise DomsDisjoint) :
    (AuxCompatible c0 rest →
      getChildrenDomains (c0 :: rest) =
        .ok ⟨((c0 :: rest).map (·.primary)).flatten,
             c0.secondary, c0.tertiary, c0.quaternary⟩) ∧
    (AuxViolation c0 rest →
      getChildrenDomains (c0 :: rest) =
        .error (.domainError "children must have same or empty auxiliary domains")) := by
  have hprim : combinePrimary [] (c0 :: rest) =
      .ok (((c0 :: rest).map (·.primary)).flatten) := by
    have := combinePrimary_ok [] (c0 :: rest) hne hdisj (by intro c _ x hx; simp at hx)
    simpa using this
  exact ⟨fun haux => getChildrenDomains_ok_of hprim haux,
         fun hviol => getChildrenDomains_error_of_aux hprim hviol⟩

/-- Child 0 with empty secondary level, child 1 with secondary `Z`. -/
def exAux1 : List Domains := [⟨["a"], [], [], []⟩, ⟨["b"], ["Z"], [], []⟩]

/-- Child 0 with empty secondary level; children 1 and 2 with different
non-empty secondary levels. -/
def exAux2 : List Domains :=
  [⟨["a"], [], [], []⟩, ⟨["b"], ["Z"], [], []⟩, ⟨["c"], ["W"], [], []⟩]

/-- Counterexample to C7 as stated: the merged secondary level is child 0's
empty sequence, not the sequence `["Z"]` of the first child with a non-empty
secondary level; and with two later children carrying different non-empty
secondary levels the validator still succeeds instead of raising
`DomainError`. -/
theorem aux_domains_counterexample :
    (getChildrenDomains exAux1 = .ok ⟨["a", "b"], [], [], []⟩ ∧
      (Domains.mk ["a", "b"] [] [] []).secondary ≠ ["Z"]) ∧
    (getChildrenDomains exAux2 = .ok ⟨["a", "b", "c"], [], [], []⟩ ∧
      (["Z"] : List String) ≠ [] ∧ (["W"] : List String) ≠ [] ∧
      (["W"] : List String) ≠ ["Z"]) :=
  ⟨⟨rfl, by decide⟩, ⟨rfl, by decide, by decide, by decide⟩⟩

/-- Children with a shared non-empty secondary level `cc`, one child leaving
it empty: the compatible case. -/
def exAux3c0 : Domains := ⟨["a"], ["cc"], [], []⟩

/-- The later children for the compatible case of the C7 witness. -/
def exAux3rest : List Domains := [⟨["b"], ["cc"], [], []⟩, ⟨["c"], [], [], []⟩]

/-- A later child with a different non-empty secondary level: the error case. -/
def exAux4rest : List Domains := [⟨["b"], ["dd"], [], []⟩]

/-- Witness for C7 (amended), exercising both the compatible branch and the
violation branch. -/
theorem aux_domains_follow_child0_witness :
    (getChildrenDomains (exAux3c0 :: exAux3rest) =
      .ok ⟨["a", "b", "c"], ["cc"], [], []⟩) ∧
    (getChildrenDomains (exAux3c0 :: exAux4rest) =
      .error (.domainError "children must have same or empty auxiliary domains")) :=
  ⟨(aux_domains_follow_child0 exAux3c0 exAux3rest (by decide) (by decide)).1
      ⟨by decide, by decide, by decide⟩,
   (aux_domains_follow_child0 exAux3c0 exAux4rest (by decide) (by decide)).2
      (Or.inl ⟨by decide, by decide⟩)⟩

/-! ## Evaluation of a DomainConcatenation -/

/-- One numpy slice assignment `vector[dst] = child_vector[src]` (line 310),
on vectors modelled as functions from index to value (the two slices have
equal length at every reachable call). -/
def writeSlice {α : Type} (v : Nat → α) (dst src : Slice) (w : Nat → α) : Nat → α :=
  fun p => if dst.start ≤ p ∧ p < dst.stop then w (src.start + (p - dst.start)) else v p

/-- The inner two loops of `_concatenation_evaluate` for one child: apply the
slice assignments in order. -/
def applyWrites {α : Type} (w : Nat → α) (ws : List (Slice × Slice)) (v : Nat → α) : Nat → α :=
  ws.foldl (fun acc pr => writeSlice acc pr.1 pr.2 w) v

/-- The (destination, source) slice pairs visited for one child (lines
308-310): iterate the child's dict `slices.items()` in insertion order; for
each domain pair the composite's slice list `self._slices[child_dom]` with the
child's list positionally (`enumerate`). -/
def childWritePairs (compSlices childSlices : List (String × Slice)) : List (Slice × Slice) :=
  ((dictOf childSlices).map (fun pr => (filterKey pr.1 compSlices).zip pr.2)).flatten

/-- `DomainConcatenation._concatenation_evaluate` (lines 301-312): start from
the uninitialised vector `v0` (`np.empty`) and copy, child by child in order,
each child's evaluated sub-vectors into the composite slices. -/
def dcEvaluate {α : Type} (data : DCData) (childrenEval : List (Nat → α)) (v0 : Nat → α) :
    Nat → α :=
  (childrenEval.zip data.childrenSlices).foldl
    (fun v pr => applyWrites pr.1 (childWritePairs data.slices pr.2) v) v0

/-! ## Closed form of the slice lists -/

/-- Point count of the names before the first occurrence of `dom`. -/
def offsetBefore (mesh : String → Nat) : List String → String → Nat
  | [], _ => 0
  | d :: ds, dom => if d = dom then 0 else mesh d + offsetBefore mesh ds dom

/-- The slice recorded for `dom` in repeat `i` of the layout of `doms`. -/
def layoutSlice (mesh : String → Nat) (doms : List String) (dom : String) (i : Nat) : Slice :=
  ⟨i * sumNpts mesh doms + offsetBefore mesh doms dom,
   i * sumNpts mesh doms + offsetBefore mesh doms dom + mesh dom⟩

theorem filterKey_cons_eq (dom : String) (s : Slice) (l : List (String × Slice)) :
    filterKey dom ((dom, s) :: l) = s :: filterKey dom l := by
  simp [filterKey]

theorem filterKey_cons_ne {d dom : String} (h : d ≠ dom) (s : Slice)
    (l : List (String × Slice)) : filterKey dom ((d, s) :: l) = filterKey dom l := by
  simp [filterKey, h]

theorem offsetBefore_cons_eq (mesh : String → Nat) (dom : String) (ds : List String) :
    offsetBefore mesh (dom :: ds) dom = 0 := by
  simp [offsetBefore]

theorem offsetBefore_cons_ne (mesh : String → Nat) {d dom : String} (h : d ≠ dom)
    (ds : List String) :
    offsetBefore mesh (d :: ds) dom = mesh d + offsetBefore mesh ds dom := by
  simp [offsetBefore, h]

theorem filterKey_slicesOneRepeat_not_mem (mesh : String → Nat) {doms : List String}
    {dom : String} (h : dom ∉ doms) (c : Nat) :
    filterKey dom (slicesOneRepeat mesh doms c) = [] := by
  induction doms generalizing c with
  | nil => rfl
  | cons d ds ih =>
    have hd : d ≠ dom := fun he => h (he ▸ List.mem_cons_self _ _)
    have hds : dom ∉ ds := fun hm => h (List.mem_cons_of_mem _ hm)
    rw [slicesOneRepeat, filterKey_cons_ne hd]
    exact ih hds _

theorem filterKey_slicesOneRepeat (mesh : String → Nat) {doms : List String}
    (hnd : doms.Nodup) {dom : String} (hmem : dom ∈ doms) (c : Nat) :
    filterKey dom (slicesOneRepeat mesh doms c) =
      [⟨c + offsetBefore mesh doms dom, c + offsetBefore mesh doms dom + mesh dom⟩] := by
  induction doms generalizing c with
  | nil => cases hmem
  | cons d ds ih =>
    obtain ⟨hhead, htail⟩ := List.nodup_cons.mp hnd
    by_cases hd : d = dom
    · subst hd
      rw [slicesOneRepeat, filterKey_cons_eq, filterKey_slicesOneRepeat_not_mem mesh hhead,
        offsetBefore_cons_eq]
      simp
    · have hmem2 : dom ∈ ds := by
        rcases List.mem_cons.mp hmem with heq | hm
        · exact absurd heq.symm hd
        · exact hm
      rw [slicesOneRepeat, filterKey_cons_ne hd, ih htail hmem2 (c + mesh d),
        offsetBefore_cons_ne mesh hd]
      congr 1
      congr 1 <;> omega

theorem filterKey_createSlicesFrom_not_mem (mesh : String → Nat) {doms : List String}
    {dom : String} (h : dom ∉ doms) (n c : Nat) :
    filterKey dom (createSlicesFrom mesh doms n c) = [] := by
  induction n generalizing c with
  | zero => rfl
  | succ m ih =>
    rw [createSlicesFrom, filterKey, List.filterMap_append]
    show filterKey dom (slicesOneRepeat mesh doms c) ++
      filterKey dom (createSlicesFrom mesh doms m (c + sumNpts mesh doms)) = []
    rw [filterKey_slicesOneRepeat_not_mem mesh h, ih]
    rfl

theorem filterKey_createSlicesFrom (mesh : String → Nat) {doms : List String}
    (hnd : doms.Nodup) {dom : String} (hmem : dom ∈ doms) (n c : Nat) :
    filterKey dom (createSlicesFrom mesh doms n c) =
      (List.range n).map (fun i =>
        ⟨c + i * sumNpts mesh doms + offsetBefore mesh doms dom,
         c + i * sumNpts mesh doms + offsetBefore mesh doms dom + mesh dom⟩) := by
  induction n generalizing c with
  | zero => rfl
  | succ m ih =>
    rw [createSlicesFrom, filterKey, List.filterMap_append]
    show filterKey dom (slicesOneRepeat mesh doms c) ++
      filterKey dom (createSlicesFrom mesh doms m (c + sumNpts mesh doms)) = _
    rw [filterKey_slicesOneRepeat mesh hnd hmem, ih (c + sumNpts mesh doms),
      List.range_succ_eq_map]
    simp only [List.map_cons, List.map_map, List.singleton_append]
    congr 1
    · congr 1 <;> omega
    · apply List.map_congr_left
      intro i _
      simp only [Function.comp_apply]
      congr 1 <;> rw [Nat.succ_mul] <;> omega

/-- The slice for `dom` in repeat `i`, as recorded by a layout started at
cursor 0. -/
theorem filterKey_layout (mesh : String → Nat) {doms : List String} (hnd : doms.Nodup)
    {dom : String} (hmem : dom ∈ doms) (n : Nat) :
    filterKey dom (createSlicesFrom mesh doms n 0) =
      (List.range n).map (layoutSlice mesh doms dom) := by
  rw [filterKey_createSlicesFrom mesh hnd hmem n 0]
  apply List.map_congr_left
  intro i _
  simp only [layoutSlice]
  congr 1 <;> omega

theorem offsetBefore_add_le (mesh : String → Nat) {doms : List String} {dom : String}
    (hmem : dom ∈ doms) :
    offsetBefore mesh doms dom + mesh dom ≤ sumNpts mesh doms := by
  induction doms with
  | nil => cases hmem
  | cons d ds ih =>
    by_cases hd : d = dom
    · subst hd
      rw [offsetBefore_cons_eq, sumNpts_cons]
      omega
    · have hmem2 : dom ∈ ds := by
        rcases List.mem_cons.mp hmem with heq | hm
        · exact absurd heq.symm hd
        · exact hm
      rw [offsetBefore_cons_ne mesh hd, sumNpts_cons]
      have := ih hmem2
      omega

theorem offsetBefore_separated (mesh : String → Nat) {doms : List String} (hnd : doms.Nodup)
    {dom dom' : String} (hmem : dom ∈ doms) (hmem' : dom' ∈ doms) (hne : dom ≠ dom') :
    offsetBefore mesh doms dom + mesh dom ≤ offsetBefore mesh doms dom' ∨
    offsetBefore mesh doms dom' + mesh dom' ≤ offsetBefore mesh doms dom := by
  induction doms with
  | nil => cases hmem
  | cons d ds ih =>
    obtain ⟨hhead, htail⟩ := List.nodup_cons.mp hnd
    by_cases hd : d = dom
    · subst hd
      have hmem2 : dom' ∈ ds := by
        rcases List.mem_cons.mp hmem' with heq | hm
        · exact absurd heq.symm hne
        · exact hm
      left
      rw [offsetBefore_cons_eq, offsetBefore_cons_ne mesh hne]
      have h1 : offsetBefore mesh ds dom' ≥ 0 := Nat.zero_le _
      have h2 : d ∈ d :: ds := List.mem_cons_self _ _
      omega
    · by_cases hd' : d = dom'
      · subst hd'
        have hmem2 : dom ∈ ds := by
          rcases List.mem_cons.mp hmem with heq | hm
          · exact absurd heq.symm hd
          · exact hm
        right
        rw [offsetBefore_cons_eq, offsetBefore_cons_ne mesh hd]
        omega
      · have hm1 : dom ∈ ds := by
          rcases List.mem_cons.mp hmem with heq | hm
          · exact absurd heq.symm hd
          · exact hm
        have hm2 : dom' ∈ ds := by
          rcases List.mem_cons.mp hmem' with heq | hm
          · exact absurd heq.symm hd'
          · exact hm
        rw [offsetBefore_cons_ne mesh hd, offsetBefore_cons_ne mesh hd']
        rcases ih htail hm1 hm2 with hle | hle
        · left; omega
        · right; omega

/-! ## The dict view of a computed layout -/

theorem keysInOrder_mem {l : List String} {x : String} : x ∈ keysInOrder l ↔ x ∈ l := by
  induction l with
  | nil => simp [keysInOrder]
  | cons d ds ih =>
    simp only [keysInOrder, List.mem_cons, List.mem_filter, ih, decide_eq_true_eq]
    constructor
    · rintro (rfl | ⟨hm, _⟩)
      · exact Or.inl rfl
      · exact Or.inr hm
    · rintro (rfl | hm)
      · exact Or.inl rfl
      · by_cases hx : x = d
        · exact Or.inl hx
        · exact Or.inr ⟨hm, hx⟩

theorem keysInOrder_nodup {l : List String} (h : l.Nodup) : keysInOrder l = l := by
  induction l with
  | nil => rfl
  | cons d ds ih =>
    obtain ⟨hhead, htail⟩ := List.nodup_cons.mp h
    rw [keysInOrder, ih htail]
    congr 1
    apply List.filter_eq_self.mpr
    intro x hx
    simp only [decide_eq_true_eq]
    intro he
    exact hhead (he ▸ hx)

theorem keysInOrder_append (l r : List String) :
    keysInOrder (l ++ r) = keysInOrder l ++ (keysInOrder r).filter (fun x => decide (x ∉ l)) := by
  induction l with
  | nil => simp [keysInOrder]
  | cons d ds ih =>
    have hstep : (d :: ds) ++ r = d :: (ds ++ r) := rfl
    rw [hstep, keysInOrder, ih, keysInOrder, List.cons_append]
    congr 1
    rw [List.filter_append]
    congr 1
    rw [List.filter_filter]
    apply List.filter_congr
    intro x _
    by_cases h1 : x = d
    · simp [h1]
    · by_cases h2 : x ∈ ds <;> simp [h1, h2]

theorem keysInOrder_append_subset {l r : List String} (h : ∀ x ∈ r, x ∈ l) :
    keysInOrder (l ++ r) = keysInOrder l := by
  rw [keysInOrder_append]
  have hnil : (keysInOrder r).filter (fun x => decide (x ∉ l)) = [] := by
    rw [List.filter_eq_nil_iff]
    intro x hx
    simpa using h x (keysInOrder_mem.mp hx)
  rw [hnil, List.append_nil]

theorem keysInOrder_flatten_replicate {doms : List String} {n : Nat} (hn : 0 < n) :
    keysInOrder ((List.replicate n doms).flatten) = keysInOrder doms := by
  cases n with
  | zero => omega
  | succ m =>
    rw [List.replicate_succ, List.flatten_cons]
    apply keysInOrder_append_subset
    intro x hx
    obtain ⟨l, hl, hxl⟩ := List.mem_flatten.mp hx
    obtain ⟨-, rfl⟩ := List.mem_replicate.mp hl
    exact hxl

theorem dictOf_createSlicesFrom (mesh : String → Nat) {doms : List String}
    (hnd : doms.Nodup) {n : Nat} (hn : 0 < n) :
    dictOf (createSlicesFrom mesh doms n 0) =
      doms.map (fun dom => (dom, (List.range n).map (layoutSlice mesh doms dom))) := by
  unfold dictOf
  rw [createSlicesFrom_map_fst, keysInOrder_flatten_replicate hn, keysInOrder_nodup hnd]
  apply List.map_congr_left
  intro dom hdom
  rw [filterKey_layout mesh hnd hdom]

theorem childWritePairs_layout (mesh : String → Nat) {P cdoms : List String}
    (hndP : P.Nodup) (hndc : cdoms.Nodup) (hsub : ∀ x ∈ cdoms, x ∈ P) {n : Nat} (hn : 0 < n) :
    childWritePairs (createSlicesFrom mesh P n 0) (createSlicesFrom mesh cdoms n 0) =
      (cdoms.map (fun dom => (List.range n).map (fun i =>
        (layoutSlice mesh P dom i, layoutSlice mesh cdoms dom i)))).flatten := by
  unfold childWritePairs
  rw [dictOf_createSlicesFrom mesh hndc hn, List.map_map]
  congr 1
  apply List.map_congr_left
  intro dom hdom
  simp only [Function.comp_apply]
  rw [filterKey_layout mesh hndP (hsub dom hdom), List.zip_map']

/-! ## Each position is written by exactly one slice assignment -/

/-- Membership of a position in a slice range. -/
def inSlice (p : Nat) (s : Slice) : Prop := s.start ≤ p ∧ p < s.stop

theorem applyWrites_not_touched {α : Type} {w : Nat → α} {p : Nat} :
    ∀ {ws : List (Slice × Slice)} {v : Nat → α},
      (∀ pr ∈ ws, ¬ inSlice p pr.1) → applyWrites w ws v p = v p := by
  intro ws
  induction ws with
  | nil => intro v _; rfl
  | cons pr t ih =>
    intro v h
    show applyWrites w t (writeSlice v pr.1 pr.2 w) p = v p
    rw [ih (fun q hq => h q (List.mem_cons_of_mem _ hq))]
    unfold writeSlice
    exact if_neg (h pr (List.mem_cons_self _ _))

theorem applyWrites_unique {α : Type} {w : Nat → α} {dst src : Slice} {p : Nat}
    (hin : inSlice p dst) :
    ∀ {ws : List (Slice × Slice)} {v : Nat → α},
      (∀ pr ∈ ws, inSlice p pr.1 → pr = (dst, src)) →
      ((dst, src) ∈ ws ∨ v p = w (src.start + (p - dst.start))) →
      applyWrites w ws v p = w (src.start + (p - dst.start)) := by
  intro ws
  induction ws with
  | nil =>
    intro v _ hv
    rcases hv with h | h
    · cases h
    · exact h
  | cons pr t ih =>
    intro v huniq hv
    show applyWrites w t (writeSlice v pr.1 pr.2 w) p = _
    apply ih (fun q hq hqc => huniq q (List.mem_cons_of_mem _ hq) hqc)
    by_cases hc : inSlice p pr.1
    · have hpr : pr = (dst, src) := huniq pr (List.mem_cons_self _ _) hc
      right
      rw [hpr]
      unfold writeSlice
      rw [if_pos (hpr ▸ hc)]
    · rcases hv with hmem | hval
      · rcases List.mem_cons.mp hmem with heq | hmem2
        · exact absurd (heq ▸ hin) hc
        · exact Or.inl hmem2
      · right
        unfold writeSlice
        rw [if_neg (show ¬ (pr.1.start ≤ p ∧ p < pr.1.stop) from hc)]
        exact hval

theorem foldWrites_unique {α β : Type} (wfun : β → Nat → α) (gfun : β → List (Slice × Slice))
    {dst src : Slice} {p : Nat} {w0 : Nat → α} (hin : inSlice p dst) :
    ∀ {items : List β} {v : Nat → α},
      (∀ it ∈ items, ∀ pr ∈ gfun it, inSlice p pr.1 → pr = (dst, src) ∧ wfun it = w0) →
      ((∃ it ∈ items, wfun it = w0 ∧ (dst, src) ∈ gfun it) ∨
        v p = w0 (src.start + (p - dst.start))) →
      (items.foldl (fun v it => applyWrites (wfun it) (gfun it) v) v) p =
        w0 (src.start + (p - dst.start)) := by
  intro items
  induction items with
  | nil =>
    intro v _ hv
    rcases hv with ⟨it, hit, _⟩ | h
    · cases hit
    · exact h
  | cons it t ih =>
    intro v huniq hv
    show (t.foldl _ (applyWrites (wfun it) (gfun it) v)) p = _
    apply ih (fun it2 hit2 => huniq it2 (List.mem_cons_of_mem _ hit2))
    by_cases htouch : ∃ pr ∈ gfun it, inSlice p pr.1
    · obtain ⟨pr, hpr, hprc⟩ := htouch
      obtain ⟨hpreq, hw⟩ := huniq it (List.mem_cons_self _ _) pr hpr hprc
      right
      rw [hw]
      apply applyWrites_unique hin
      · intro q hq hqc
        exact (huniq it (List.mem_cons_self _ _) q hq hqc).1
      · exact Or.inl (hpreq ▸ hpr)
    · push_neg at htouch
      rcases hv with ⟨it2, hit2, hw2, hmem2⟩ | hval
      · rcases List.mem_cons.mp hit2 with heq | hit3
        · exact absurd hin (by simpa using htouch (dst, src) (heq ▸ hmem2))
        · exact Or.inl ⟨it2, hit3, hw2, hmem2⟩
      · right
        rw [applyWrites_not_touched htouch]
        exact hval

theorem layoutSlice_disjoint (mesh : String → Nat) {P : List String} (hnd : P.Nodup)
    {dom dom' : String} (hm : dom ∈ P) (hm' : dom' ∈ P) {i i' k : Nat} (hk : k < mesh dom)
    (hin : inSlice (i * sumNpts mesh P + offsetBefore mesh P dom + k)
      (layoutSlice mesh P dom' i')) :
    dom' = dom ∧ i' = i := by
  obtain ⟨h1, h2⟩ := hin
  unfold layoutSlice at h1 h2
  simp only at h1 h2
  have hO1 := offsetBefore_add_le mesh hm
  have hO2 := offsetBefore_add_le mesh hm'
  by_cases hii : i = i'
  · subst hii
    rcases eq_or_ne dom' dom with rfl | hne
    · exact ⟨rfl, rfl⟩
    · rcases offsetBefore_separated mesh hnd hm hm' (fun he => hne he.symm) with hsep | hsep
      · omega
      · omega
  · exfalso
    rcases Nat.lt_or_ge i i' with hlt | hge
    · have hmul : (i + 1) * sumNpts mesh P ≤ i' * sumNpts mesh P :=
        Nat.mul_le_mul_right _ hlt
      rw [Nat.succ_mul] at hmul
      omega
    · have hlt2 : i' < i := by omega
      have hmul : (i' + 1) * sumNpts mesh P ≤ i * sumNpts mesh P :=
        Nat.mul_le_mul_right _ hlt2
      rw [Nat.succ_mul] at hmul
      omega

theorem mem_flatten_of_mem_getElem {α : Type} {ls : List (List α)} {i : Nat}
    (hi : i < ls.length) {x : α} (hx : x ∈ ls[i]) : x ∈ ls.flatten :=
  List.mem_flatten.mpr ⟨ls[i], ls.get_mem i hi, hx⟩

theorem flatten_nodup_mem_unique {α : Type} :
    ∀ {ls : List (List α)}, ls.flatten.Nodup →
      ∀ {i j : Nat} (hi : i < ls.length) (hj : j < ls.length) {x : α},
        x ∈ ls[i] → x ∈ ls[j] → i = j := by
  intro ls
  induction ls with
  | nil => intro _ i j hi; simp at hi
  | cons c t ih =>
    intro h i j hi hj x hxi hxj
    rw [List.flatten_cons, List.nodup_append] at h
    obtain ⟨hc, ht, hdisj⟩ := h
    cases i with
    | zero =>
      cases j with
      | zero => rfl
      | succ j2 =>
        have hj2 : j2 < t.length := by simpa using hj
        have hxj2 : x ∈ t[j2] := hxj
        exact absurd (mem_flatten_of_mem_getElem hj2 hxj2) (hdisj hxi)
    | succ i2 =>
      cases j with
      | zero =>
        have hi2 : i2 < t.length := by simpa using hi
        have hxi2 : x ∈ t[i2] := hxi
        exact absurd (mem_flatten_of_mem_getElem hi2 hxi2) (hdisj hxj)
      | succ j2 =>
        have := ih ht (by simpa using hi) (by simpa using hj) hxi hxj
        omega

theorem nodup_of_mem_flatten {α : Type} {ls : List (List α)} (h : ls.flatten.Nodup)
    {l : List α} (hl : l ∈ ls) : l.Nodup :=
  (List.sublist_flatten_of_mem hl).nodup h

theorem layoutSlice_start (mesh : String → Nat) (doms : List String) (dom : String) (i : Nat) :
    (layoutSlice mesh doms dom i).start =
      i * sumNpts mesh doms + offsetBefore mesh doms dom := rfl

theorem layoutSlice_stop (mesh : String → Nat) (doms : List String) (dom : String) (i : Nat) :
    (layoutSlice mesh doms dom i).stop =
      i * sumNpts mesh doms + offsetBefore mesh doms dom + mesh dom := rfl

theorem childWritePairs_mem_iff (mesh : String → Nat) {P cdoms : List String}
    (hndP : P.Nodup) (hndc : cdoms.Nodup) (hsub : ∀ x ∈ cdoms, x ∈ P) {n : Nat} (hn : 0 < n)
    {pr : Slice × Slice} :
    pr ∈ childWritePairs (createSlicesFrom mesh P n 0) (createSlicesFrom mesh cdoms n 0) ↔
      ∃ dom ∈ cdoms, ∃ i < n,
        pr = (layoutSlice mesh P dom i, layoutSlice mesh cdoms dom i) := by
  rw [childWritePairs_layout mesh hndP hndc hsub hn]
  simp only [List.mem_flatten, List.mem_map]
  constructor
  · rintro ⟨l, ⟨dom, hdom, rfl⟩, hpr⟩
    simp only [List.mem_map, List.mem_range] at hpr
    obtain ⟨i, hi, heq⟩ := hpr
    exact ⟨dom, hdom, i, hi, heq.symm⟩
  · rintro ⟨dom, hdom, i, hi, rfl⟩
    refine ⟨_, ⟨dom, hdom, rfl⟩, ?_⟩
    simp only [List.mem_map, List.mem_range]
    exact ⟨i, hi, rfl⟩

/-! ## C2: evaluation copies each child into its composite slices -/

/-- C2: for every successfully constructed DomainConcatenation (with the usual
data-model invariant that domain names are not repeated), evaluation yields a
vector such that for every child, every domain of that child and every repeat
index, the value at each position of the corresponding composite slice equals
the child's evaluated value at the matching position of that child's own
slice. -/
theorem domain_concatenation_evaluate {α : Type} (mesh : String → Nat) (cds : List Domains)
    (data : DCData) (childrenEval : List (Nat → α)) (v0 : Nat → α)
    (h : domainConcatenationInit mesh cds = .ok data)
    (hnodup : data.domains.primary.Nodup)
    (hlen : childrenEval.length = cds.length)
    (ci : Nat) (hci : ci < cds.length) (dom : String)
    (hdom : dom ∈ (cds.get ⟨ci, hci⟩).primary)
    (i : Nat) (hin2 : i < data.secondaryDimensionsNpts)
    (k : Nat) (hk : k < mesh dom) :
    dcEvaluate data childrenEval v0
        (i * sumNpts mesh data.domains.primary +
          offsetBefore mesh data.domains.primary dom + k) =
      childrenEval.get ⟨ci, by omega⟩
        (i * sumNpts mesh (cds.get ⟨ci, hci⟩).primary +
          offsetBefore mesh (cds.get ⟨ci, hci⟩).primary dom + k) := by
  obtain ⟨hg, hnpts, hslices, hsz, hchildren⟩ := domainConcatenationInit_inv h
  have hP : data.domains.primary = (cds.map (·.primary)).flatten :=
    (getChildrenDomains_shape hg).1
  have hn : 0 < data.secondaryDimensionsNpts := by omega
  have hlsnd : (cds.map (·.primary)).flatten.Nodup := by rw [← hP]; exact hnodup
  have hsub : ∀ (j : Nat) (hj : j < cds.length), ∀ x ∈ (cds.get ⟨j, hj⟩).primary,
      x ∈ data.domains.primary := by
    intro j hj x hx
    rw [hP]
    have hjm : j < (cds.map (·.primary)).length := by simpa using hj
    refine mem_flatten_of_mem_getElem hjm ?_
    rw [List.getElem_map]
    exact hx
  have hndj : ∀ (j : Nat) (hj : j < cds.length), (cds.get ⟨j, hj⟩).primary.Nodup := by
    intro j hj
    exact nodup_of_mem_flatten hlsnd
      (List.mem_map.mpr ⟨cds.get ⟨j, hj⟩, cds.get_mem j hj, rfl⟩)
  have hdomP : dom ∈ data.domains.primary := hsub ci hci dom hdom
  have hin : inSlice (i * sumNpts mesh data.domains.primary +
      offsetBefore mesh data.domains.primary dom + k)
      (layoutSlice mesh data.domains.primary dom i) := by
    unfold inSlice
    rw [layoutSlice_start, layoutSlice_stop]
    omega
  have huniq : ∀ it ∈ childrenEval.zip (cds.map (fun cd =>
        createSlicesFrom mesh cd.primary data.secondaryDimensionsNpts 0)),
      ∀ pr ∈ childWritePairs
          (createSlicesFrom mesh data.domains.primary data.secondaryDimensionsNpts 0) it.2,
        inSlice (i * sumNpts mesh data.domains.primary +
            offsetBefore mesh data.domains.primary dom + k) pr.1 →
        pr = (layoutSlice mesh data.domains.primary dom i,
              layoutSlice mesh (cds.get ⟨ci, hci⟩).primary dom i) ∧
        it.1 = childrenEval.get ⟨ci, by omega⟩ := by
    intro it hit pr hpr hprc
    obtain ⟨⟨j, hj⟩, hitj⟩ := List.mem_iff_get.mp hit
    have hjc : j < cds.length := by
      have hh := hj
      rw [List.length_zip, List.length_map, hlen, Nat.min_self] at hh
      exact hh
    have hjE : j < childrenEval.length := by omega
    have hit_eq : it = (childrenEval.get ⟨j, hjE⟩,
        createSlicesFrom mesh (cds.get ⟨j, hjc⟩).primary data.secondaryDimensionsNpts 0) := by
      rw [← hitj]
      show (childrenEval.zip _)[j] = _
      rw [List.getElem_zip, List.getElem_map]
      rfl
    subst hit_eq
    simp only at hpr hprc ⊢
    rw [childWritePairs_mem_iff mesh hnodup (hndj j hjc) (hsub j hjc) hn] at hpr
    obtain ⟨dom2, hdom2, i2, hi2, rfl⟩ := hpr
    simp only at hprc
    obtain ⟨hdeq, hieq⟩ :=
      layoutSlice_disjoint mesh hnodup hdomP (hsub j hjc dom2 hdom2) hk hprc
    rw [hdeq] at hdom2
    have hjm : j < (cds.map (·.primary)).length := by simpa using hjc
    have hcim : ci < (cds.map (·.primary)).length := by simpa using hci
    have hmj : dom ∈ (cds.map (·.primary))[j] := by
      rw [List.getElem_map]
      exact hdom2
    have hmci : dom ∈ (cds.map (·.primary))[ci] := by
      rw [List.getElem_map]
      exact hdom
    have hjci : j = ci :=
      @flatten_nodup_mem_unique String (cds.map (·.primary)) hlsnd j ci hjm hcim dom hmj hmci
    subst hjci
    constructor
    · rw [hdeq, hieq]
    · rfl
  have hstart : (∃ it ∈ childrenEval.zip (cds.map (fun cd =>
        createSlicesFrom mesh cd.primary data.secondaryDimensionsNpts 0)),
      it.1 = childrenEval.get ⟨ci, by omega⟩ ∧
      (layoutSlice mesh data.domains.primary dom i,
       layoutSlice mesh (cds.get ⟨ci, hci⟩).primary dom i) ∈ childWritePairs
          (createSlicesFrom mesh data.domains.primary data.secondaryDimensionsNpts 0) it.2) ∨
      v0 (i * sumNpts mesh data.domains.primary +
        offsetBefore mesh data.domains.primary dom + k) =
        childrenEval.get ⟨ci, by omega⟩
          ((layoutSlice mesh (cds.get ⟨ci, hci⟩).primary dom i).start +
            (i * sumNpts mesh data.domains.primary +
              offsetBefore mesh data.domains.primary dom + k -
              (layoutSlice mesh data.domains.primary dom i).start)) := by
    left
    have hciz : ci < (childrenEval.zip (cds.map (fun cd =>
        createSlicesFrom mesh cd.primary data.secondaryDimensionsNpts 0))).length := by
      rw [List.length_zip, List.length_map, hlen, Nat.min_self]
      exact hci
    have hcim2 : ci < (cds.map (fun cd =>
        createSlicesFrom mesh cd.primary data.secondaryDimensionsNpts 0)).length := by
      simpa using hci
    refine ⟨_, (childrenEval.zip _).get_mem ci hciz, ?_, ?_⟩
    · show ((childrenEval.zip _)[ci]).1 = _
      rw [List.getElem_zip]
      rfl
    · show _ ∈ childWritePairs _ (((childrenEval.zip _)[ci]).2)
      rw [List.getElem_zip]
      show _ ∈ childWritePairs _ ((cds.map (fun cd =>
        createSlicesFrom mesh cd.primary data.secondaryDimensionsNpts 0))[ci])
      rw [List.getElem_map]
      exact (childWritePairs_mem_iff mesh hnodup (hndj ci hci) (hsub ci hci) hn).mpr
        ⟨dom, hdom, i, hin2, rfl⟩
  unfold dcEvaluate
  rw [hchildren, hslices]
  have main := @foldWrites_unique α ((Nat → α) × List (String × Slice)) Prod.fst
    (fun pr => childWritePairs
      (createSlicesFrom mesh data.domains.primary data.secondaryDimensionsNpts 0) pr.2)
    (layoutSlice mesh data.domains.primary dom i)
    (layoutSlice mesh (cds.get ⟨ci, hci⟩).primary dom i)
    (i * sumNpts mesh data.domains.primary + offsetBefore mesh data.domains.primary dom + k)
    (childrenEval.get ⟨ci, by omega⟩)
    hin _ v0 huniq hstart
  have harg : (layoutSlice mesh (cds.get ⟨ci, hci⟩).primary dom i).start +
      (i * sumNpts mesh data.domains.primary + offsetBefore mesh data.domains.primary dom + k -
       (layoutSlice mesh data.domains.primary dom i).start) =
      i * sumNpts mesh (cds.get ⟨ci, hci⟩).primary +
        offsetBefore mesh (cds.get ⟨ci, hci⟩).primary dom + k := by
    rw [layoutSlice_start, layoutSlice_start]
    omega
  rw [harg] at main
  exact main

/-- Concrete child evaluation vectors for the running example. -/
def exEval1 : List (Nat → Int) :=
  [fun p => (p : Int) + 100, fun p => (p : Int) + 200, fun p => (p : Int) + 300]

/-- The uninitialised vector of the running example. -/
def exInit1 : Nat → Int := fun _ => 0

/-- Witness for C2 at the running example (negative=5, separator=3, positive=4:
total size 12, slices `[0,5)`, `[5,8)`, `[8,12)`), reading back the separator
child's value at repeat 0, offset 2. -/
theorem domain_concatenation_evaluate_witness :
    exData1.size = 12 ∧
    filterKey "negative" exData1.slices = [⟨0, 5⟩] ∧
    filterKey "separator" exData1.slices = [⟨5, 8⟩] ∧
    filterKey "positive" exData1.slices = [⟨8, 12⟩] ∧
    dcEvaluate exData1 exEval1 exInit1
        (0 * sumNpts exMesh1 exData1.domains.primary +
          offsetBefore exMesh1 exData1.domains.primary "separator" + 2) =
      exEval1.get ⟨1, by decide⟩
        (0 * sumNpts exMesh1 (exChildren1.get ⟨1, by decide⟩).primary +
          offsetBefore exMesh1 (exChildren1.get ⟨1, by decide⟩).primary "separator" + 2) :=
  ⟨rfl, rfl, rfl, rfl,
   domain_concatenation_evaluate exMesh1 exChildren1 exData1 exEval1 exInit1 rfl
     (by decide) rfl 1 (by decide) "separator" (by decide) 0 (by decide) 2 (by decide)⟩

/-! ## Jacobian of a DomainConcatenation -/

/-- Jacobian-structure expressions: the opaque jacobian of child `i`
(`children_jacs[i]`), a row-range extraction `pybamm.Index`, and the
matrix stack `SparseStack` (modelled structurally; its sparse-vs-dense
function choice is numeric only). -/
inductive JacExpr where
  | jac (i : Nat)
  | index (e : JacExpr) (s : Slice)
  | sparseStack (blocks : List JacExpr)
deriving BEq, Repr

/-- One pass of the inner loop of `_concatenation_jac` (lines 320-327) for
repeat `i`: for each (child jacobian, child slice dict) pair in order, raise
`NotImplementedError` when the dict has more than one domain, else append
`Index(child_jac, child_slice[i])` built from the first domain's slice list
(`next(iter(slices.values()))`).  The `headD`/`getD` defaults stand for
Python's `StopIteration`/`IndexError` on inputs that cannot arise from a
constructed concatenation. -/
def jacRow : List (JacExpr × List (String × List Slice)) → Nat → Except ConcatError (List JacExpr)
  | [], _ => .ok []
  | (cj, slices) :: rest, i =>
    if slices.length > 1 then
      .error (.notImplementedError "jacobian only implemented for when each child has a single domain")
    else do
      let tail ← jacRow rest i
      .ok (JacExpr.index cj (((slices.headD ("", [])).2).getD i ⟨0, 0⟩) :: tail)

/-- `DomainConcatenation._concatenation_jac` (lines 314-328): for each of the
`secondary_dimensions_npts` repeats, for each child in order, extract that
repeat's block of the child's jacobian; stack all blocks. -/
def concatenationJacDC (repeats : Nat) (pairs : List (JacExpr × List (String × List Slice))) :
    Except ConcatError JacExpr := do
  let rows ← (List.range repeats).mapM (jacRow pairs)
  .ok (.sparseStack rows.flatten)

/-- The Jacobian entry point on a constructed DomainConcatenation:
`zip(children_jacs, self._children_slices)`, where the stored flat slice
lists are read through their dict view. -/
def domainConcatenationJac (data : DCData) (childrenJacs : List JacExpr) :
    Except ConcatError JacExpr :=
  concatenationJacDC data.secondaryDimensionsNpts
    (childrenJacs.zip (data.childrenSlices.map dictOf))

theorem jacRow_error {pairs : List (JacExpr × List (String × List Slice))}
    (hbad : ∃ pr ∈ pairs, 1 < pr.2.length) (i : Nat) :
    jacRow pairs i =
      .error (.notImplementedError "jacobian only implemented for when each child has a single domain") := by
  induction pairs with
  | nil => simp at hbad
  | cons pr rest ih =>
    obtain ⟨cj, slices⟩ := pr
    by_cases hlen : slices.length > 1
    · rw [jacRow, if_pos hlen]
    · rw [jacRow, if_neg hlen]
      have hbad2 : ∃ pr ∈ rest, 1 < pr.2.length := by
        obtain ⟨q, hq, hql⟩ := hbad
        rcases List.mem_cons.mp hq with heq | hm
        · exact absurd (heq ▸ hql) (by simpa using hlen)
        · exact ⟨q, hm, hql⟩
      rw [ih hbad2]
      rfl

theorem jacRow_ok {pairs : List (JacExpr × List (String × List Slice))}
    (hone : ∀ pr ∈ pairs, pr.2.length ≤ 1) (i : Nat) :
    jacRow pairs i =
      .ok (pairs.map (fun pr =>
        JacExpr.index pr.1 (((pr.2.headD ("", [])).2).getD i ⟨0, 0⟩))) := by
  induction pairs with
  | nil => rfl
  | cons pr rest ih =>
    obtain ⟨cj, slices⟩ := pr
    have hlen : ¬ slices.length > 1 := by
      have := hone (cj, slices) (List.mem_cons_self _ _)
      simpa using this
    rw [jacRow, if_neg hlen, ih (fun q hq => hone q (List.mem_cons_of_mem _ hq))]
    rfl

theorem exceptMapM_ok_of {α β : Type} {f : α → Except ConcatError β} {g : α → β}
    {l : List α} (h : ∀ a ∈ l, f a = .ok (g a)) : l.mapM f = .ok (l.map g) := by
  induction l with
  | nil => rfl
  | cons x t ih =>
    rw [List.mapM_cons, h x (List.mem_cons_self _ _),
      ih (fun a ha => h a (List.mem_cons_of_mem _ ha))]
    rfl

theorem exceptMapM_error_head {α β : Type} {f : α → Except ConcatError β} {x : α}
    {l : List α} {e : ConcatError} (h : f x = .error e) : (x :: l).mapM f = .error e := by
  rw [List.mapM_cons, h]
  rfl

theorem getD_range_map {α : Type} (f : Nat → α) {n i : Nat} (hi : i < n) (d : α) :
    ((List.range n).map f).getD i d = f i := by
  rw [List.getD_eq_getElem?_getD, List.getElem?_map, List.getElem?_range hi]
  rfl

theorem dictOf_createSlicesFrom_length (mesh : String → Nat) (cdoms : List String) {n : Nat}
    (hn : 0 < n) :
    (dictOf (createSlicesFrom mesh cdoms n 0)).length = (keysInOrder cdoms).length := by
  unfold dictOf
  rw [List.length_map, createSlicesFrom_map_fst, keysInOrder_flatten_replicate hn]

theorem layoutSlice_single (mesh : String → Nat) (dom : String) (i : Nat) :
    layoutSlice mesh [dom] dom i = ⟨i * mesh dom, i * mesh dom + mesh dom⟩ := by
  unfold layoutSlice
  have h1 : sumNpts mesh [dom] = mesh dom := by simp [sumNpts]
  have h2 : offsetBefore mesh [dom] dom = 0 := offsetBefore_cons_eq mesh dom []
  rw [h1, h2]
  simp

/-! ## C4: the Jacobian is a (repeat, child) row-major stack of blocks -/

/-- C4: for every successfully constructed DomainConcatenation, requesting the
Jacobian when some child spans more than one domain raises
`NotImplementedError`; when every child occupies exactly one domain the result
is the `SparseStack` of `secondary_repeat_count × n_children` extracted
`Index` blocks in (repeat, child) row-major order, block `(i, c)` selecting
rows `[i·npts_c, (i+1)·npts_c)` of child `c`'s jacobian. -/
theorem domain_concatenation_jac (mesh : String → Nat) (cds : List Domains) (data : DCData)
    (childrenJacs : List JacExpr)
    (h : domainConcatenationInit mesh cds = .ok data)
    (hlen : childrenJacs.length = cds.length) :
    ((∃ cd ∈ cds, 1 < (keysInOrder cd.primary).length) →
      domainConcatenationJac data childrenJacs =
        .error (.notImplementedError
          "jacobian only implemented for when each child has a single domain")) ∧
    ((∀ cd ∈ cds, ∃ dom, cd.primary = [dom]) →
      domainConcatenationJac data childrenJacs =
        .ok (.sparseStack (((List.range data.secondaryDimensionsNpts).map (fun i =>
          (childrenJacs.zip cds).map (fun pr =>
            JacExpr.index pr.1 ⟨i * mesh (pr.2.primary.headD ""),
              i * mesh (pr.2.primary.headD "") + mesh (pr.2.primary.headD "")⟩))).flatten)) ∧
      ∀ blocks, domainConcatenationJac data childrenJacs = .ok (.sparseStack blocks) →
        blocks.length = data.secondaryDimensionsNpts * childrenJacs.length) := by
  obtain ⟨hg, hnpts, hslices, hsz, hchildren⟩ := domainConcatenationInit_inv h
  have hn : 0 < data.secondaryDimensionsNpts := by
    obtain ⟨dom, hdom, s, hfk, hsizeq⟩ := hsz
    have hne : data.slices ≠ [] := by
      intro hc; rw [hc] at hfk; simp [filterKey] at hfk
    rcases Nat.eq_zero_or_pos data.secondaryDimensionsNpts with h0 | hpos
    · rw [h0] at hslices
      simp only [createSlicesFrom] at hslices
      exact absurd hslices hne
    · exact hpos
  have hpairs : childrenJacs.zip (data.childrenSlices.map dictOf) =
      (childrenJacs.zip cds).map (Prod.map id (fun cd =>
        dictOf (createSlicesFrom mesh cd.primary data.secondaryDimensionsNpts 0))) := by
    rw [hchildren, List.map_map]
    exact List.zip_map_right _ _ _
  constructor
  · rintro ⟨cd, hcd, hcdlen⟩
    obtain ⟨j, hjc, hjeq⟩ := List.mem_iff_getElem.mp hcd
    have hjz : j < (childrenJacs.zip cds).length := by
      rw [List.length_zip, hlen, Nat.min_self]
      exact hjc
    have hbad : ∃ pr ∈ (childrenJacs.zip cds).map (Prod.map id (fun cd =>
        dictOf (createSlicesFrom mesh cd.primary data.secondaryDimensionsNpts 0))),
        1 < pr.2.length := by
      refine ⟨_, List.mem_map_of_mem _ (List.getElem_mem hjz), ?_⟩
      show 1 < (dictOf (createSlicesFrom mesh (((childrenJacs.zip cds)[j]).2).primary
        data.secondaryDimensionsNpts 0)).length
      rw [List.getElem_zip]
      show 1 < (dictOf (createSlicesFrom mesh (cds[j]).primary
        data.secondaryDimensionsNpts 0)).length
      rw [dictOf_createSlicesFrom_length mesh _ hn, hjeq]
      exact hcdlen
    unfold domainConcatenationJac concatenationJacDC
    rw [hpairs]
    obtain ⟨m, hm⟩ := Nat.exists_eq_succ_of_ne_zero (Nat.pos_iff_ne_zero.mp hn)
    rw [hm] at hbad ⊢
    rw [List.range_succ_eq_map, exceptMapM_error_head (jacRow_error hbad 0)]
    rfl
  · intro hone
    have heq : domainConcatenationJac data childrenJacs =
        .ok (.sparseStack (((List.range data.secondaryDimensionsNpts).map (fun i =>
          (childrenJacs.zip cds).map (fun pr =>
            JacExpr.index pr.1 ⟨i * mesh (pr.2.primary.headD ""),
              i * mesh (pr.2.primary.headD "") + mesh (pr.2.primary.headD "")⟩))).flatten)) := by
      unfold domainConcatenationJac concatenationJacDC
      rw [hpairs]
      have hrows : ∀ i ∈ List.range data.secondaryDimensionsNpts,
          jacRow ((childrenJacs.zip cds).map (Prod.map id (fun cd =>
            dictOf (createSlicesFrom mesh cd.primary data.secondaryDimensionsNpts 0)))) i =
          .ok ((childrenJacs.zip cds).map (fun pr =>
            JacExpr.index pr.1 ⟨i * mesh (pr.2.primary.headD ""),
              i * mesh (pr.2.primary.headD "") + mesh (pr.2.primary.headD "")⟩)) := by
        intro i hi
        have hiN : i < data.secondaryDimensionsNpts := List.mem_range.mp hi
        have hone2 : ∀ pr ∈ (childrenJacs.zip cds).map (Prod.map id (fun cd =>
            dictOf (createSlicesFrom mesh cd.primary data.secondaryDimensionsNpts 0))),
            pr.2.length ≤ 1 := by
          rintro pr hpr
          obtain ⟨q, hq, rfl⟩ := List.mem_map.mp hpr
          obtain ⟨dom, hdom⟩ := hone q.2 (List.of_mem_zip hq).2
          show (dictOf (createSlicesFrom mesh q.2.primary
            data.secondaryDimensionsNpts 0)).length ≤ 1
          rw [dictOf_createSlicesFrom_length mesh _ hn, hdom]
          rfl
        rw [jacRow_ok hone2 i, List.map_map]
        congr 1
        apply List.map_congr_left
        rintro q hq
        obtain ⟨dom, hdom⟩ := hone q.2 (List.of_mem_zip hq).2
        simp only [Function.comp_apply]
        show JacExpr.index q.1 ((((dictOf (createSlicesFrom mesh q.2.primary
          data.secondaryDimensionsNpts 0)).headD ("", [])).2).getD i ⟨0, 0⟩) = _
        rw [hdom, dictOf_createSlicesFrom mesh (by simp) hn]
        simp only [List.map_cons, List.headD_cons]
        rw [getD_range_map _ hiN, layoutSlice_single]
      rw [exceptMapM_ok_of hrows]
      rfl
    refine ⟨heq, ?_⟩
    intro blocks hblocks
    rw [heq] at hblocks
    simp only [Except.ok.injEq, JacExpr.sparseStack.injEq] at hblocks
    rw [← hblocks, List.length_flatten, List.map_map]
    have hconst : ∀ i ∈ List.range data.secondaryDimensionsNpts,
        (List.length ∘ fun i => (childrenJacs.zip cds).map (fun pr =>
          JacExpr.index pr.1 ⟨i * mesh (pr.2.primary.headD ""),
            i * mesh (pr.2.primary.headD "") + mesh (pr.2.primary.headD "")⟩)) i =
        childrenJacs.length := by
      intro i _
      simp [List.length_zip, hlen]
    rw [List.map_congr_left hconst]
    simp [List.map_const', List.length_range]

/-- Mesh for the Jacobian examples: `n=2`, `s=3`, secondary level `cc=2`. -/
def exMesh3 : String → Nat := fun d =>
  if d = "n" then 2 else if d = "s" then 3 else if d = "cc" then 2 else 0

/-- Two single-domain children sharing the secondary level `cc`. -/
def exChildrenJ2 : List Domains := [⟨["n"], ["cc"], [], []⟩, ⟨["s"], ["cc"], [], []⟩]

/-- Constructor state for `exChildrenJ2`: secondary repeat count 2. -/
def exDataJ2 : DCData :=
  ⟨⟨["n", "s"], ["cc"], [], []⟩, 2,
   [("n", ⟨0, 2⟩), ("s", ⟨2, 5⟩), ("n", ⟨5, 7⟩), ("s", ⟨7, 10⟩)], 10,
   [[("n", ⟨0, 2⟩), ("n", ⟨2, 4⟩)], [("s", ⟨0, 3⟩), ("s", ⟨3, 6⟩)]]⟩

/-- One child spanning the two domains `n` and `s`. -/
def exChildrenJ1 : List Domains := [⟨["n", "s"], [], [], []⟩]

/-- Constructor state for `exChildrenJ1`. -/
def exDataJ1 : DCData :=
  ⟨⟨["n", "s"], [], [], []⟩, 1,
   [("n", ⟨0, 2⟩), ("s", ⟨2, 5⟩)], 5,
   [[("n", ⟨0, 2⟩), ("s", ⟨2, 5⟩)]]⟩

/-- Witness for C4: a two-child concatenation with secondary repeat count 2
yields a stack of 4 blocks in (repeat, child) row-major order; a child
spanning two domains raises `NotImplementedError`. -/
theorem domain_concatenation_jac_witness :
    domainConcatenationJac exDataJ2 [JacExpr.jac 0, JacExpr.jac 1] =
      .ok (.sparseStack (((List.range exDataJ2.secondaryDimensionsNpts).map (fun i =>
        ([JacExpr.jac 0, JacExpr.jac 1].zip exChildrenJ2).map (fun pr =>
          JacExpr.index pr.1 ⟨i * exMesh3 (pr.2.primary.headD ""),
            i * exMesh3 (pr.2.primary.headD "") + exMesh3 (pr.2.primary.headD "")⟩))).flatten)) ∧
    domainConcatenationJac exDataJ1 [JacExpr.jac 0] =
      .error (.notImplementedError
        "jacobian only implemented for when each child has a single domain") :=
  ⟨((domain_concatenation_jac exMesh3 exChildrenJ2 exDataJ2 [JacExpr.jac 0, JacExpr.jac 1]
      rfl rfl).2 (by
        intro cd hcd
        rcases List.mem_cons.mp hcd with rfl | hcd2
        · exact ⟨"n", rfl⟩
        · rcases List.mem_cons.mp hcd2 with rfl | hcd3
          · exact ⟨"s", rfl⟩
          · cases hcd3)).1,
   (domain_concatenation_jac exMesh3 exChildrenJ1 exDataJ1 [JacExpr.jac 0]
      rfl rfl).1 ⟨⟨["n", "s"], [], [], []⟩, by decide, by decide⟩⟩

/-! ## C5: collapse of a concatenation of state-vector references -/

/-- Modelled from the spec: a state-vector reference (`pybamm.StateVector`, an
external collaborator of this module), carrying the contiguous ranges
`y_slices` it reads and its domain descriptor. -/
structure StateVec where
  ySlices : List Slice
  domains : Domains
deriving DecidableEq, Repr

/-- Modelled from the spec: `StateVector.evaluation_array`, the indicator
array marking the state-vector entries the reference reads.  It is
represented as an indicator function; entries beyond the stored array length
(the stop of the last slice) are zero, which is exactly how the zero-padding
in `simplified_domain_concatenation` (lines 492-498) treats them. -/
def evaluationArray (sv : StateVec) (k : Nat) : Nat :=
  if sv.ySlices.any (fun s => decide (s.start ≤ k ∧ k < s.stop)) then 1 else 0

/-- The pointwise sum of the zero-padded evaluation arrays
(`sum(array for array in eval_arrays.values())`). -/
def sumEvalArrays (children : List StateVec) (k : Nat) : Nat :=
  (children.map (fun c => evaluationArray c k)).sum

/-- The result of `simplified_domain_concatenation` on all-StateVector
children: a single collapsed state-vector reference, or the concatenation
itself (`simplify_if_constant` returns non-constant nodes unchanged, and a
StateVector child is never constant). -/
inductive SDCResult where
  | collapsed (sv : StateVec)
  | kept (data : DCData) (children : List StateVec)
deriving DecidableEq, Repr

/-- `simplified_domain_concatenation` (lines 483-508) in the all-StateVector
case: construct the `DomainConcatenation`, then collapse to
`StateVector(slice(first_start, last_stop), domains=concat.domains)` when the
summed indicator arrays are exactly 1 at every index of
`[first_start, last_stop)` (`all(sum(...)[first_start:last_stop] == 1)`,
where `first_start = children[0].y_slices[0].start` and
`last_stop = children[-1].y_slices[-1].stop`). -/
def simplifiedDomainConcatenation (mesh : String → Nat) (children : List StateVec) :
    Except ConcatError SDCResult := do
  let dc ← domainConcatenationInit mesh (children.map (·.domains))
  let first_start := ((children.headD ⟨[], ⟨[], [], [], []⟩⟩).ySlices.headD ⟨0, 0⟩).start
  let last_stop := ((children.getLastD ⟨[], ⟨[], [], [], []⟩⟩).ySlices.getLastD ⟨0, 0⟩).stop
  if (List.range' first_start (last_stop - first_start)).all
      (fun k => decide (sumEvalArrays children k = 1)) then
    .ok (.collapsed ⟨[⟨first_start, last_stop⟩], dc.domains⟩)
  else
    .ok (.kept dc children)

/-- C5: applied to all-state-vector children whose summed indicator arrays are
exactly 1 on the range from the first child's first start to the last child's
last stop, `simplified_domain_concatenation` returns a single state-vector
reference spanning that whole range and carrying the composite's domains. -/
theorem statevector_collapse (mesh : String → Nat) (children : List StateVec) (dc : DCData)
    (first_start last_stop : Nat)
    (hinit : domainConcatenationInit mesh (children.map (·.domains)) = .ok dc)
    (hfs : first_start = ((children.headD ⟨[], ⟨[], [], [], []⟩⟩).ySlices.headD ⟨0, 0⟩).start)
    (hls : last_stop =
      ((children.getLastD ⟨[], ⟨[], [], [], []⟩⟩).ySlices.getLastD ⟨0, 0⟩).stop)
    (hsum : ∀ k < last_stop, first_start ≤ k → sumEvalArrays children k = 1) :
    simplifiedDomainConcatenation mesh children =
      .ok (.collapsed ⟨[⟨first_start, last_stop⟩], dc.domains⟩) := by
  subst hfs
  subst hls
  unfold simplifiedDomainConcatenation
  rw [hinit]
  simp only [Bind.bind, Except.bind]
  rw [if_pos]
  rw [List.all_eq_true]
  intro k hk
  obtain ⟨h1, h2⟩ := List.mem_range'_1.mp hk
  exact decide_eq_true (hsum k (by omega) (by omega))

/-- Three adjacent state-vector references covering `[0,5)`, `[5,8)`,
`[8,12)` over the running example's domains. -/
def exStateVecs : List StateVec :=
  [⟨[⟨0, 5⟩], ⟨["negative"], [], [], []⟩⟩,
   ⟨[⟨5, 8⟩], ⟨["separator"], [], [], []⟩⟩,
   ⟨[⟨8, 12⟩], ⟨["positive"], [], [], []⟩⟩]

/-- Witness for C5: the three adjacent references collapse to a single
reference over `[0,12)` with the composite's domains. -/
theorem statevector_collapse_witness :
    domainConcatenationInit exMesh1 (exStateVecs.map (·.domains)) = .ok exData1 ∧
    simplifiedDomainConcatenation exMesh1 exStateVecs =
      .ok (.collapsed ⟨[⟨0, 12⟩], exData1.domains⟩) :=
  ⟨rfl, statevector_collapse exMesh1 exStateVecs exData1 0 12 rfl rfl rfl (by decide)⟩


/-! ### C8: the merged name of a ConcatenationVariable -/

/-- `substrings` (concatenations.py lines 411-414): all contiguous substrings
`s[i : j + 1]` of a string, for `0 ≤ i ≤ j < len(s)`, in generation order. -/
def substrings (s : List Char) : List (List Char) :=
  ((List.range s.length).map (fun i =>
    (List.range (s.length - i)).map (fun j => (s.drop i).take (j + 1)))).flatten

/-- `intersect` (lines 417-425): the longest common contiguous substring of two
strings, whitespace-stripped on both ends.  Python intersects two substring
sets and takes `max(..., key=len)`, whose tie order over a set is arbitrary;
here the set intersection is the order-preserving filter of `substrings s1`
and the maximum is the first longest element in that order.  When there is no
common substring the fold returns the empty string, matching Python's
`return ""` branch. -/
def intersect (s1 s2 : List Char) : List Char :=
  (((((substrings s1).filter (fun u => (substrings s2).contains u)).foldl
    (fun acc u => if acc.length < u.length then u else acc) []).dropWhile
    Char.isWhitespace).reverse.dropWhile Char.isWhitespace).reverse

/-- Python's `name[0].capitalize() + name[1:]` (line 383). -/
def capitalizeFirst : List Char → List Char
  | [] => []
  | c :: cs => c.toUpper :: cs

/-- The name computation of `ConcatenationVariable.__init__` (lines 373-383):
the running intersection of the children's names, starting from the first two
children (`n0`, `n1`) and folding `intersect` over the rest; an empty result
becomes `None`, a result of length greater than one is capitalized, and — per
the code comment on line 381 — a result of length exactly one is unchanged. -/
def concatVariableName (n0 n1 : List Char) (rest : List (List Char)) : Option (List Char) :=
  let first := intersect n0 n1
  let name := rest.foldl (fun acc nm => intersect acc nm) first
  if name.length = 0 then none
  else if name.length > 1 then some (capitalizeFirst name)
  else some name

set_option maxRecDepth 20000

/-- The 496 substrings of "Negative particle concentration", in generation
order, as a literal (so that later kernel computations need not re-expand
`substrings`). -/
def exL1 : List (List Char) :=
[['N'],
 ['N', 'e'],
 ['N', 'e', 'g'],
 ['N', 'e', 'g', 'a'],
 ['N', 'e', 'g', 'a', 't'],
 ['N', 'e', 'g', 'a', 't', 'i'],
 ['N', 'e', 'g', 'a', 't', 'i', 'v'],
 ['N', 'e', 'g', 'a', 't', 'i', 'v', 'e'],
 ['N', 'e', 'g', 'a', 't', 'i', 'v', 'e', ' '],
 ['N', 'e', 'g', 'a', 't', 'i', 'v', 'e', ' ', 'p'],
 ['N', 'e', 'g', 'a', 't', 'i', 'v', 'e', ' ', 'p', 'a'],
 ['N', 'e', 'g', 'a', 't', 'i', 'v', 'e', ' ', 'p', 'a', 'r'],
 ['N', 'e', 'g', 'a', 't', 'i', 'v', 'e', ' ', 'p', 'a', 'r', 't'],
 ['N', 'e', 'g', 'a', 't', 'i', 'v', 'e', ' ', 'p', 'a', 'r', 't', 'i'],
 ['N', 'e', 'g', 'a', 't', 'i', 'v', 'e', ' ', 'p', 'a', 'r', 't', 'i', 'c'],
 ['N', 'e', 'g', 'a', 't', 'i', 'v', 'e', ' ', 'p', 'a', 'r', 't', 'i', 'c', 'l'],
 ['N', 'e', 'g', 'a', 't', 'i', 'v', 'e', ' ', 'p', 'a', 'r', 't', 'i', 'c', 'l', 'e'],
 ['N', 'e', 'g', 'a', 't', 'i', 'v', 'e', ' ', 'p', 'a', 'r', 't', 'i', 'c', 'l', 'e', ' '],
 ['N', 'e', 'g', 'a', 't', 'i', 'v', 'e', ' ', 'p', 'a', 'r', 't', 'i', 'c', 'l', 'e', ' ', 'c'],
 ['N', 'e', 'g', 'a', 't', 'i', 'v', 'e', ' ', 'p', 'a', 'r', 't', 'i', 'c', 'l', 'e', ' ', 'c', 'o'],
 ['N', 'e', 'g', 'a', 't', 'i', 'v', 'e', ' ', 'p', 'a', 'r', 't', 'i', 'c', 'l', 'e', ' ', 'c', 'o', 'n'],
 ['N', 'e', 'g', 'a', 't', 'i', 'v', 'e', ' ', 'p', 'a', 'r', 't', 'i', 'c', 'l', 'e', ' ', 'c', 'o', 'n', 'c'],
 ['N', 'e', 'g', 'a', 't', 'i', 'v', 'e', ' ', 'p', 'a', 'r', 't', 'i', 'c', 'l', 'e', ' ', 'c', 'o', 'n', 'c', 'e'],
 ['N', 'e', 'g', 'a', 't', 'i', 'v', 'e', ' ', 'p', 'a', 'r', 't', 'i', 'c', 'l', 'e', ' ', 'c', 'o', 'n', 'c', 'e', 'n'],
 ['N', 'e', 'g', 'a', 't', 'i', 'v', 'e', ' ', 'p', 'a', 'r', 't', 'i', 'c', 'l', 'e', ' ', 'c', 'o', 'n', 'c', 'e', 'n',
 't'],
 ['N', 'e', 'g', 'a', 't', 'i', 'v', 'e', ' ', 'p', 'a', 'r', 't', 'i', 'c', 'l', 'e', ' ', 'c', 'o', 'n', 'c', 'e', 'n',
 't', 'r'],
 ['N', 'e', 'g', 'a', 't', 'i', 'v', 'e', ' ', 'p', 'a', 'r', 't', 'i', 'c', 'l', 'e', ' ', 'c', 'o', 'n', 'c', 'e', 'n',
 't', 'r', 'a'],
 ['N', 'e', 'g', 'a', 't', 'i', 'v', 'e', ' ', 'p', 'a', 'r', 't', 'i', 'c', 'l', 'e', ' ', 'c', 'o', 'n', 'c', 'e', 'n',
 't', 'r', 'a', 't'],
 ['N', 'e', 'g', 'a', 't', 'i', 'v', 'e', ' ', 'p', 'a', 'r', 't', 'i', 'c', 'l', 'e', ' ', 'c', 'o', 'n', 'c', 'e', 'n',
 't', 'r', 'a', 't', 'i'],
 ['N', 'e', 'g', 'a', 't', 'i', 'v', 'e', ' ', 'p', 'a', 'r', 't', 'i', 'c', 'l', 'e', ' ', 'c', 'o', 'n', 'c', 'e', 'n',
 't', 'r', 'a', 't', 'i', 'o'],
 ['N', 'e', 'g', 'a', 't', 'i', 'v', 'e', ' ', 'p', 'a', 'r', 't', 'i', 'c', 'l', 'e', ' ', 'c', 'o', 'n', 'c', 'e', 'n',
 't', 'r', 'a', 't', 'i', 'o', 'n'],
 ['e'],
 ['e', 'g'],
 ['e', 'g', 'a'],
 ['e', 'g', 'a', 't'],
 ['e', 'g', 'a', 't', 'i'],
 ['e', 'g', 'a', 't', 'i', 'v'],
 ['e', 'g', 'a', 't', 'i', 'v', 'e'],
 ['e', 'g', 'a', 't', 'i', 'v', 'e', ' '],
 ['e', 'g', 'a', 't', 'i', 'v', 'e', ' ', 'p'],
 ['e', 'g', 'a', 't', 'i', 'v', 'e', ' ', 'p', 'a'],
 ['e', 'g', 'a', 't', 'i', 'v', 'e', ' ', 'p', 'a', 'r'],
 ['e', 'g', 'a', 't', 'i', 'v', 'e', ' ', 'p', 'a', 'r', 't'],
 ['e', 'g', 'a', 't', 'i', 'v', 'e', ' ', 'p', 'a', 'r', 't', 'i'],
 ['e', 'g', 'a', 't', 'i', 'v', 'e', ' ', 'p', 'a', 'r', 't', 'i', 'c'],
 ['e', 'g', 'a', 't', 'i', 'v', 'e', ' ', 'p', 'a', 'r', 't', 'i', 'c', 'l'],
 ['e', 'g', 'a', 't', 'i', 'v', 'e', ' ', 'p', 'a', 'r', 't', 'i', 'c', 'l', 'e'],
 ['e', 'g', 'a', 't', 'i', 'v', 'e', ' ', 'p', 'a', 'r', 't', 'i', 'c', 'l', 'e', ' '],
 ['e', 'g', 'a', 't', 'i', 'v', 'e', ' ', 'p', 'a', 'r', 't', 'i', 'c', 'l', 'e', ' ', 'c'],
 ['e', 'g', 'a', 't', 'i', 'v', 'e', ' ', 'p', 'a', 'r', 't', 'i', 'c', 'l', 'e', ' ', 'c', 'o'],
 ['e', 'g', 'a', 't', 'i', 'v', 'e', ' ', 'p', 'a', 'r', 't', 'i', 'c', 'l', 'e', ' ', 'c', 'o', 'n'],
 ['e', 'g', 'a', 't', 'i', 'v', 'e', ' ', 'p', 'a', 'r', 't', 'i', 'c', 'l', 'e', ' ', 'c', 'o', 'n', 'c'],
 ['e', 'g', 'a', 't', 'i', 'v', 'e', ' ', 'p', 'a', 'r', 't', 'i', 'c', 'l', 'e', ' ', 'c', 'o', 'n', 'c', 'e'],
 ['e', 'g', 'a', 't', 'i', 'v', 'e', ' ', 'p', 'a', 'r', 't', 'i', 'c', 'l', 'e', ' ', 'c', 'o', 'n', 'c', 'e', 'n'],
 ['e', 'g', 'a', 't', 'i', 'v', 'e', ' ', 'p', 'a', 'r', 't', 'i', 'c', 'l', 'e', ' ', 'c', 'o', 'n', 'c', 'e', 'n', 't'],
 ['e', 'g', 'a', 't', 'i', 'v', 'e', ' ', 'p', 'a', 'r', 't', 'i', 'c', 'l', 'e', ' ', 'c', 'o', 'n', 'c', 'e', 'n', 't',
 'r'],
 ['e', 'g', 'a', 't', 'i', 'v', 'e', ' ', 'p', 'a', 'r', 't', 'i', 'c', 'l', 'e', ' ', 'c', 'o', 'n', 'c', 'e', 'n', 't',
 'r', 'a'],
 ['e', 'g', 'a', 't', 'i', 'v', 'e', ' ', 'p', 'a', 'r', 't', 'i', 'c', 'l', 'e', ' ', 'c', 'o', 'n', 'c', 'e', 'n', 't',
 'r', 'a', 't'],
 ['e', 'g', 'a', 't', 'i', 'v', 'e', ' ', 'p', 'a', 'r', 't', 'i', 'c', 'l', 'e', ' ', 'c', 'o', 'n', 'c', 'e', 'n', 't',
 'r', 'a', 't', 'i'],
 ['e', 'g', 'a', 't', 'i', 'v', 'e', ' ', 'p', 'a', 'r', 't', 'i', 'c', 'l', 'e', ' ', 'c', 'o', 'n', 'c', 'e', 'n', 't',
 'r', 'a', 't', 'i', 'o'],
 ['e', 'g', 'a', 't', 'i', 'v', 'e', ' ', 'p', 'a', 'r', 't', 'i', 'c', 'l', 'e', ' ', 'c', 'o', 'n', 'c', 'e', 'n', 't',
 'r', 'a', 't', 'i', 'o', 'n'],
 ['g'],
 ['g', 'a'],
 ['g', 'a', 't'],
 ['g', 'a', 't', 'i'],
 ['g', 'a', 't', 'i', 'v'],
 ['g', 'a', 't', 'i', 'v', 'e'],
 ['g', 'a', 't', 'i', 'v', 'e', ' '],
 ['g', 'a', 't', 'i', 'v', 'e', ' ', 'p'],
 ['g', 'a', 't', 'i', 'v', 'e', ' ', 'p', 'a'],
 ['g', 'a', 't', 'i', 'v', 'e', ' ', 'p', 'a', 'r'],
 ['g', 'a', 't', 'i', 'v', 'e', ' ', 'p', 'a', 'r', 't'],
 ['g', 'a', 't', 'i', 'v', 'e', ' ', 'p', 'a', 'r', 't', 'i'],
 ['g', 'a', 't', 'i', 'v', 'e', ' ', 'p', 'a', 'r', 't', 'i', 'c'],
 ['g', 'a', 't', 'i', 'v', 'e', ' ', 'p', 'a', 'r', 't', 'i', 'c', 'l'],
 ['g', 'a', 't', 'i', 'v', 'e', ' ', 'p', 'a', 'r', 't', 'i', 'c', 'l', 'e'],
 ['g', 'a', 't', 'i', 'v', 'e', ' ', 'p', 'a', 'r', 't', 'i', 'c', 'l', 'e', ' '],
 ['g', 'a', 't', 'i', 'v', 'e', ' ', 'p', 'a', 'r', 't', 'i', 'c', 'l', 'e', ' ', 'c'],
 ['g', 'a', 't', 'i', 'v', 'e', ' ', 'p', 'a', 'r', 't', 'i', 'c', 'l', 'e', ' ', 'c', 'o'],
 ['g', 'a', 't', 'i', 'v', 'e', ' ', 'p', 'a', 'r', 't', 'i', 'c', 'l', 'e', ' ', 'c', 'o', 'n'],
 ['g', 'a', 't', 'i', 'v', 'e', ' ', 'p', 'a', 'r', 't', 'i', 'c', 'l', 'e', ' ', 'c', 'o', 'n', 'c'],
 ['g', 'a', 't', 'i', 'v', 'e', ' ', 'p', 'a', 'r', 't', 'i', 'c', 'l', 'e', ' ', 'c', 'o', 'n', 'c', 'e'],
 ['g', 'a', 't', 'i', 'v', 'e', ' ', 'p', 'a', 'r', 't', 'i', 'c', 'l', 'e', ' ', 'c', 'o', 'n', 'c', 'e', 'n'],
 ['g', 'a', 't', 'i', 'v', 'e', ' ', 'p', 'a', 'r', 't', 'i', 'c', 'l', 'e', ' ', 'c', 'o', 'n', 'c', 'e', 'n', 't'],
 ['g', 'a', 't', 'i', 'v', 'e', ' ', 'p', 'a', 'r', 't', 'i', 'c', 'l', 'e', ' ', 'c', 'o', 'n', 'c', 'e', 'n', 't', 'r'],
 ['g', 'a', 't', 'i', 'v', 'e', ' ', 'p', 'a', 'r', 't', 'i', 'c', 'l', 'e', ' ', 'c', 'o', 'n', 'c', 'e', 'n', 't', 'r',
 'a'],
 ['g', 'a', 't', 'i', 'v', 'e', ' ', 'p', 'a', 'r', 't', 'i', 'c', 'l', 'e', ' ', 'c', 'o', 'n', 'c', 'e', 'n', 't', 'r',
 'a', 't'],
 ['g', 'a', 't', 'i', 'v', 'e', ' ', 'p', 'a', 'r', 't', 'i', 'c', 'l', 'e', ' ', 'c', 'o', 'n', 'c', 'e', 'n', 't', 'r',
 'a', 't', 'i'],
 ['g', 'a', 't', 'i', 'v', 'e', ' ', 'p', 'a', 'r', 't', 'i', 'c', 'l', 'e', ' ', 'c', 'o', 'n', 'c', 'e', 'n', 't', 'r',
 'a', 't', 'i', 'o'],
 ['g', 'a', 't', 'i', 'v', 'e', ' ', 'p', 'a', 'r', 't', 'i', 'c', 'l', 'e', ' ', 'c', 'o', 'n', 'c', 'e', 'n', 't', 'r',
 'a', 't', 'i', 'o', 'n'],
 ['a'],
 ['a', 't'],
 ['a', 't', 'i'],
 ['a', 't', 'i', 'v'],
 ['a', 't', 'i', 'v', 'e'],
 ['a', 't', 'i', 'v', 'e', ' '],
 ['a', 't', 'i', 'v', 'e', ' ', 'p'],
 ['a', 't', 'i', 'v', 'e', ' ', 'p', 'a'],
 ['a', 't', 'i', 'v', 'e', ' ', 'p', 'a', 'r'],
 ['a', 't', 'i', 'v', 'e', ' ', 'p', 'a', 'r', 't'],
 ['a', 't', 'i', 'v', 'e', ' ', 'p', 'a', 'r', 't', 'i'],
 ['a', 't', 'i', 'v', 'e', ' ', 'p', 'a', 'r', 't', 'i', 'c'],
 ['a', 't', 'i', 'v', 'e', ' ', 'p', 'a', 'r', 't', 'i', 'c', 'l'],
 ['a', 't', 'i', 'v', 'e', ' ', 'p', 'a', 'r', 't', 'i', 'c', 'l', 'e'],
 ['a', 't', 'i', 'v', 'e', ' ', 'p', 'a', 'r', 't', 'i', 'c', 'l', 'e', ' '],
 ['a', 't', 'i', 'v', 'e', ' ', 'p', 'a', 'r', 't', 'i', 'c', 'l', 'e', ' ', 'c'],
 ['a', 't', 'i', 'v', 'e', ' ', 'p', 'a', 'r', 't', 'i', 'c', 'l', 'e', ' ', 'c', 'o'],
 ['a', 't', 'i', 'v', 'e', ' ', 'p', 'a', 'r', 't', 'i', 'c', 'l', 'e', ' ', 'c', 'o', 'n'],
 ['a', 't', 'i', 'v', 'e', ' ', 'p', 'a', 'r', 't', 'i', 'c', 'l', 'e', ' ', 'c', 'o', 'n', 'c'],
 ['a', 't', 'i', 'v', 'e', ' ', 'p', 'a', 'r', 't', 'i', 'c', 'l', 'e', ' ', 'c', 'o', 'n', 'c', 'e'],
 ['a', 't', 'i', 'v', 'e', ' ', 'p', 'a', 'r', 't', 'i', 'c', 'l', 'e', ' ', 'c', 'o', 'n', 'c', 'e', 'n'],
 ['a', 't', 'i', 'v', 'e', ' ', 'p', 'a', 'r', 't', 'i', 'c', 'l', 'e', ' ', 'c', 'o', 'n', 'c', 'e', 'n', 't'],
 ['a', 't', 'i', 'v', 'e', ' ', 'p', 'a', 'r', 't', 'i', 'c', 'l', 'e', ' ', 'c', 'o', 'n', 'c', 'e', 'n', 't', 'r'],
 ['a', 't', 'i', 'v', 'e', ' ', 'p', 'a', 'r', 't', 'i', 'c', 'l', 'e', ' ', 'c', 'o', 'n', 'c', 'e', 'n', 't', 'r', 'a'],
 ['a', 't', 'i', 'v', 'e', ' ', 'p', 'a', 'r', 't', 'i', 'c', 'l', 'e', ' ', 'c', 'o', 'n', 'c', 'e', 'n', 't', 'r', 'a',
 't'],
 ['a', 't', 'i', 'v', 'e', ' ', 'p', 'a', 'r', 't', 'i', 'c', 'l', 'e', ' ', 'c', 'o', 'n', 'c', 'e', 'n', 't', 'r', 'a',
 't', 'i'],
 ['a', 't', 'i', 'v', 'e', ' ', 'p', 'a', 'r', 't', 'i', 'c', 'l', 'e', ' ', 'c', 'o', 'n', 'c', 'e', 'n', 't', 'r', 'a',
 't', 'i', 'o'],
 ['a', 't', 'i', 'v', 'e', ' ', 'p', 'a', 'r', 't', 'i', 'c', 'l', 'e', ' ', 'c', 'o', 'n', 'c', 'e', 'n', 't', 'r', 'a',
 't', 'i', 'o', 'n'],
 ['t'],
 ['t', 'i'],
 ['t', 'i', 'v'],
 ['t', 'i', 'v', 'e'],
 ['t', 'i', 'v', 'e', ' '],
 ['t', 'i', 'v', 'e', ' ', 'p'],
 ['t', 'i', 'v', 'e', ' ', 'p', 'a'],
 ['t', 'i', 'v', 'e', ' ', 'p', 'a', 'r'],
 ['t', 'i', 'v', 'e', ' ', 'p', 'a', 'r', 't'],
 ['t', 'i', 'v', 'e', ' ', 'p', 'a', 'r', 't', 'i'],
 ['t', 'i', 'v', 'e', ' ', 'p', 'a', 'r', 't', 'i', 'c'],
 ['t', 'i', 'v', 'e', ' ', 'p', 'a', 'r', 't', 'i', 'c', 'l'],
 ['t', 'i', 'v', 'e', ' ', 'p', 'a', 'r', 't', 'i', 'c', 'l', 'e'],
 ['t', 'i', 'v', 'e', ' ', 'p', 'a', 'r', 't', 'i', 'c', 'l', 'e', ' '],
 ['t', 'i', 'v', 'e', ' ', 'p', 'a', 'r', 't', 'i', 'c', 'l', 'e', ' ', 'c'],
 ['t', 'i', 'v', 'e', ' ', 'p', 'a', 'r', 't', 'i', 'c', 'l', 'e', ' ', 'c', 'o'],
 ['t', 'i', 'v', 'e', ' ', 'p', 'a', 'r', 't', 'i', 'c', 'l', 'e', ' ', 'c', 'o', 'n'],
 ['t', 'i', 'v', 'e', ' ', 'p', 'a', 'r', 't', 'i', 'c', 'l', 'e', ' ', 'c', 'o', 'n', 'c'],
 ['t', 'i', 'v', 'e', ' ', 'p', 'a', 'r', 't', 'i', 'c', 'l', 'e', ' ', 'c', 'o', 'n', 'c', 'e'],
 ['t', 'i', 'v', 'e', ' ', 'p', 'a', 'r', 't', 'i', 'c', 'l', 'e', ' ', 'c', 'o', 'n', 'c', 'e', 'n'],
 ['t', 'i', 'v', 'e', ' ', 'p', 'a', 'r', 't', 'i', 'c', 'l', 'e', ' ', 'c', 'o', 'n', 'c', 'e', 'n', 't'],
 ['t', 'i', 'v', 'e', ' ', 'p', 'a', 'r', 't', 'i', 'c', 'l', 'e', ' ', 'c', 'o', 'n', 'c', 'e', 'n', 't', 'r'],
 ['t', 'i', 'v', 'e', ' ', 'p', 'a', 'r', 't', 'i', 'c', 'l', 'e', ' ', 'c', 'o', 'n', 'c', 'e', 'n', 't', 'r', 'a'],
 ['t', 'i', 'v', 'e', ' ', 'p', 'a', 'r', 't', 'i', 'c', 'l', 'e', ' ', 'c', 'o', 'n', 'c', 'e', 'n', 't', 'r', 'a', 't'],
 ['t', 'i', 'v', 'e', ' ', 'p', 'a', 'r', 't', 'i', 'c', 'l', 'e', ' ', 'c', 'o', 'n', 'c', 'e', 'n', 't', 'r', 'a', 't',
 'i'],
 ['t', 'i', 'v', 'e', ' ', 'p', 'a', 'r', 't', 'i', 'c', 'l', 'e', ' ', 'c', 'o', 'n', 'c', 'e', 'n', 't', 'r', 'a', 't',
 'i', 'o'],
 ['t', 'i', 'v', 'e', ' ', 'p', 'a', 'r', 't', 'i', 'c', 'l', 'e', ' ', 'c', 'o', 'n', 'c', 'e', 'n', 't', 'r', 'a', 't',
 'i', 'o', 'n'],
 ['i'],
 ['i', 'v'],
 ['i', 'v', 'e'],
 ['i', 'v', 'e', ' '],
 ['i', 'v', 'e', ' ', 'p'],
 ['i', 'v', 'e', ' ', 'p', 'a'],
 ['i', 'v', 'e', ' ', 'p', 'a', 'r'],
 ['i', 'v', 'e', ' ', 'p', 'a', 'r', 't'],
 ['i', 'v', 'e', ' ', 'p', 'a', 'r', 't', 'i'],
 ['i', 'v', 'e', ' ', 'p', 'a', 'r', 't', 'i', 'c'],
 ['i', 'v', 'e', ' ', 'p', 'a', 'r', 't', 'i', 'c', 'l'],
 ['i', 'v', 'e', ' ', 'p', 'a', 'r', 't', 'i', 'c', 'l', 'e'],
 ['i', 'v', 'e', ' ', 'p', 'a', 'r', 't', 'i', 'c', 'l', 'e', ' '],
 ['i', 'v', 'e', ' ', 'p', 'a', 'r', 't', 'i', 'c', 'l', 'e', ' ', 'c'],
 ['i', 'v', 'e', ' ', 'p', 'a', 'r', 't', 'i', 'c', 'l', 'e', ' ', 'c', 'o'],
 ['i', 'v', 'e', ' ', 'p', 'a', 'r', 't', 'i', 'c', 'l', 'e', ' ', 'c', 'o', 'n'],
 ['i', 'v', 'e', ' ', 'p', 'a', 'r', 't', 'i', 'c', 'l', 'e', ' ', 'c', 'o', 'n', 'c'],
 ['i', 'v', 'e', ' ', 'p', 'a', 'r', 't', 'i', 'c', 'l', 'e', ' ', 'c', 'o', 'n', 'c', 'e'],
 ['i', 'v', 'e', ' ', 'p', 'a', 'r', 't', 'i', 'c', 'l', 'e', ' ', 'c', 'o', 'n', 'c', 'e', 'n'],
 ['i', 'v', 'e', ' ', 'p', 'a', 'r', 't', 'i', 'c', 'l', 'e', ' ', 'c', 'o', 'n', 'c', 'e', 'n', 't'],
 ['i', 'v', 'e', ' ', 'p', 'a', 'r', 't', 'i', 'c', 'l', 'e', ' ', 'c', 'o', 'n', 'c', 'e', 'n', 't', 'r'],
 ['i', 'v', 'e', ' ', 'p', 'a', 'r', 't', 'i', 'c', 'l', 'e', ' ', 'c', 'o', 'n', 'c', 'e', 'n', 't', 'r', 'a'],
 ['i', 'v', 'e', ' ', 'p', 'a', 'r', 't', 'i', 'c', 'l', 'e', ' ', 'c', 'o', 'n', 'c', 'e', 'n', 't', 'r', 'a', 't'],
 ['i', 'v', 'e', ' ', 'p', 'a', 'r', 't', 'i', 'c', 'l', 'e', ' ', 'c', 'o', 'n', 'c', 'e', 'n', 't', 'r', 'a', 't', 'i'],
 ['i', 'v', 'e', ' ', 'p', 'a', 'r', 't', 'i', 'c', 'l', 'e', ' ', 'c', 'o', 'n', 'c', 'e', 'n', 't', 'r', 'a', 't', 'i',
 'o'],
 ['i', 'v', 'e', ' ', 'p', 'a', 'r', 't', 'i', 'c', 'l', 'e', ' ', 'c', 'o', 'n', 'c', 'e', 'n', 't', 'r', 'a', 't', 'i',
 'o', 'n'],
 ['v'],
 ['v', 'e'],
 ['v', 'e', ' '],
 ['v', 'e', ' ', 'p'],
 ['v', 'e', ' ', 'p', 'a'],
 ['v', 'e', ' ', 'p', 'a', 'r'],
 ['v', 'e', ' ', 'p', 'a', 'r', 't'],
 ['v', 'e', ' ', 'p', 'a', 'r', 't', 'i'],
 ['v', 'e', ' ', 'p', 'a', 'r', 't', 'i', 'c'],
 ['v', 'e', ' ', 'p', 'a', 'r', 't', 'i', 'c', 'l'],
 ['v', 'e', ' ', 'p', 'a', 'r', 't', 'i', 'c', 'l', 'e'],
 ['v', 'e', ' ', 'p', 'a', 'r', 't', 'i', 'c', 'l', 'e', ' '],
 ['v', 'e', ' ', 'p', 'a', 'r', 't', 'i', 'c', 'l', 'e', ' ', 'c'],
 ['v', 'e', ' ', 'p', 'a', 'r', 't', 'i', 'c', 'l', 'e', ' ', 'c', 'o'],
 ['v', 'e', ' ', 'p', 'a', 'r', 't', 'i', 'c', 'l', 'e', ' ', 'c', 'o', 'n'],
 ['v', 'e', ' ', 'p', 'a', 'r', 't', 'i', 'c', 'l', 'e', ' ', 'c', 'o', 'n', 'c'],
 ['v', 'e', ' ', 'p', 'a', 'r', 't', 'i', 'c', 'l', 'e', ' ', 'c', 'o', 'n', 'c', 'e'],
 ['v', 'e', ' ', 'p', 'a', 'r', 't', 'i', 'c', 'l', 'e', ' ', 'c', 'o', 'n', 'c', 'e', 'n'],
 ['v', 'e', ' ', 'p', 'a', 'r', 't', 'i', 'c', 'l', 'e', ' ', 'c', 'o', 'n', 'c', 'e', 'n', 't'],
 ['v', 'e', ' ', 'p', 'a', 'r', 't', 'i', 'c', 'l', 'e', ' ', 'c', 'o', 'n', 'c', 'e', 'n', 't', 'r'],
 ['v', 'e', ' ', 'p', 'a', 'r', 't', 'i', 'c', 'l', 'e', ' ', 'c', 'o', 'n', 'c', 'e', 'n', 't', 'r', 'a'],
 ['v', 'e', ' ', 'p', 'a', 'r', 't', 'i', 'c', 'l', 'e', ' ', 'c', 'o', 'n', 'c', 'e', 'n', 't', 'r', 'a', 't'],
 ['v', 'e', ' ', 'p', 'a', 'r', 't', 'i', 'c', 'l', 'e', ' ', 'c', 'o', 'n', 'c', 'e', 'n', 't', 'r', 'a', 't', 'i'],
 ['v', 'e', ' ', 'p', 'a', 'r', 't', 'i', 'c', 'l', 'e', ' ', 'c', 'o', 'n', 'c', 'e', 'n', 't', 'r', 'a', 't', 'i', 'o'],
 ['v', 'e', ' ', 'p', 'a', 'r', 't', 'i', 'c', 'l', 'e', ' ', 'c', 'o', 'n', 'c', 'e', 'n', 't', 'r', 'a', 't', 'i', 'o',
 'n'],
 ['e'],
 ['e', ' '],
 ['e', ' ', 'p'],
 ['e', ' ', 'p', 'a'],
 ['e', ' ', 'p', 'a', 'r'],
 ['e', ' ', 'p', 'a', 'r', 't'],
 ['e', ' ', 'p', 'a', 'r', 't', 'i'],
 ['e', ' ', 'p', 'a', 'r', 't', 'i', 'c'],
 ['e', ' ', 'p', 'a', 'r', 't', 'i', 'c', 'l'],
 ['e', ' ', 'p', 'a', 'r', 't', 'i', 'c', 'l', 'e'],
 ['e', ' ', 'p', 'a', 'r', 't', 'i', 'c', 'l', 'e', ' '],
 ['e', ' ', 'p', 'a', 'r', 't', 'i', 'c', 'l', 'e', ' ', 'c'],
 ['e', ' ', 'p', 'a', 'r', 't', 'i', 'c', 'l', 'e', ' ', 'c', 'o'],
 ['e', ' ', 'p', 'a', 'r', 't', 'i', 'c', 'l', 'e', ' ', 'c', 'o', 'n'],
 ['e', ' ', 'p', 'a', 'r', 't', 'i', 'c', 'l', 'e', ' ', 'c', 'o', 'n', 'c'],
 ['e', ' ', 'p', 'a', 'r', 't', 'i', 'c', 'l', 'e', ' ', 'c', 'o', 'n', 'c', 'e'],
 ['e', ' ', 'p', 'a', 'r', 't', 'i', 'c', 'l', 'e', ' ', 'c', 'o', 'n', 'c', 'e', 'n'],
 ['e', ' ', 'p', 'a', 'r', 't', 'i', 'c', 'l', 'e', ' ', 'c', 'o', 'n', 'c', 'e', 'n', 't'],
 ['e', ' ', 'p', 'a', 'r', 't', 'i', 'c', 'l', 'e', ' ', 'c', 'o', 'n', 'c', 'e', 'n', 't', 'r'],
 ['e', ' ', 'p', 'a', 'r', 't', 'i', 'c', 'l', 'e', ' ', 'c', 'o', 'n', 'c', 'e', 'n', 't', 'r', 'a'],
 ['e', ' ', 'p', 'a', 'r', 't', 'i', 'c', 'l', 'e', ' ', 'c', 'o', 'n', 'c', 'e', 'n', 't', 'r', 'a', 't'],
 ['e', ' ', 'p', 'a', 'r', 't', 'i', 'c', 'l', 'e', ' ', 'c', 'o', 'n', 'c', 'e', 'n', 't', 'r', 'a', 't', 'i'],
 ['e', ' ', 'p', 'a', 'r', 't', 'i', 'c', 'l', 'e', ' ', 'c', 'o', 'n', 'c', 'e', 'n', 't', 'r', 'a', 't', 'i', 'o'],
 ['e', ' ', 'p', 'a', 'r', 't', 'i', 'c', 'l', 'e', ' ', 'c', 'o', 'n', 'c', 'e', 'n', 't', 'r', 'a', 't', 'i', 'o', 'n'],
 [' '],
 [' ', 'p'],
 [' ', 'p', 'a'],
 [' ', 'p', 'a', 'r'],
 [' ', 'p', 'a', 'r', 't'],
 [' ', 'p', 'a', 'r', 't', 'i'],
 [' ', 'p', 'a', 'r', 't', 'i', 'c'],
 [' ', 'p', 'a', 'r', 't', 'i', 'c', 'l'],
 [' ', 'p', 'a', 'r', 't', 'i', 'c', 'l', 'e'],
 [' ', 'p', 'a', 'r', 't', 'i', 'c', 'l', 'e', ' '],
 [' ', 'p', 'a', 'r', 't', 'i', 'c', 'l', 'e', ' ', 'c'],
 [' ', 'p', 'a', 'r', 't', 'i', 'c', 'l', 'e', ' ', 'c', 'o'],
 [' ', 'p', 'a', 'r', 't', 'i', 'c', 'l', 'e', ' ', 'c', 'o', 'n'],
 [' ', 'p', 'a', 'r', 't', 'i', 'c', 'l', 'e', ' ', 'c', 'o', 'n', 'c'],
 [' ', 'p', 'a', 'r', 't', 'i', 'c', 'l', 'e', ' ', 'c', 'o', 'n', 'c', 'e'],
 [' ', 'p', 'a', 'r', 't', 'i', 'c', 'l', 'e', ' ', 'c', 'o', 'n', 'c', 'e', 'n'],
 [' ', 'p', 'a', 'r', 't', 'i', 'c', 'l', 'e', ' ', 'c', 'o', 'n', 'c', 'e', 'n', 't'],
 [' ', 'p', 'a', 'r', 't', 'i', 'c', 'l', 'e', ' ', 'c', 'o', 'n', 'c', 'e', 'n', 't', 'r'],
 [' ', 'p', 'a', 'r', 't', 'i', 'c', 'l', 'e', ' ', 'c', 'o', 'n', 'c', 'e', 'n', 't', 'r', 'a'],
 [' ', 'p', 'a', 'r', 't', 'i', 'c', 'l', 'e', ' ', 'c', 'o', 'n', 'c', 'e', 'n', 't', 'r', 'a', 't'],
 [' ', 'p', 'a', 'r', 't', 'i', 'c', 'l', 'e', ' ', 'c', 'o', 'n', 'c', 'e', 'n', 't', 'r', 'a', 't', 'i'],
 [' ', 'p', 'a', 'r', 't', 'i', 'c', 'l', 'e', ' ', 'c', 'o', 'n', 'c', 'e', 'n', 't', 'r', 'a', 't', 'i', 'o'],
 [' ', 'p', 'a', 'r', 't', 'i', 'c', 'l', 'e', ' ', 'c', 'o', 'n', 'c', 'e', 'n', 't', 'r', 'a', 't', 'i', 'o', 'n'],
 ['p'],
 ['p', 'a'],
 ['p', 'a', 'r'],
 ['p', 'a', 'r', 't'],
 ['p', 'a', 'r', 't', 'i'],
 ['p', 'a', 'r', 't', 'i', 'c'],
 ['p', 'a', 'r', 't', 'i', 'c', 'l'],
 ['p', 'a', 'r', 't', 'i', 'c', 'l', 'e'],
 ['p', 'a', 'r', 't', 'i', 'c', 'l', 'e', ' '],
 ['p', 'a', 'r', 't', 'i', 'c', 'l', 'e', ' ', 'c'],
 ['p', 'a', 'r', 't', 'i', 'c', 'l', 'e', ' ', 'c', 'o'],
 ['p', 'a', 'r', 't', 'i', 'c', 'l', 'e', ' ', 'c', 'o', 'n'],
 ['p', 'a', 'r', 't', 'i', 'c', 'l', 'e', ' ', 'c', 'o', 'n', 'c'],
 ['p', 'a', 'r', 't', 'i', 'c', 'l', 'e', ' ', 'c', 'o', 'n', 'c', 'e'],
 ['p', 'a', 'r', 't', 'i', 'c', 'l', 'e', ' ', 'c', 'o', 'n', 'c', 'e', 'n'],
 ['p', 'a', 'r', 't', 'i', 'c', 'l', 'e', ' ', 'c', 'o', 'n', 'c', 'e', 'n', 't'],
 ['p', 'a', 'r', 't', 'i', 'c', 'l', 'e', ' ', 'c', 'o', 'n', 'c', 'e', 'n', 't', 'r'],
 ['p', 'a', 'r', 't', 'i', 'c', 'l', 'e', ' ', 'c', 'o', 'n', 'c', 'e', 'n', 't', 'r', 'a'],
 ['p', 'a', 'r', 't', 'i', 'c', 'l', 'e', ' ', 'c', 'o', 'n', 'c', 'e', 'n', 't', 'r', 'a', 't'],
 ['p', 'a', 'r', 't', 'i', 'c', 'l', 'e', ' ', 'c', 'o', 'n', 'c', 'e', 'n', 't', 'r', 'a', 't', 'i'],
 ['p', 'a', 'r', 't', 'i', 'c', 'l', 'e', ' ', 'c', 'o', 'n', 'c', 'e', 'n', 't', 'r', 'a', 't', 'i', 'o'],
 ['p', 'a', 'r', 't', 'i', 'c', 'l', 'e', ' ', 'c', 'o', 'n', 'c', 'e', 'n', 't', 'r', 'a', 't', 'i', 'o', 'n'],
 ['a'],
 ['a', 'r'],
 ['a', 'r', 't'],
 ['a', 'r', 't', 'i'],
 ['a', 'r', 't', 'i', 'c'],
 ['a', 'r', 't', 'i', 'c', 'l'],
 ['a', 'r', 't', 'i', 'c', 'l', 'e'],
 ['a', 'r', 't', 'i', 'c', 'l', 'e', ' '],
 ['a', 'r', 't', 'i', 'c', 'l', 'e', ' ', 'c'],
 ['a', 'r', 't', 'i', 'c', 'l', 'e', ' ', 'c', 'o'],
 ['a', 'r', 't', 'i', 'c', 'l', 'e', ' ', 'c', 'o', 'n'],
 ['a', 'r', 't', 'i', 'c', 'l', 'e', ' ', 'c', 'o', 'n', 'c'],
 ['a', 'r', 't', 'i', 'c', 'l', 'e', ' ', 'c', 'o', 'n', 'c', 'e'],
 ['a', 'r', 't', 'i', 'c', 'l', 'e', ' ', 'c', 'o', 'n', 'c', 'e', 'n'],
 ['a', 'r', 't', 'i', 'c', 'l', 'e', ' ', 'c', 'o', 'n', 'c', 'e', 'n', 't'],
 ['a', 'r', 't', 'i', 'c', 'l', 'e', ' ', 'c', 'o', 'n', 'c', 'e', 'n', 't', 'r'],
 ['a', 'r', 't', 'i', 'c', 'l', 'e', ' ', 'c', 'o', 'n', 'c', 'e', 'n', 't', 'r', 'a'],
 ['a', 'r', 't', 'i', 'c', 'l', 'e', ' ', 'c', 'o', 'n', 'c', 'e', 'n', 't', 'r', 'a', 't'],
 ['a', 'r', 't', 'i', 'c', 'l', 'e', ' ', 'c', 'o', 'n', 'c', 'e', 'n', 't', 'r', 'a', 't', 'i'],
 ['a', 'r', 't', 'i', 'c', 'l', 'e', ' ', 'c', 'o', 'n', 'c', 'e', 'n', 't', 'r', 'a', 't', 'i', 'o'],
 ['a', 'r', 't', 'i', 'c', 'l', 'e', ' ', 'c', 'o', 'n', 'c', 'e', 'n', 't', 'r', 'a', 't', 'i', 'o', 'n'],
 ['r'],
 ['r', 't'],
 ['r', 't', 'i'],
 ['r', 't', 'i', 'c'],
 ['r', 't', 'i', 'c', 'l'],
 ['r', 't', 'i', 'c', 'l', 'e'],
 ['r', 't', 'i', 'c', 'l', 'e', ' '],
 ['r', 't', 'i', 'c', 'l', 'e', ' ', 'c'],
 ['r', 't', 'i', 'c', 'l', 'e', ' ', 'c', 'o'],
 ['r', 't', 'i', 'c', 'l', 'e', ' ', 'c', 'o', 'n'],
 ['r', 't', 'i', 'c', 'l', 'e', ' ', 'c', 'o', 'n', 'c'],
 ['r', 't', 'i', 'c', 'l', 'e', ' ', 'c', 'o', 'n', 'c', 'e'],
 ['r', 't', 'i', 'c', 'l', 'e', ' ', 'c', 'o', 'n', 'c', 'e', 'n'],
 ['r', 't', 'i', 'c', 'l', 'e', ' ', 'c', 'o', 'n', 'c', 'e', 'n', 't'],
 ['r', 't', 'i', 'c', 'l', 'e', ' ', 'c', 'o', 'n', 'c', 'e', 'n', 't', 'r'],
 ['r', 't', 'i', 'c', 'l', 'e', ' ', 'c', 'o', 'n', 'c', 'e', 'n', 't', 'r', 'a'],
 ['r', 't', 'i', 'c', 'l', 'e', ' ', 'c', 'o', 'n', 'c', 'e', 'n', 't', 'r', 'a', 't'],
 ['r', 't', 'i', 'c', 'l', 'e', ' ', 'c', 'o', 'n', 'c', 'e', 'n', 't', 'r', 'a', 't', 'i'],
 ['r', 't', 'i', 'c', 'l', 'e', ' ', 'c', 'o', 'n', 'c', 'e', 'n', 't', 'r', 'a', 't', 'i', 'o'],
 ['r', 't', 'i', 'c', 'l', 'e', ' ', 'c', 'o', 'n', 'c', 'e', 'n', 't', 'r', 'a', 't', 'i', 'o', 'n'],
 ['t'],
 ['t', 'i'],
 ['t', 'i', 'c'],
 ['t', 'i', 'c', 'l'],
 ['t', 'i', 'c', 'l', 'e'],
 ['t', 'i', 'c', 'l', 'e', ' '],
 ['t', 'i', 'c', 'l', 'e', ' ', 'c'],
 ['t', 'i', 'c', 'l', 'e', ' ', 'c', 'o'],
 ['t', 'i', 'c', 'l', 'e', ' ', 'c', 'o', 'n'],
 ['t', 'i', 'c', 'l', 'e', ' ', 'c', 'o', 'n', 'c'],
 ['t', 'i', 'c', 'l', 'e', ' ', 'c', 'o', 'n', 'c', 'e'],
 ['t', 'i', 'c', 'l', 'e', ' ', 'c', 'o', 'n', 'c', 'e', 'n'],
 ['t', 'i', 'c', 'l', 'e', ' ', 'c', 'o', 'n', 'c', 'e', 'n', 't'],
 ['t', 'i', 'c', 'l', 'e', ' ', 'c', 'o', 'n', 'c', 'e', 'n', 't', 'r'],
 ['t', 'i', 'c', 'l', 'e', ' ', 'c', 'o', 'n', 'c', 'e', 'n', 't', 'r', 'a'],
 ['t', 'i', 'c', 'l', 'e', ' ', 'c', 'o', 'n', 'c', 'e', 'n', 't', 'r', 'a', 't'],
 ['t', 'i', 'c', 'l', 'e', ' ', 'c', 'o', 'n', 'c', 'e', 'n', 't', 'r', 'a', 't', 'i'],
 ['t', 'i', 'c', 'l', 'e', ' ', 'c', 'o', 'n', 'c', 'e', 'n', 't', 'r', 'a', 't', 'i', 'o'],
 ['t', 'i', 'c', 'l', 'e', ' ', 'c', 'o', 'n', 'c', 'e', 'n', 't', 'r', 'a', 't', 'i', 'o', 'n'],
 ['i'],
 ['i', 'c'],
 ['i', 'c', 'l'],
 ['i', 'c', 'l', 'e'],
 ['i', 'c', 'l', 'e', ' '],
 ['i', 'c', 'l', 'e', ' ', 'c'],
 ['i', 'c', 'l', 'e', ' ', 'c', 'o'],
 ['i', 'c', 'l', 'e', ' ', 'c', 'o', 'n'],
 ['i', 'c', 'l', 'e', ' ', 'c', 'o', 'n', 'c'],
 ['i', 'c', 'l', 'e', ' ', 'c', 'o', 'n', 'c', 'e'],
 ['i', 'c', 'l', 'e', ' ', 'c', 'o', 'n', 'c', 'e', 'n'],
 ['i', 'c', 'l', 'e', ' ', 'c', 'o', 'n', 'c', 'e', 'n', 't'],
 ['i', 'c', 'l', 'e', ' ', 'c', 'o', 'n', 'c', 'e', 'n', 't', 'r'],
 ['i', 'c', 'l', 'e', ' ', 'c', 'o', 'n', 'c', 'e', 'n', 't', 'r', 'a'],
 ['i', 'c', 'l', 'e', ' ', 'c', 'o', 'n', 'c', 'e', 'n', 't', 'r', 'a', 't'],
 ['i', 'c', 'l', 'e', ' ', 'c', 'o', 'n', 'c', 'e', 'n', 't', 'r', 'a', 't', 'i'],
 ['i', 'c', 'l', 'e', ' ', 'c', 'o', 'n', 'c', 'e', 'n', 't', 'r', 'a', 't', 'i', 'o'],
 ['i', 'c', 'l', 'e', ' ', 'c', 'o', 'n', 'c', 'e', 'n', 't', 'r', 'a', 't', 'i', 'o', 'n'],
 ['c'],
 ['c', 'l'],
 ['c', 'l', 'e'],
 ['c', 'l', 'e', ' '],
 ['c', 'l', 'e', ' ', 'c'],
 ['c', 'l', 'e', ' ', 'c', 'o'],
 ['c', 'l', 'e', ' ', 'c', 'o', 'n'],
 ['c', 'l', 'e', ' ', 'c', 'o', 'n', 'c'],
 ['c', 'l', 'e', ' ', 'c', 'o', 'n', 'c', 'e'],
 ['c', 'l', 'e', ' ', 'c', 'o', 'n', 'c', 'e', 'n'],
 ['c', 'l', 'e', ' ', 'c', 'o', 'n', 'c', 'e', 'n', 't'],
 ['c', 'l', 'e', ' ', 'c', 'o', 'n', 'c', 'e', 'n', 't', 'r'],
 ['c', 'l', 'e', ' ', 'c', 'o', 'n', 'c', 'e', 'n', 't', 'r', 'a'],
 ['c', 'l', 'e', ' ', 'c', 'o', 'n', 'c', 'e', 'n', 't', 'r', 'a', 't'],
 ['c', 'l', 'e', ' ', 'c', 'o', 'n', 'c', 'e', 'n', 't', 'r', 'a', 't', 'i'],
 ['c', 'l', 'e', ' ', 'c', 'o', 'n', 'c', 'e', 'n', 't', 'r', 'a', 't', 'i', 'o'],
 ['c', 'l', 'e', ' ', 'c', 'o', 'n', 'c', 'e', 'n', 't', 'r', 'a', 't', 'i', 'o', 'n'],
 ['l'],
 ['l', 'e'],
 ['l', 'e', ' '],
 ['l', 'e', ' ', 'c'],
 ['l', 'e', ' ', 'c', 'o'],
 ['l', 'e', ' ', 'c', 'o', 'n'],
 ['l', 'e', ' ', 'c', 'o', 'n', 'c'],
 ['l', 'e', ' ', 'c', 'o', 'n', 'c', 'e'],
 ['l', 'e', ' ', 'c', 'o', 'n', 'c', 'e', 'n'],
 ['l', 'e', ' ', 'c', 'o', 'n', 'c', 'e', 'n', 't'],
 ['l', 'e', ' ', 'c', 'o', 'n', 'c', 'e', 'n', 't', 'r'],
 ['l', 'e', ' ', 'c', 'o', 'n', 'c', 'e', 'n', 't', 'r', 'a'],
 ['l', 'e', ' ', 'c', 'o', 'n', 'c', 'e', 'n', 't', 'r', 'a', 't'],
 ['l', 'e', ' ', 'c', 'o', 'n', 'c', 'e', 'n', 't', 'r', 'a', 't', 'i'],
 ['l', 'e', ' ', 'c', 'o', 'n', 'c', 'e', 'n', 't', 'r', 'a', 't', 'i', 'o'],
 ['l', 'e', ' ', 'c', 'o', 'n', 'c', 'e', 'n', 't', 'r', 'a', 't', 'i', 'o', 'n'],
 ['e'],
 ['e', ' '],
 ['e', ' ', 'c'],
 ['e', ' ', 'c', 'o'],
 ['e', ' ', 'c', 'o', 'n'],
 ['e', ' ', 'c', 'o', 'n', 'c'],
 ['e', ' ', 'c', 'o', 'n', 'c', 'e'],
 ['e', ' ', 'c', 'o', 'n', 'c', 'e', 'n'],
 ['e', ' ', 'c', 'o', 'n', 'c', 'e', 'n', 't'],
 ['e', ' ', 'c', 'o', 'n', 'c', 'e', 'n', 't', 'r'],
 ['e', ' ', 'c', 'o', 'n', 'c', 'e', 'n', 't', 'r', 'a'],
 ['e', ' ', 'c', 'o', 'n', 'c', 'e', 'n', 't', 'r', 'a', 't'],
 ['e', ' ', 'c', 'o', 'n', 'c', 'e', 'n', 't', 'r', 'a', 't', 'i'],
 ['e', ' ', 'c', 'o', 'n', 'c', 'e', 'n', 't', 'r', 'a', 't', 'i', 'o'],
 ['e', ' ', 'c', 'o', 'n', 'c', 'e', 'n', 't', 'r', 'a', 't', 'i', 'o', 'n'],
 [' '],
 [' ', 'c'],
 [' ', 'c', 'o'],
 [' ', 'c', 'o', 'n'],
 [' ', 'c', 'o', 'n', 'c'],
 [' ', 'c', 'o', 'n', 'c', 'e'],
 [' ', 'c', 'o', 'n', 'c', 'e', 'n'],
 [' ', 'c', 'o', 'n', 'c', 'e', 'n', 't'],
 [' ', 'c', 'o', 'n', 'c', 'e', 'n', 't', 'r'],
 [' ', 'c', 'o', 'n', 'c', 'e', 'n', 't', 'r', 'a'],
 [' ', 'c', 'o', 'n', 'c', 'e', 'n', 't', 'r', 'a', 't'],
 [' ', 'c', 'o', 'n', 'c', 'e', 'n', 't', 'r', 'a', 't', 'i'],
 [' ', 'c', 'o', 'n', 'c', 'e', 'n', 't', 'r', 'a', 't', 'i', 'o'],
 [' ', 'c', 'o', 'n', 'c', 'e', 'n', 't', 'r', 'a', 't', 'i', 'o', 'n'],
 ['c'],
 ['c', 'o'],
 ['c', 'o', 'n'],
 ['c', 'o', 'n', 'c'],
 ['c', 'o', 'n', 'c', 'e'],
 ['c', 'o', 'n', 'c', 'e', 'n'],
 ['c', 'o', 'n', 'c', 'e', 'n', 't'],
 ['c', 'o', 'n', 'c', 'e', 'n', 't', 'r'],
 ['c', 'o', 'n', 'c', 'e', 'n', 't', 'r', 'a'],
 ['c', 'o', 'n', 'c', 'e', 'n', 't', 'r', 'a', 't'],
 ['c', 'o', 'n', 'c', 'e', 'n', 't', 'r', 'a', 't', 'i'],
 ['c', 'o', 'n', 'c', 'e', 'n', 't', 'r', 'a', 't', 'i', 'o'],
 ['c', 'o', 'n', 'c', 'e', 'n', 't', 'r', 'a', 't', 'i', 'o', 'n'],
 ['o'],
 ['o', 'n'],
 ['o', 'n', 'c'],
 ['o', 'n', 'c', 'e'],
 ['o', 'n', 'c', 'e', 'n'],
 ['o', 'n', 'c', 'e', 'n', 't'],
 ['o', 'n', 'c', 'e', 'n', 't', 'r'],
 ['o', 'n', 'c', 'e', 'n', 't', 'r', 'a'],
 ['o', 'n', 'c', 'e', 'n', 't', 'r', 'a', 't'],
 ['o', 'n', 'c', 'e', 'n', 't', 'r', 'a', 't', 'i'],
 ['o', 'n', 'c', 'e', 'n', 't', 'r', 'a', 't', 'i', 'o'],
 ['o', 'n', 'c', 'e', 'n', 't', 'r', 'a', 't', 'i', 'o', 'n'],
 ['n'],
 ['n', 'c'],
 ['n', 'c', 'e'],
 ['n', 'c', 'e', 'n'],
 ['n', 'c', 'e', 'n', 't'],
 ['n', 'c', 'e', 'n', 't', 'r'],
 ['n', 'c', 'e', 'n', 't', 'r', 'a'],
 ['n', 'c', 'e', 'n', 't', 'r', 'a', 't'],
 ['n', 'c', 'e', 'n', 't', 'r', 'a', 't', 'i'],
 ['n', 'c', 'e', 'n', 't', 'r', 'a', 't', 'i', 'o'],
 ['n', 'c', 'e', 'n', 't', 'r', 'a', 't', 'i', 'o', 'n'],
 ['c'],
 ['c', 'e'],
 ['c', 'e', 'n'],
 ['c', 'e', 'n', 't'],
 ['c', 'e', 'n', 't', 'r'],
 ['c', 'e', 'n', 't', 'r', 'a'],
 ['c', 'e', 'n', 't', 'r', 'a', 't'],
 ['c', 'e', 'n', 't', 'r', 'a', 't', 'i'],
 ['c', 'e', 'n', 't', 'r', 'a', 't', 'i', 'o'],
 ['c', 'e', 'n', 't', 'r', 'a', 't', 'i', 'o', 'n'],
 ['e'],
 ['e', 'n'],
 ['e', 'n', 't'],
 ['e', 'n', 't', 'r'],
 ['e', 'n', 't', 'r', 'a'],
 ['e', 'n', 't', 'r', 'a', 't'],
 ['e', 'n', 't', 'r', 'a', 't', 'i'],
 ['e', 'n', 't', 'r', 'a', 't', 'i', 'o'],
 ['e', 'n', 't', 'r', 'a', 't', 'i', 'o', 'n'],
 ['n'],
 ['n', 't'],
 ['n', 't', 'r'],
 ['n', 't', 'r', 'a'],
 ['n', 't', 'r', 'a', 't'],
 ['n', 't', 'r', 'a', 't', 'i'],
 ['n', 't', 'r', 'a', 't', 'i', 'o'],
 ['n', 't', 'r', 'a', 't', 'i', 'o', 'n'],
 ['t'],
 ['t', 'r'],
 ['t', 'r', 'a'],
 ['t', 'r', 'a', 't'],
 ['t', 'r', 'a', 't', 'i'],
 ['t', 'r', 'a', 't', 'i', 'o'],
 ['t', 'r', 'a', 't', 'i', 'o', 'n'],
 ['r'],
 ['r', 'a'],
 ['r', 'a', 't'],
 ['r', 'a', 't', 'i'],
 ['r', 'a', 't', 'i', 'o'],
 ['r', 'a', 't', 'i', 'o', 'n'],
 ['a'],
 ['a', 't'],
 ['a', 't', 'i'],
 ['a', 't', 'i', 'o'],
 ['a', 't', 'i', 'o', 'n'],
 ['t'],
 ['t', 'i'],
 ['t', 'i', 'o'],
 ['t', 'i', 'o', 'n'],
 ['i'],
 ['i', 'o'],
 ['i', 'o', 'n'],
 ['o'],
 ['o', 'n'],
 ['n']]

/-- The 496 substrings of "Positive particle concentration", in generation
order, as a literal. -/
def exL2 : List (List Char) :=
[['P'],
 ['P', 'o'],
 ['P', 'o', 's'],
 ['P', 'o', 's', 'i'],
 ['P', 'o', 's', 'i', 't'],
 ['P', 'o', 's', 'i', 't', 'i'],
 ['P', 'o', 's', 'i', 't', 'i', 'v'],
 ['P', 'o', 's', 'i', 't', 'i', 'v', 'e'],
 ['P', 'o', 's', 'i', 't', 'i', 'v', 'e', ' '],
 ['P', 'o', 's', 'i', 't', 'i', 'v', 'e', ' ', 'p'],
 ['P', 'o', 's', 'i', 't', 'i', 'v', 'e', ' ', 'p', 'a'],
 ['P', 'o', 's', 'i', 't', 'i', 'v', 'e', ' ', 'p', 'a', 'r'],
 ['P', 'o', 's', 'i', 't', 'i', 'v', 'e', ' ', 'p', 'a', 'r', 't'],
 ['P', 'o', 's', 'i', 't', 'i', 'v', 'e', ' ', 'p', 'a', 'r', 't', 'i'],
 ['P', 'o', 's', 'i', 't', 'i', 'v', 'e', ' ', 'p', 'a', 'r', 't', 'i', 'c'],
 ['P', 'o', 's', 'i', 't', 'i', 'v', 'e', ' ', 'p', 'a', 'r', 't', 'i', 'c', 'l'],
 ['P', 'o', 's', 'i', 't', 'i', 'v', 'e', ' ', 'p', 'a', 'r', 't', 'i', 'c', 'l', 'e'],
 ['P', 'o', 's', 'i', 't', 'i', 'v', 'e', ' ', 'p', 'a', 'r', 't', 'i', 'c', 'l', 'e', ' '],
 ['P', 'o', 's', 'i', 't', 'i', 'v', 'e', ' ', 'p', 'a', 'r', 't', 'i', 'c', 'l', 'e', ' ', 'c'],
 ['P', 'o', 's', 'i', 't', 'i', 'v', 'e', ' ', 'p', 'a', 'r', 't', 'i', 'c', 'l', 'e', ' ', 'c', 'o'],
 ['P', 'o', 's', 'i', 't', 'i', 'v', 'e', ' ', 'p', 'a', 'r', 't', 'i', 'c', 'l', 'e', ' ', 'c', 'o', 'n'],
 ['P', 'o', 's', 'i', 't', 'i', 'v', 'e', ' ', 'p', 'a', 'r', 't', 'i', 'c', 'l', 'e', ' ', 'c', 'o', 'n', 'c'],
 ['P', 'o', 's', 'i', 't', 'i', 'v', 'e', ' ', 'p', 'a', 'r', 't', 'i', 'c', 'l', 'e', ' ', 'c', 'o', 'n', 'c', 'e'],
 ['P', 'o', 's', 'i', 't', 'i', 'v', 'e', ' ', 'p', 'a', 'r', 't', 'i', 'c', 'l', 'e', ' ', 'c', 'o', 'n', 'c', 'e', 'n'],
 ['P', 'o', 's', 'i', 't', 'i', 'v', 'e', ' ', 'p', 'a', 'r', 't', 'i', 'c', 'l', 'e', ' ', 'c', 'o', 'n', 'c', 'e', 'n',
 't'],
 ['P', 'o', 's', 'i', 't', 'i', 'v', 'e', ' ', 'p', 'a', 'r', 't', 'i', 'c', 'l', 'e', ' ', 'c', 'o', 'n', 'c', 'e', 'n',
 't', 'r'],
 ['P', 'o', 's', 'i', 't', 'i', 'v', 'e', ' ', 'p', 'a', 'r', 't', 'i', 'c', 'l', 'e', ' ', 'c', 'o', 'n', 'c', 'e', 'n',
 't', 'r', 'a'],
 ['P', 'o', 's', 'i', 't', 'i', 'v', 'e', ' ', 'p', 'a', 'r', 't', 'i', 'c', 'l', 'e', ' ', 'c', 'o', 'n', 'c', 'e', 'n',
 't', 'r', 'a', 't'],
 ['P', 'o', 's', 'i', 't', 'i', 'v', 'e', ' ', 'p', 'a', 'r', 't', 'i', 'c', 'l', 'e', ' ', 'c', 'o', 'n', 'c', 'e', 'n',
 't', 'r', 'a', 't', 'i'],
 ['P', 'o', 's', 'i', 't', 'i', 'v', 'e', ' ', 'p', 'a', 'r', 't', 'i', 'c', 'l', 'e', ' ', 'c', 'o', 'n', 'c', 'e', 'n',
 't', 'r', 'a', 't', 'i', 'o'],
 ['P', 'o', 's', 'i', 't', 'i', 'v', 'e', ' ', 'p', 'a', 'r', 't', 'i', 'c', 'l', 'e', ' ', 'c', 'o', 'n', 'c', 'e', 'n',
 't', 'r', 'a', 't', 'i', 'o', 'n'],
 ['o'],
 ['o', 's'],
 ['o', 's', 'i'],
 ['o', 's', 'i', 't'],
 ['o', 's', 'i', 't', 'i'],
 ['o', 's', 'i', 't', 'i', 'v'],
 ['o', 's', 'i', 't', 'i', 'v', 'e'],
 ['o', 's', 'i', 't', 'i', 'v', 'e', ' '],
 ['o', 's', 'i', 't', 'i', 'v', 'e', ' ', 'p'],
 ['o', 's', 'i', 't', 'i', 'v', 'e', ' ', 'p', 'a'],
 ['o', 's', 'i', 't', 'i', 'v', 'e', ' ', 'p', 'a', 'r'],
 ['o', 's', 'i', 't', 'i', 'v', 'e', ' ', 'p', 'a', 'r', 't'],
 ['o', 's', 'i', 't', 'i', 'v', 'e', ' ', 'p', 'a', 'r', 't', 'i'],
 ['o', 's', 'i', 't', 'i', 'v', 'e', ' ', 'p', 'a', 'r', 't', 'i', 'c'],
 ['o', 's', 'i', 't', 'i', 'v', 'e', ' ', 'p', 'a', 'r', 't', 'i', 'c', 'l'],
 ['o', 's', 'i', 't', 'i', 'v', 'e', ' ', 'p', 'a', 'r', 't', 'i', 'c', 'l', 'e'],
 ['o', 's', 'i', 't', 'i', 'v', 'e', ' ', 'p', 'a', 'r', 't', 'i', 'c', 'l', 'e', ' '],
 ['o', 's', 'i', 't', 'i', 'v', 'e', ' ', 'p', 'a', 'r', 't', 'i', 'c', 'l', 'e', ' ', 'c'],
 ['o', 's', 'i', 't', 'i', 'v', 'e', ' ', 'p', 'a', 'r', 't', 'i', 'c', 'l', 'e', ' ', 'c', 'o'],
 ['o', 's', 'i', 't', 'i', 'v', 'e', ' ', 'p', 'a', 'r', 't', 'i', 'c', 'l', 'e', ' ', 'c', 'o', 'n'],
 ['o', 's', 'i', 't', 'i', 'v', 'e', ' ', 'p', 'a', 'r', 't', 'i', 'c', 'l', 'e', ' ', 'c', 'o', 'n', 'c'],
 ['o', 's', 'i', 't', 'i', 'v', 'e', ' ', 'p', 'a', 'r', 't', 'i', 'c', 'l', 'e', ' ', 'c', 'o', 'n', 'c', 'e'],
 ['o', 's', 'i', 't', 'i', 'v', 'e', ' ', 'p', 'a', 'r', 't', 'i', 'c', 'l', 'e', ' ', 'c', 'o', 'n', 'c', 'e', 'n'],
 ['o', 's', 'i', 't', 'i', 'v', 'e', ' ', 'p', 'a', 'r', 't', 'i', 'c', 'l', 'e', ' ', 'c', 'o', 'n', 'c', 'e', 'n', 't'],
 ['o', 's', 'i', 't', 'i', 'v', 'e', ' ', 'p', 'a', 'r', 't', 'i', 'c', 'l', 'e', ' ', 'c', 'o', 'n', 'c', 'e', 'n', 't',
 'r'],
 ['o', 's', 'i', 't', 'i', 'v', 'e', ' ', 'p', 'a', 'r', 't', 'i', 'c', 'l', 'e', ' ', 'c', 'o', 'n', 'c', 'e', 'n', 't',
 'r', 'a'],
 ['o', 's', 'i', 't', 'i', 'v', 'e', ' ', 'p', 'a', 'r', 't', 'i', 'c', 'l', 'e', ' ', 'c', 'o', 'n', 'c', 'e', 'n', 't',
 'r', 'a', 't'],
 ['o', 's', 'i', 't', 'i', 'v', 'e', ' ', 'p', 'a', 'r', 't', 'i', 'c', 'l', 'e', ' ', 'c', 'o', 'n', 'c', 'e', 'n', 't',
 'r', 'a', 't', 'i'],
 ['o', 's', 'i', 't', 'i', 'v', 'e', ' ', 'p', 'a', 'r', 't', 'i', 'c', 'l', 'e', ' ', 'c', 'o', 'n', 'c', 'e', 'n', 't',
 'r', 'a', 't', 'i', 'o'],
 ['o', 's', 'i', 't', 'i', 'v', 'e', ' ', 'p', 'a', 'r', 't', 'i', 'c', 'l', 'e', ' ', 'c', 'o', 'n', 'c', 'e', 'n', 't',
 'r', 'a', 't', 'i', 'o', 'n'],
 ['s'],
 ['s', 'i'],
 ['s', 'i', 't'],
 ['s', 'i', 't', 'i'],
 ['s', 'i', 't', 'i', 'v'],
 ['s', 'i', 't', 'i', 'v', 'e'],
 ['s', 'i', 't', 'i', 'v', 'e', ' '],
 ['s', 'i', 't', 'i', 'v', 'e', ' ', 'p'],
 ['s', 'i', 't', 'i', 'v', 'e', ' ', 'p', 'a'],
 ['s', 'i', 't', 'i', 'v', 'e', ' ', 'p', 'a', 'r'],
 ['s', 'i', 't', 'i', 'v', 'e', ' ', 'p', 'a', 'r', 't'],
 ['s', 'i', 't', 'i', 'v', 'e', ' ', 'p', 'a', 'r', 't', 'i'],
 ['s', 'i', 't', 'i', 'v', 'e', ' ', 'p', 'a', 'r', 't', 'i', 'c'],
 ['s', 'i', 't', 'i', 'v', 'e', ' ', 'p', 'a', 'r', 't', 'i', 'c', 'l'],
 ['s', 'i', 't', 'i', 'v', 'e', ' ', 'p', 'a', 'r', 't', 'i', 'c', 'l', 'e'],
 ['s', 'i', 't', 'i', 'v', 'e', ' ', 'p', 'a', 'r', 't', 'i', 'c', 'l', 'e', ' '],
 ['s', 'i', 't', 'i', 'v', 'e', ' ', 'p', 'a', 'r', 't', 'i', 'c', 'l', 'e', ' ', 'c'],
 ['s', 'i', 't', 'i', 'v', 'e', ' ', 'p', 'a', 'r', 't', 'i', 'c', 'l', 'e', ' ', 'c', 'o'],
 ['s', 'i', 't', 'i', 'v', 'e', ' ', 'p', 'a', 'r', 't', 'i', 'c', 'l', 'e', ' ', 'c', 'o', 'n'],
 ['s', 'i', 't', 'i', 'v', 'e', ' ', 'p', 'a', 'r', 't', 'i', 'c', 'l', 'e', ' ', 'c', 'o', 'n', 'c'],
 ['s', 'i', 't', 'i', 'v', 'e', ' ', 'p', 'a', 'r', 't', 'i', 'c', 'l', 'e', ' ', 'c', 'o', 'n', 'c', 'e'],
 ['s', 'i', 't', 'i', 'v', 'e', ' ', 'p', 'a', 'r', 't', 'i', 'c', 'l', 'e', ' ', 'c', 'o', 'n', 'c', 'e', 'n'],
 ['s', 'i', 't', 'i', 'v', 'e', ' ', 'p', 'a', 'r', 't', 'i', 'c', 'l', 'e', ' ', 'c', 'o', 'n', 'c', 'e', 'n', 't'],
 ['s', 'i', 't', 'i', 'v', 'e', ' ', 'p', 'a', 'r', 't', 'i', 'c', 'l', 'e', ' ', 'c', 'o', 'n', 'c', 'e', 'n', 't', 'r'],
 ['s', 'i', 't', 'i', 'v', 'e', ' ', 'p', 'a', 'r', 't', 'i', 'c', 'l', 'e', ' ', 'c', 'o', 'n', 'c', 'e', 'n', 't', 'r',
 'a'],
 ['s', 'i', 't', 'i', 'v', 'e', ' ', 'p', 'a', 'r', 't', 'i', 'c', 'l', 'e', ' ', 'c', 'o', 'n', 'c', 'e', 'n', 't', 'r',
 'a', 't'],
 ['s', 'i', 't', 'i', 'v', 'e', ' ', 'p', 'a', 'r', 't', 'i', 'c', 'l', 'e', ' ', 'c', 'o', 'n', 'c', 'e', 'n', 't', 'r',
 'a', 't', 'i'],
 ['s', 'i', 't', 'i', 'v', 'e', ' ', 'p', 'a', 'r', 't', 'i', 'c', 'l', 'e', ' ', 'c', 'o', 'n', 'c', 'e', 'n', 't', 'r',
 'a', 't', 'i', 'o'],
 ['s', 'i', 't', 'i', 'v', 'e', ' ', 'p', 'a', 'r', 't', 'i', 'c', 'l', 'e', ' ', 'c', 'o', 'n', 'c', 'e', 'n', 't', 'r',
 'a', 't', 'i', 'o', 'n'],
 ['i'],
 ['i', 't'],
 ['i', 't', 'i'],
 ['i', 't', 'i', 'v'],
 ['i', 't', 'i', 'v', 'e'],
 ['i', 't', 'i', 'v', 'e', ' '],
 ['i', 't', 'i', 'v', 'e', ' ', 'p'],
 ['i', 't', 'i', 'v', 'e', ' ', 'p', 'a'],
 ['i', 't', 'i', 'v', 'e', ' ', 'p', 'a', 'r'],
 ['i', 't', 'i', 'v', 'e', ' ', 'p', 'a', 'r', 't'],
 ['i', 't', 'i', 'v', 'e', ' ', 'p', 'a', 'r', 't', 'i'],
 ['i', 't', 'i', 'v', 'e', ' ', 'p', 'a', 'r', 't', 'i', 'c'],
 ['i', 't', 'i', 'v', 'e', ' ', 'p', 'a', 'r', 't', 'i', 'c', 'l'],
 ['i', 't', 'i', 'v', 'e', ' ', 'p', 'a', 'r', 't', 'i', 'c', 'l', 'e'],
 ['i', 't', 'i', 'v', 'e', ' ', 'p', 'a', 'r', 't', 'i', 'c', 'l', 'e', ' '],
 ['i', 't', 'i', 'v', 'e', ' ', 'p', 'a', 'r', 't', 'i', 'c', 'l', 'e', ' ', 'c'],
 ['i', 't', 'i', 'v', 'e', ' ', 'p', 'a', 'r', 't', 'i', 'c', 'l', 'e', ' ', 'c', 'o'],
 ['i', 't', 'i', 'v', 'e', ' ', 'p', 'a', 'r', 't', 'i', 'c', 'l', 'e', ' ', 'c', 'o', 'n'],
 ['i', 't', 'i', 'v', 'e', ' ', 'p', 'a', 'r', 't', 'i', 'c', 'l', 'e', ' ', 'c', 'o', 'n', 'c'],
 ['i', 't', 'i', 'v', 'e', ' ', 'p', 'a', 'r', 't', 'i', 'c', 'l', 'e', ' ', 'c', 'o', 'n', 'c', 'e'],
 ['i', 't', 'i', 'v', 'e', ' ', 'p', 'a', 'r', 't', 'i', 'c', 'l', 'e', ' ', 'c', 'o', 'n', 'c', 'e', 'n'],
 ['i', 't', 'i', 'v', 'e', ' ', 'p', 'a', 'r', 't', 'i', 'c', 'l', 'e', ' ', 'c', 'o', 'n', 'c', 'e', 'n', 't'],
 ['i', 't', 'i', 'v', 'e', ' ', 'p', 'a', 'r', 't', 'i', 'c', 'l', 'e', ' ', 'c', 'o', 'n', 'c', 'e', 'n', 't', 'r'],
 ['i', 't', 'i', 'v', 'e', ' ', 'p', 'a', 'r', 't', 'i', 'c', 'l', 'e', ' ', 'c', 'o', 'n', 'c', 'e', 'n', 't', 'r', 'a'],
 ['i', 't', 'i', 'v', 'e', ' ', 'p', 'a', 'r', 't', 'i', 'c', 'l', 'e', ' ', 'c', 'o', 'n', 'c', 'e', 'n', 't', 'r', 'a',
 't'],
 ['i', 't', 'i', 'v', 'e', ' ', 'p', 'a', 'r', 't', 'i', 'c', 'l', 'e', ' ', 'c', 'o', 'n', 'c', 'e', 'n', 't', 'r', 'a',
 't', 'i'],
 ['i', 't', 'i', 'v', 'e', ' ', 'p', 'a', 'r', 't', 'i', 'c', 'l', 'e', ' ', 'c', 'o', 'n', 'c', 'e', 'n', 't', 'r', 'a',
 't', 'i', 'o'],
 ['i', 't', 'i', 'v', 'e', ' ', 'p', 'a', 'r', 't', 'i', 'c', 'l', 'e', ' ', 'c', 'o', 'n', 'c', 'e', 'n', 't', 'r', 'a',
 't', 'i', 'o', 'n'],
 ['t'],
 ['t', 'i'],
 ['t', 'i', 'v'],
 ['t', 'i', 'v', 'e'],
 ['t', 'i', 'v', 'e', ' '],
 ['t', 'i', 'v', 'e', ' ', 'p'],
 ['t', 'i', 'v', 'e', ' ', 'p', 'a'],
 ['t', 'i', 'v', 'e', ' ', 'p', 'a', 'r'],
 ['t', 'i', 'v', 'e', ' ', 'p', 'a', 'r', 't'],
 ['t', 'i', 'v', 'e', ' ', 'p', 'a', 'r', 't', 'i'],
 ['t', 'i', 'v', 'e', ' ', 'p', 'a', 'r', 't', 'i', 'c'],
 ['t', 'i', 'v', 'e', ' ', 'p', 'a', 'r', 't', 'i', 'c', 'l'],
 ['t', 'i', 'v', 'e', ' ', 'p', 'a', 'r', 't', 'i', 'c', 'l', 'e'],
 ['t', 'i', 'v', 'e', ' ', 'p', 'a', 'r', 't', 'i', 'c', 'l', 'e', ' '],
 ['t', 'i', 'v', 'e', ' ', 'p', 'a', 'r', 't', 'i', 'c', 'l', 'e', ' ', 'c'],
 ['t', 'i', 'v', 'e', ' ', 'p', 'a', 'r', 't', 'i', 'c', 'l', 'e', ' ', 'c', 'o'],
 ['t', 'i', 'v', 'e', ' ', 'p', 'a', 'r', 't', 'i', 'c', 'l', 'e', ' ', 'c', 'o', 'n'],
 ['t', 'i', 'v', 'e', ' ', 'p', 'a', 'r', 't', 'i', 'c', 'l', 'e', ' ', 'c', 'o', 'n', 'c'],
 ['t', 'i', 'v', 'e', ' ', 'p', 'a', 'r', 't', 'i', 'c', 'l', 'e', ' ', 'c', 'o', 'n', 'c', 'e'],
 ['t', 'i', 'v', 'e', ' ', 'p', 'a', 'r', 't', 'i', 'c', 'l', 'e', ' ', 'c', 'o', 'n', 'c', 'e', 'n'],
 ['t', 'i', 'v', 'e', ' ', 'p', 'a', 'r', 't', 'i', 'c', 'l', 'e', ' ', 'c', 'o', 'n', 'c', 'e', 'n', 't'],
 ['t', 'i', 'v', 'e', ' ', 'p', 'a', 'r', 't', 'i', 'c', 'l', 'e', ' ', 'c', 'o', 'n', 'c', 'e', 'n', 't', 'r'],
 ['t', 'i', 'v', 'e', ' ', 'p', 'a', 'r', 't', 'i', 'c', 'l', 'e', ' ', 'c', 'o', 'n', 'c', 'e', 'n', 't', 'r', 'a'],
 ['t', 'i', 'v', 'e', ' ', 'p', 'a', 'r', 't', 'i', 'c', 'l', 'e', ' ', 'c', 'o', 'n', 'c', 'e', 'n', 't', 'r', 'a', 't'],
 ['t', 'i', 'v', 'e', ' ', 'p', 'a', 'r', 't', 'i', 'c', 'l', 'e', ' ', 'c', 'o', 'n', 'c', 'e', 'n', 't', 'r', 'a', 't',
 'i'],
 ['t', 'i', 'v', 'e', ' ', 'p', 'a', 'r', 't', 'i', 'c', 'l', 'e', ' ', 'c', 'o', 'n', 'c', 'e', 'n', 't', 'r', 'a', 't',
 'i', 'o'],
 ['t', 'i', 'v', 'e', ' ', 'p', 'a', 'r', 't', 'i', 'c', 'l', 'e', ' ', 'c', 'o', 'n', 'c', 'e', 'n', 't', 'r', 'a', 't',
 'i', 'o', 'n'],
 ['i'],
 ['i', 'v'],
 ['i', 'v', 'e'],
 ['i', 'v', 'e', ' '],
 ['i', 'v', 'e', ' ', 'p'],
 ['i', 'v', 'e', ' ', 'p', 'a'],
 ['i', 'v', 'e', ' ', 'p', 'a', 'r'],
 ['i', 'v', 'e', ' ', 'p', 'a', 'r', 't'],
 ['i', 'v', 'e', ' ', 'p', 'a', 'r', 't', 'i'],
 ['i', 'v', 'e', ' ', 'p', 'a', 'r', 't', 'i', 'c'],
 ['i', 'v', 'e', ' ', 'p', 'a', 'r', 't', 'i', 'c', 'l'],
 ['i', 'v', 'e', ' ', 'p', 'a', 'r', 't', 'i', 'c', 'l', 'e'],
 ['i', 'v', 'e', ' ', 'p', 'a', 'r', 't', 'i', 'c', 'l', 'e', ' '],
 ['i', 'v', 'e', ' ', 'p', 'a', 'r', 't', 'i', 'c', 'l', 'e', ' ', 'c'],
 ['i', 'v', 'e', ' ', 'p', 'a', 'r', 't', 'i', 'c', 'l', 'e', ' ', 'c', 'o'],
 ['i', 'v', 'e', ' ', 'p', 'a', 'r', 't', 'i', 'c', 'l', 'e', ' ', 'c', 'o', 'n'],
 ['i', 'v', 'e', ' ', 'p', 'a', 'r', 't', 'i', 'c', 'l', 'e', ' ', 'c', 'o', 'n', 'c'],
 ['i', 'v', 'e', ' ', 'p', 'a', 'r', 't', 'i', 'c', 'l', 'e', ' ', 'c', 'o', 'n', 'c', 'e'],
 ['i', 'v', 'e', ' ', 'p', 'a', 'r', 't', 'i', 'c', 'l', 'e', ' ', 'c', 'o', 'n', 'c', 'e', 'n'],
 ['i', 'v', 'e', ' ', 'p', 'a', 'r', 't', 'i', 'c', 'l', 'e', ' ', 'c', 'o', 'n', 'c', 'e', 'n', 't'],
 ['i', 'v', 'e', ' ', 'p', 'a', 'r', 't', 'i', 'c', 'l', 'e', ' ', 'c', 'o', 'n', 'c', 'e', 'n', 't', 'r'],
 ['i', 'v', 'e', ' ', 'p', 'a', 'r', 't', 'i', 'c', 'l', 'e', ' ', 'c', 'o', 'n', 'c', 'e', 'n', 't', 'r', 'a'],
 ['i', 'v', 'e', ' ', 'p', 'a', 'r', 't', 'i', 'c', 'l', 'e', ' ', 'c', 'o', 'n', 'c', 'e', 'n', 't', 'r', 'a', 't'],
 ['i', 'v', 'e', ' ', 'p', 'a', 'r', 't', 'i', 'c', 'l', 'e', ' ', 'c', 'o', 'n', 'c', 'e', 'n', 't', 'r', 'a', 't', 'i'],
 ['i', 'v', 'e', ' ', 'p', 'a', 'r', 't', 'i', 'c', 'l', 'e', ' ', 'c', 'o', 'n', 'c', 'e', 'n', 't', 'r', 'a', 't', 'i',
 'o'],
 ['i', 'v', 'e', ' ', 'p', 'a', 'r', 't', 'i', 'c', 'l', 'e', ' ', 'c', 'o', 'n', 'c', 'e', 'n', 't', 'r', 'a', 't', 'i',
 'o', 'n'],
 ['v'],
 ['v', 'e'],
 ['v', 'e', ' '],
 ['v', 'e', ' ', 'p'],
 ['v', 'e', ' ', 'p', 'a'],
 ['v', 'e', ' ', 'p', 'a', 'r'],
 ['v', 'e', ' ', 'p', 'a', 'r', 't'],
 ['v', 'e', ' ', 'p', 'a', 'r', 't', 'i'],
 ['v', 'e', ' ', 'p', 'a', 'r', 't', 'i', 'c'],
 ['v', 'e', ' ', 'p', 'a', 'r', 't', 'i', 'c', 'l'],
 ['v', 'e', ' ', 'p', 'a', 'r', 't', 'i', 'c', 'l', 'e'],
 ['v', 'e', ' ', 'p', 'a', 'r', 't', 'i', 'c', 'l', 'e', ' '],
 ['v', 'e', ' ', 'p', 'a', 'r', 't', 'i', 'c', 'l', 'e', ' ', 'c'],
 ['v', 'e', ' ', 'p', 'a', 'r', 't', 'i', 'c', 'l', 'e', ' ', 'c', 'o'],
 ['v', 'e', ' ', 'p', 'a', 'r', 't', 'i', 'c', 'l', 'e', ' ', 'c', 'o', 'n'],
 ['v', 'e', ' ', 'p', 'a', 'r', 't', 'i', 'c', 'l', 'e', ' ', 'c', 'o', 'n', 'c'],
 ['v', 'e', ' ', 'p', 'a', 'r', 't', 'i', 'c', 'l', 'e', ' ', 'c', 'o', 'n', 'c', 'e'],
 ['v', 'e', ' ', 'p', 'a', 'r', 't', 'i', 'c', 'l', 'e', ' ', 'c', 'o', 'n', 'c', 'e', 'n'],
 ['v', 'e', ' ', 'p', 'a', 'r', 't', 'i', 'c', 'l', 'e', ' ', 'c', 'o', 'n', 'c', 'e', 'n', 't'],
 ['v', 'e', ' ', 'p', 'a', 'r', 't', 'i', 'c', 'l', 'e', ' ', 'c', 'o', 'n', 'c', 'e', 'n', 't', 'r'],
 ['v', 'e', ' ', 'p', 'a', 'r', 't', 'i', 'c', 'l', 'e', ' ', 'c', 'o', 'n', 'c', 'e', 'n', 't', 'r', 'a'],
 ['v', 'e', ' ', 'p', 'a', 'r', 't', 'i', 'c', 'l', 'e', ' ', 'c', 'o', 'n', 'c', 'e', 'n', 't', 'r', 'a', 't'],
 ['v', 'e', ' ', 'p', 'a', 'r', 't', 'i', 'c', 'l', 'e', ' ', 'c', 'o', 'n', 'c', 'e', 'n', 't', 'r', 'a', 't', 'i'],
 ['v', 'e', ' ', 'p', 'a', 'r', 't', 'i', 'c', 'l', 'e', ' ', 'c', 'o', 'n', 'c', 'e', 'n', 't', 'r', 'a', 't', 'i', 'o'],
 ['v', 'e', ' ', 'p', 'a', 'r', 't', 'i', 'c', 'l', 'e', ' ', 'c', 'o', 'n', 'c', 'e', 'n', 't', 'r', 'a', 't', 'i', 'o',
 'n'],
 ['e'],
 ['e', ' '],
 ['e', ' ', 'p'],
 ['e', ' ', 'p', 'a'],
 ['e', ' ', 'p', 'a', 'r'],
 ['e', ' ', 'p', 'a', 'r', 't'],
 ['e', ' ', 'p', 'a', 'r', 't', 'i'],
 ['e', ' ', 'p', 'a', 'r', 't', 'i', 'c'],
 ['e', ' ', 'p', 'a', 'r', 't', 'i', 'c', 'l'],
 ['e', ' ', 'p', 'a', 'r', 't', 'i', 'c', 'l', 'e'],
 ['e', ' ', 'p', 'a', 'r', 't', 'i', 'c', 'l', 'e', ' '],
 ['e', ' ', 'p', 'a', 'r', 't', 'i', 'c', 'l', 'e', ' ', 'c'],
 ['e', ' ', 'p', 'a', 'r', 't', 'i', 'c', 'l', 'e', ' ', 'c', 'o'],
 ['e', ' ', 'p', 'a', 'r', 't', 'i', 'c', 'l', 'e', ' ', 'c', 'o', 'n'],
 ['e', ' ', 'p', 'a', 'r', 't', 'i', 'c', 'l', 'e', ' ', 'c', 'o', 'n', 'c'],
 ['e', ' ', 'p', 'a', 'r', 't', 'i', 'c', 'l', 'e', ' ', 'c', 'o', 'n', 'c', 'e'],
 ['e', ' ', 'p', 'a', 'r', 't', 'i', 'c', 'l', 'e', ' ', 'c', 'o', 'n', 'c', 'e', 'n'],
 ['e', ' ', 'p', 'a', 'r', 't', 'i', 'c', 'l', 'e', ' ', 'c', 'o', 'n', 'c', 'e', 'n', 't'],
 ['e', ' ', 'p', 'a', 'r', 't', 'i', 'c', 'l', 'e', ' ', 'c', 'o', 'n', 'c', 'e', 'n', 't', 'r'],
 ['e', ' ', 'p', 'a', 'r', 't', 'i', 'c', 'l', 'e', ' ', 'c', 'o', 'n', 'c', 'e', 'n', 't', 'r', 'a'],
 ['e', ' ', 'p', 'a', 'r', 't', 'i', 'c', 'l', 'e', ' ', 'c', 'o', 'n', 'c', 'e', 'n', 't', 'r', 'a', 't'],
 ['e', ' ', 'p', 'a', 'r', 't', 'i', 'c', 'l', 'e', ' ', 'c', 'o', 'n', 'c', 'e', 'n', 't', 'r', 'a', 't', 'i'],
 ['e', ' ', 'p', 'a', 'r', 't', 'i', 'c', 'l', 'e', ' ', 'c', 'o', 'n', 'c', 'e', 'n', 't', 'r', 'a', 't', 'i', 'o'],
 ['e', ' ', 'p', 'a', 'r', 't', 'i', 'c', 'l', 'e', ' ', 'c', 'o', 'n', 'c', 'e', 'n', 't', 'r', 'a', 't', 'i', 'o', 'n'],
 [' '],
 [' ', 'p'],
 [' ', 'p', 'a'],
 [' ', 'p', 'a', 'r'],
 [' ', 'p', 'a', 'r', 't'],
 [' ', 'p', 'a', 'r', 't', 'i'],
 [' ', 'p', 'a', 'r', 't', 'i', 'c'],
 [' ', 'p', 'a', 'r', 't', 'i', 'c', 'l'],
 [' ', 'p', 'a', 'r', 't', 'i', 'c', 'l', 'e'],
 [' ', 'p', 'a', 'r', 't', 'i', 'c', 'l', 'e', ' '],
 [' ', 'p', 'a', 'r', 't', 'i', 'c', 'l', 'e', ' ', 'c'],
 [' ', 'p', 'a', 'r', 't', 'i', 'c', 'l', 'e', ' ', 'c', 'o'],
 [' ', 'p', 'a', 'r', 't', 'i', 'c', 'l', 'e', ' ', 'c', 'o', 'n'],
 [' ', 'p', 'a', 'r', 't', 'i', 'c', 'l', 'e', ' ', 'c', 'o', 'n', 'c'],
 [' ', 'p', 'a', 'r', 't', 'i', 'c', 'l', 'e', ' ', 'c', 'o', 'n', 'c', 'e'],
 [' ', 'p', 'a', 'r', 't', 'i', 'c', 'l', 'e', ' ', 'c', 'o', 'n', 'c', 'e', 'n'],
 [' ', 'p', 'a', 'r', 't', 'i', 'c', 'l', 'e', ' ', 'c', 'o', 'n', 'c', 'e', 'n', 't'],
 [' ', 'p', 'a', 'r', 't', 'i', 'c', 'l', 'e', ' ', 'c', 'o', 'n', 'c', 'e', 'n', 't', 'r'],
 [' ', 'p', 'a', 'r', 't', 'i', 'c', 'l', 'e', ' ', 'c', 'o', 'n', 'c', 'e', 'n', 't', 'r', 'a'],
 [' ', 'p', 'a', 'r', 't', 'i', 'c', 'l', 'e', ' ', 'c', 'o', 'n', 'c', 'e', 'n', 't', 'r', 'a', 't'],
 [' ', 'p', 'a', 'r', 't', 'i', 'c', 'l', 'e', ' ', 'c', 'o', 'n', 'c', 'e', 'n', 't', 'r', 'a', 't', 'i'],
 [' ', 'p', 'a', 'r', 't', 'i', 'c', 'l', 'e', ' ', 'c', 'o', 'n', 'c', 'e', 'n', 't', 'r', 'a', 't', 'i', 'o'],
 [' ', 'p', 'a', 'r', 't', 'i', 'c', 'l', 'e', ' ', 'c', 'o', 'n', 'c', 'e', 'n', 't', 'r', 'a', 't', 'i', 'o', 'n'],
 ['p'],
 ['p', 'a'],
 ['p', 'a', 'r'],
 ['p', 'a', 'r', 't'],
 ['p', 'a', 'r', 't', 'i'],
 ['p', 'a', 'r', 't', 'i', 'c'],
 ['p', 'a', 'r', 't', 'i', 'c', 'l'],
 ['p', 'a', 'r', 't', 'i', 'c', 'l', 'e'],
 ['p', 'a', 'r', 't', 'i', 'c', 'l', 'e', ' '],
 ['p', 'a', 'r', 't', 'i', 'c', 'l', 'e', ' ', 'c'],
 ['p', 'a', 'r', 't', 'i', 'c', 'l', 'e', ' ', 'c', 'o'],
 ['p', 'a', 'r', 't', 'i', 'c', 'l', 'e', ' ', 'c', 'o', 'n'],
 ['p', 'a', 'r', 't', 'i', 'c', 'l', 'e', ' ', 'c', 'o', 'n', 'c'],
 ['p', 'a', 'r', 't', 'i', 'c', 'l', 'e', ' ', 'c', 'o', 'n', 'c', 'e'],
 ['p', 'a', 'r', 't', 'i', 'c', 'l', 'e', ' ', 'c', 'o', 'n', 'c', 'e', 'n'],
 ['p', 'a', 'r', 't', 'i', 'c', 'l', 'e', ' ', 'c', 'o', 'n', 'c', 'e', 'n', 't'],
 ['p', 'a', 'r', 't', 'i', 'c', 'l', 'e', ' ', 'c', 'o', 'n', 'c', 'e', 'n', 't', 'r'],
 ['p', 'a', 'r', 't', 'i', 'c', 'l', 'e', ' ', 'c', 'o', 'n', 'c', 'e', 'n', 't', 'r', 'a'],
 ['p', 'a', 'r', 't', 'i', 'c', 'l', 'e', ' ', 'c', 'o', 'n', 'c', 'e', 'n', 't', 'r', 'a', 't'],
 ['p', 'a', 'r', 't', 'i', 'c', 'l', 'e', ' ', 'c', 'o', 'n', 'c', 'e', 'n', 't', 'r', 'a', 't', 'i'],
 ['p', 'a', 'r', 't', 'i', 'c', 'l', 'e', ' ', 'c', 'o', 'n', 'c', 'e', 'n', 't', 'r', 'a', 't', 'i', 'o'],
 ['p', 'a', 'r', 't', 'i', 'c', 'l', 'e', ' ', 'c', 'o', 'n', 'c', 'e', 'n', 't', 'r', 'a', 't', 'i', 'o', 'n'],
 ['a'],
 ['a', 'r'],
 ['a', 'r', 't'],
 ['a', 'r', 't', 'i'],
 ['a', 'r', 't', 'i', 'c'],
 ['a', 'r', 't', 'i', 'c', 'l'],
 ['a', 'r', 't', 'i', 'c', 'l', 'e'],
 ['a', 'r', 't', 'i', 'c', 'l', 'e', ' '],
 ['a', 'r', 't', 'i', 'c', 'l', 'e', ' ', 'c'],
 ['a', 'r', 't', 'i', 'c', 'l', 'e', ' ', 'c', 'o'],
 ['a', 'r', 't', 'i', 'c', 'l', 'e', ' ', 'c', 'o', 'n'],
 ['a', 'r', 't', 'i', 'c', 'l', 'e', ' ', 'c', 'o', 'n', 'c'],
 ['a', 'r', 't', 'i', 'c', 'l', 'e', ' ', 'c', 'o', 'n', 'c', 'e'],
 ['a', 'r', 't', 'i', 'c', 'l', 'e', ' ', 'c', 'o', 'n', 'c', 'e', 'n'],
 ['a', 'r', 't', 'i', 'c', 'l', 'e', ' ', 'c', 'o', 'n', 'c', 'e', 'n', 't'],
 ['a', 'r', 't', 'i', 'c', 'l', 'e', ' ', 'c', 'o', 'n', 'c', 'e', 'n', 't', 'r'],
 ['a', 'r', 't', 'i', 'c', 'l', 'e', ' ', 'c', 'o', 'n', 'c', 'e', 'n', 't', 'r', 'a'],
 ['a', 'r', 't', 'i', 'c', 'l', 'e', ' ', 'c', 'o', 'n', 'c', 'e', 'n', 't', 'r', 'a', 't'],
 ['a', 'r', 't', 'i', 'c', 'l', 'e', ' ', 'c', 'o', 'n', 'c', 'e', 'n', 't', 'r', 'a', 't', 'i'],
 ['a', 'r', 't', 'i', 'c', 'l', 'e', ' ', 'c', 'o', 'n', 'c', 'e', 'n', 't', 'r', 'a', 't', 'i', 'o'],
 ['a', 'r', 't', 'i', 'c', 'l', 'e', ' ', 'c', 'o', 'n', 'c', 'e', 'n', 't', 'r', 'a', 't', 'i', 'o', 'n'],
 ['r'],
 ['r', 't'],
 ['r', 't', 'i'],
 ['r', 't', 'i', 'c'],
 ['r', 't', 'i', 'c', 'l'],
 ['r', 't', 'i', 'c', 'l', 'e'],
 ['r', 't', 'i', 'c', 'l', 'e', ' '],
 ['r', 't', 'i', 'c', 'l', 'e', ' ', 'c'],
 ['r', 't', 'i', 'c', 'l', 'e', ' ', 'c', 'o'],
 ['r', 't', 'i', 'c', 'l', 'e', ' ', 'c', 'o', 'n'],
 ['r', 't', 'i', 'c', 'l', 'e', ' ', 'c', 'o', 'n', 'c'],
 ['r', 't', 'i', 'c', 'l', 'e', ' ', 'c', 'o', 'n', 'c', 'e'],
 ['r', 't', 'i', 'c', 'l', 'e', ' ', 'c', 'o', 'n', 'c', 'e', 'n'],
 ['r', 't', 'i', 'c', 'l', 'e', ' ', 'c', 'o', 'n', 'c', 'e', 'n', 't'],
 ['r', 't', 'i', 'c', 'l', 'e', ' ', 'c', 'o', 'n', 'c', 'e', 'n', 't', 'r'],
 ['r', 't', 'i', 'c', 'l', 'e', ' ', 'c', 'o', 'n', 'c', 'e', 'n', 't', 'r', 'a'],
 ['r', 't', 'i', 'c', 'l', 'e', ' ', 'c', 'o', 'n', 'c', 'e', 'n', 't', 'r', 'a', 't'],
 ['r', 't', 'i', 'c', 'l', 'e', ' ', 'c', 'o', 'n', 'c', 'e', 'n', 't', 'r', 'a', 't', 'i'],
 ['r', 't', 'i', 'c', 'l', 'e', ' ', 'c', 'o', 'n', 'c', 'e', 'n', 't', 'r', 'a', 't', 'i', 'o'],
 ['r', 't', 'i', 'c', 'l', 'e', ' ', 'c', 'o', 'n', 'c', 'e', 'n', 't', 'r', 'a', 't', 'i', 'o', 'n'],
 ['t'],
 ['t', 'i'],
 ['t', 'i', 'c'],
 ['t', 'i', 'c', 'l'],
 ['t', 'i', 'c', 'l', 'e'],
 ['t', 'i', 'c', 'l', 'e', ' '],
 ['t', 'i', 'c', 'l', 'e', ' ', 'c'],
 ['t', 'i', 'c', 'l', 'e', ' ', 'c', 'o'],
 ['t', 'i', 'c', 'l', 'e', ' ', 'c', 'o', 'n'],
 ['t', 'i', 'c', 'l', 'e', ' ', 'c', 'o', 'n', 'c'],
 ['t', 'i', 'c', 'l', 'e', ' ', 'c', 'o', 'n', 'c', 'e'],
 ['t', 'i', 'c', 'l', 'e', ' ', 'c', 'o', 'n', 'c', 'e', 'n'],
 ['t', 'i', 'c', 'l', 'e', ' ', 'c', 'o', 'n', 'c', 'e', 'n', 't'],
 ['t', 'i', 'c', 'l', 'e', ' ', 'c', 'o', 'n', 'c', 'e', 'n', 't', 'r'],
 ['t', 'i', 'c', 'l', 'e', ' ', 'c', 'o', 'n', 'c', 'e', 'n', 't', 'r', 'a'],
 ['t', 'i', 'c', 'l', 'e', ' ', 'c', 'o', 'n', 'c', 'e', 'n', 't', 'r', 'a', 't'],
 ['t', 'i', 'c', 'l', 'e', ' ', 'c', 'o', 'n', 'c', 'e', 'n', 't', 'r', 'a', 't', 'i'],
 ['t', 'i', 'c', 'l', 'e', ' ', 'c', 'o', 'n', 'c', 'e', 'n', 't', 'r', 'a', 't', 'i', 'o'],
 ['t', 'i', 'c', 'l', 'e', ' ', 'c', 'o', 'n', 'c', 'e', 'n', 't', 'r', 'a', 't', 'i', 'o', 'n'],
 ['i'],
 ['i', 'c'],
 ['i', 'c', 'l'],
 ['i', 'c', 'l', 'e'],
 ['i', 'c', 'l', 'e', ' '],
 ['i', 'c', 'l', 'e', ' ', 'c'],
 ['i', 'c', 'l', 'e', ' ', 'c', 'o'],
 ['i', 'c', 'l', 'e', ' ', 'c', 'o', 'n'],
 ['i', 'c', 'l', 'e', ' ', 'c', 'o', 'n', 'c'],
 ['i', 'c', 'l', 'e', ' ', 'c', 'o', 'n', 'c', 'e'],
 ['i', 'c', 'l', 'e', ' ', 'c', 'o', 'n', 'c', 'e', 'n'],
 ['i', 'c', 'l', 'e', ' ', 'c', 'o', 'n', 'c', 'e', 'n', 't'],
 ['i', 'c', 'l', 'e', ' ', 'c', 'o', 'n', 'c', 'e', 'n', 't', 'r'],
 ['i', 'c', 'l', 'e', ' ', 'c', 'o', 'n', 'c', 'e', 'n', 't', 'r', 'a'],
 ['i', 'c', 'l', 'e', ' ', 'c', 'o', 'n', 'c', 'e', 'n', 't', 'r', 'a', 't'],
 ['i', 'c', 'l', 'e', ' ', 'c', 'o', 'n', 'c', 'e', 'n', 't', 'r', 'a', 't', 'i'],
 ['i', 'c', 'l', 'e', ' ', 'c', 'o', 'n', 'c', 'e', 'n', 't', 'r', 'a', 't', 'i', 'o'],
 ['i', 'c', 'l', 'e', ' ', 'c', 'o', 'n', 'c', 'e', 'n', 't', 'r', 'a', 't', 'i', 'o', 'n'],
 ['c'],
 ['c', 'l'],
 ['c', 'l', 'e'],
 ['c', 'l', 'e', ' '],
 ['c', 'l', 'e', ' ', 'c'],
 ['c', 'l', 'e', ' ', 'c', 'o'],
 ['c', 'l', 'e', ' ', 'c', 'o', 'n'],
 ['c', 'l', 'e', ' ', 'c', 'o', 'n', 'c'],
 ['c', 'l', 'e', ' ', 'c', 'o', 'n', 'c', 'e'],
 ['c', 'l', 'e', ' ', 'c', 'o', 'n', 'c', 'e', 'n'],
 ['c', 'l', 'e', ' ', 'c', 'o', 'n', 'c', 'e', 'n', 't'],
 ['c', 'l', 'e', ' ', 'c', 'o', 'n', 'c', 'e', 'n', 't', 'r'],
 ['c', 'l', 'e', ' ', 'c', 'o', 'n', 'c', 'e', 'n', 't', 'r', 'a'],
 ['c', 'l', 'e', ' ', 'c', 'o', 'n', 'c', 'e', 'n', 't', 'r', 'a', 't'],
 ['c', 'l', 'e', ' ', 'c', 'o', 'n', 'c', 'e', 'n', 't', 'r', 'a', 't', 'i'],
 ['c', 'l', 'e', ' ', 'c', 'o', 'n', 'c', 'e', 'n', 't', 'r', 'a', 't', 'i', 'o'],
 ['c', 'l', 'e', ' ', 'c', 'o', 'n', 'c', 'e', 'n', 't', 'r', 'a', 't', 'i', 'o', 'n'],
 ['l'],
 ['l', 'e'],
 ['l', 'e', ' '],
 ['l', 'e', ' ', 'c'],
 ['l', 'e', ' ', 'c', 'o'],
 ['l', 'e', ' ', 'c', 'o', 'n'],
 ['l', 'e', ' ', 'c', 'o', 'n', 'c'],
 ['l', 'e', ' ', 'c', 'o', 'n', 'c', 'e'],
 ['l', 'e', ' ', 'c', 'o', 'n', 'c', 'e', 'n'],
 ['l', 'e', ' ', 'c', 'o', 'n', 'c', 'e', 'n', 't'],
 ['l', 'e', ' ', 'c', 'o', 'n', 'c', 'e', 'n', 't', 'r'],
 ['l', 'e', ' ', 'c', 'o', 'n', 'c', 'e', 'n', 't', 'r', 'a'],
 ['l', 'e', ' ', 'c', 'o', 'n', 'c', 'e', 'n', 't', 'r', 'a', 't'],
 ['l', 'e', ' ', 'c', 'o', 'n', 'c', 'e', 'n', 't', 'r', 'a', 't', 'i'],
 ['l', 'e', ' ', 'c', 'o', 'n', 'c', 'e', 'n', 't', 'r', 'a', 't', 'i', 'o'],
 ['l', 'e', ' ', 'c', 'o', 'n', 'c', 'e', 'n', 't', 'r', 'a', 't', 'i', 'o', 'n'],
 ['e'],
 ['e', ' '],
 ['e', ' ', 'c'],
 ['e', ' ', 'c', 'o'],
 ['e', ' ', 'c', 'o', 'n'],
 ['e', ' ', 'c', 'o', 'n', 'c'],
 ['e', ' ', 'c', 'o', 'n', 'c', 'e'],
 ['e', ' ', 'c', 'o', 'n', 'c', 'e', 'n'],
 ['e', ' ', 'c', 'o', 'n', 'c', 'e', 'n', 't'],
 ['e', ' ', 'c', 'o', 'n', 'c', 'e', 'n', 't', 'r'],
 ['e', ' ', 'c', 'o', 'n', 'c', 'e', 'n', 't', 'r', 'a'],
 ['e', ' ', 'c', 'o', 'n', 'c', 'e', 'n', 't', 'r', 'a', 't'],
 ['e', ' ', 'c', 'o', 'n', 'c', 'e', 'n', 't', 'r', 'a', 't', 'i'],
 ['e', ' ', 'c', 'o', 'n', 'c', 'e', 'n', 't', 'r', 'a', 't', 'i', 'o'],
 ['e', ' ', 'c', 'o', 'n', 'c', 'e', 'n', 't', 'r', 'a', 't', 'i', 'o', 'n'],
 [' '],
 [' ', 'c'],
 [' ', 'c', 'o'],
 [' ', 'c', 'o', 'n'],
 [' ', 'c', 'o', 'n', 'c'],
 [' ', 'c', 'o', 'n', 'c', 'e'],
 [' ', 'c', 'o', 'n', 'c', 'e', 'n'],
 [' ', 'c', 'o', 'n', 'c', 'e', 'n', 't'],
 [' ', 'c', 'o', 'n', 'c', 'e', 'n', 't', 'r'],
 [' ', 'c', 'o', 'n', 'c', 'e', 'n', 't', 'r', 'a'],
 [' ', 'c', 'o', 'n', 'c', 'e', 'n', 't', 'r', 'a', 't'],
 [' ', 'c', 'o', 'n', 'c', 'e', 'n', 't', 'r', 'a', 't', 'i'],
 [' ', 'c', 'o', 'n', 'c', 'e', 'n', 't', 'r', 'a', 't', 'i', 'o'],
 [' ', 'c', 'o', 'n', 'c', 'e', 'n', 't', 'r', 'a', 't', 'i', 'o', 'n'],
 ['c'],
 ['c', 'o'],
 ['c', 'o', 'n'],
 ['c', 'o', 'n', 'c'],
 ['c', 'o', 'n', 'c', 'e'],
 ['c', 'o', 'n', 'c', 'e', 'n'],
 ['c', 'o', 'n', 'c', 'e', 'n', 't'],
 ['c', 'o', 'n', 'c', 'e', 'n', 't', 'r'],
 ['c', 'o', 'n', 'c', 'e', 'n', 't', 'r', 'a'],
 ['c', 'o', 'n', 'c', 'e', 'n', 't', 'r', 'a', 't'],
 ['c', 'o', 'n', 'c', 'e', 'n', 't', 'r', 'a', 't', 'i'],
 ['c', 'o', 'n', 'c', 'e', 'n', 't', 'r', 'a', 't', 'i', 'o'],
 ['c', 'o', 'n', 'c', 'e', 'n', 't', 'r', 'a', 't', 'i', 'o', 'n'],
 ['o'],
 ['o', 'n'],
 ['o', 'n', 'c'],
 ['o', 'n', 'c', 'e'],
 ['o', 'n', 'c', 'e', 'n'],
 ['o', 'n', 'c', 'e', 'n', 't'],
 ['o', 'n', 'c', 'e', 'n', 't', 'r'],
 ['o', 'n', 'c', 'e', 'n', 't', 'r', 'a'],
 ['o', 'n', 'c', 'e', 'n', 't', 'r', 'a', 't'],
 ['o', 'n', 'c', 'e', 'n', 't', 'r', 'a', 't', 'i'],
 ['o', 'n', 'c', 'e', 'n', 't', 'r', 'a', 't', 'i', 'o'],
 ['o', 'n', 'c', 'e', 'n', 't', 'r', 'a', 't', 'i', 'o', 'n'],
 ['n'],
 ['n', 'c'],
 ['n', 'c', 'e'],
 ['n', 'c', 'e', 'n'],
 ['n', 'c', 'e', 'n', 't'],
 ['n', 'c', 'e', 'n', 't', 'r'],
 ['n', 'c', 'e', 'n', 't', 'r', 'a'],
 ['n', 'c', 'e', 'n', 't', 'r', 'a', 't'],
 ['n', 'c', 'e', 'n', 't', 'r', 'a', 't', 'i'],
 ['n', 'c', 'e', 'n', 't', 'r', 'a', 't', 'i', 'o'],
 ['n', 'c', 'e', 'n', 't', 'r', 'a', 't', 'i', 'o', 'n'],
 ['c'],
 ['c', 'e'],
 ['c', 'e', 'n'],
 ['c', 'e', 'n', 't'],
 ['c', 'e', 'n', 't', 'r'],
 ['c', 'e', 'n', 't', 'r', 'a'],
 ['c', 'e', 'n', 't', 'r', 'a', 't'],
 ['c', 'e', 'n', 't', 'r', 'a', 't', 'i'],
 ['c', 'e', 'n', 't', 'r', 'a', 't', 'i', 'o'],
 ['c', 'e', 'n', 't', 'r', 'a', 't', 'i', 'o', 'n'],
 ['e'],
 ['e', 'n'],
 ['e', 'n', 't'],
 ['e', 'n', 't', 'r'],
 ['e', 'n', 't', 'r', 'a'],
 ['e', 'n', 't', 'r', 'a', 't'],
 ['e', 'n', 't', 'r', 'a', 't', 'i'],
 ['e', 'n', 't', 'r', 'a', 't', 'i', 'o'],
 ['e', 'n', 't', 'r', 'a', 't', 'i', 'o', 'n'],
 ['n'],
 ['n', 't'],
 ['n', 't', 'r'],
 ['n', 't', 'r', 'a'],
 ['n', 't', 'r', 'a', 't'],
 ['n', 't', 'r', 'a', 't', 'i'],
 ['n', 't', 'r', 'a', 't', 'i', 'o'],
 ['n', 't', 'r', 'a', 't', 'i', 'o', 'n'],
 ['t'],
 ['t', 'r'],
 ['t', 'r', 'a'],
 ['t', 'r', 'a', 't'],
 ['t', 'r', 'a', 't', 'i'],
 ['t', 'r', 'a', 't', 'i', 'o'],
 ['t', 'r', 'a', 't', 'i', 'o', 'n'],
 ['r'],
 ['r', 'a'],
 ['r', 'a', 't'],
 ['r', 'a', 't', 'i'],
 ['r', 'a', 't', 'i', 'o'],
 ['r', 'a', 't', 'i', 'o', 'n'],
 ['a'],
 ['a', 't'],
 ['a', 't', 'i'],
 ['a', 't', 'i', 'o'],
 ['a', 't', 'i', 'o', 'n'],
 ['t'],
 ['t', 'i'],
 ['t', 'i', 'o'],
 ['t', 'i', 'o', 'n'],
 ['i'],
 ['i', 'o'],
 ['i', 'o', 'n'],
 ['o'],
 ['o', 'n'],
 ['n']]

/-- The longest common contiguous substring of the two example names. -/
def exX : List Char := "tive particle concentration".data

theorem substrings_neg : substrings "Negative particle concentration".data = exL1 := by decide

theorem substrings_pos : substrings "Positive particle concentration".data = exL2 := by decide

/-- Position 144 of `exL1` is `exX` (the substring of length 27 starting at
index 4). -/
theorem exL1_split : exL1 = exL1.take 144 ++ exX :: exL1.drop 145 := by decide

theorem exX_mem_L2 : exL2.contains exX = true := by decide

/-- Every substring before position 144 is either shorter than `exX` or not a
substring of the other name.  The length test is first so that the kernel only
evaluates `contains` for the 14 earlier substrings of length at least 27. -/
theorem exL1_pre_bound :
    ∀ y ∈ exL1.take 144, y.length < exX.length ∨ exL2.contains y = false := by decide

/-- Every substring after position 144 is no longer than `exX`. -/
theorem exL1_post_bound :
    ∀ y ∈ exL1.drop 145, y.length ≤ exX.length ∨ exL2.contains y = false := by decide

/-- Folding the keep-the-longest step over elements all shorter than `L`
preserves `length < L` of the accumulator. -/
theorem foldl_max_lt (L : Nat) :
    ∀ (m : List (List Char)) (acc : List Char), (∀ y ∈ m, y.length < L) → acc.length < L →
      (m.foldl (fun acc u => if acc.length < u.length then u else acc) acc).length < L := by
  intro m
  induction m with
  | nil => intro acc _ h; simpa using h
  | cons a as ih =>
    intro acc hall hacc
    simp only [List.foldl_cons]
    by_cases hc : acc.length < a.length
    · rw [if_pos hc]
      exact ih a (fun y hy => hall y (List.mem_cons_of_mem _ hy)) (hall a (List.mem_cons_self _ _))
    · rw [if_neg hc]
      exact ih acc (fun y hy => hall y (List.mem_cons_of_mem _ hy)) hacc

/-- Folding the keep-the-longest step over elements no longer than the
accumulator leaves the accumulator unchanged. -/
theorem foldl_max_fix (x : List Char) :
    ∀ (m : List (List Char)), (∀ y ∈ m, y.length ≤ x.length) →
      m.foldl (fun acc u => if acc.length < u.length then u else acc) x = x := by
  intro m
  induction m with
  | nil => intro _; rfl
  | cons a as ih =>
    intro hall
    simp only [List.foldl_cons]
    rw [if_neg (by exact Nat.not_lt.mpr (hall a (List.mem_cons_self _ _)))]
    exact ih (fun y hy => hall y (List.mem_cons_of_mem _ hy))

/-- The keep-the-longest fold over `l1 ++ x :: l2` returns `x` whenever the
elements before `x` are strictly shorter and the ones after are no longer. -/
theorem foldl_max_split (l1 l2 : List (List Char)) (x : List Char) (hx : 0 < x.length)
    (h1 : ∀ y ∈ l1, y.length < x.length) (h2 : ∀ y ∈ l2, y.length ≤ x.length) :
    (l1 ++ x :: l2).foldl (fun acc u => if acc.length < u.length then u else acc) [] = x := by
  rw [List.foldl_append, List.foldl_cons]
  rw [if_pos (by exact lt_of_eq_of_lt (by simp) (foldl_max_lt x.length l1 [] h1 (by simpa using hx)))]
  exact foldl_max_fix x l2 h2

/-- The longest common contiguous substring of the two example names is
"tive particle concentration" (not " particle concentration" or any
capitalized form): computed by splitting the substring list at position 144
and bounding the lengths on both sides. -/
theorem intersect_example :
    intersect "Negative particle concentration".data "Positive particle concentration".data = exX := by
  unfold intersect
  rw [substrings_neg, substrings_pos]
  rw [exL1_split, List.filter_append]
  rw [List.filter_cons_of_pos (by exact exX_mem_L2)]
  rw [foldl_max_split _ _ exX (by decide)
    (fun y hy => by
      have hmem := List.mem_filter.mp hy
      rcases exL1_pre_bound y hmem.1 with h | h
      · exact h
      · rw [hmem.2] at h; exact absurd h (by simp))
    (fun y hy => by
      have hmem := List.mem_filter.mp hy
      rcases exL1_post_bound y hmem.1 with h | h
      · exact h
      · rw [hmem.2] at h; exact absurd h (by simp))]
  decide

/-- Unfolding equation of `concatVariableName` for exactly two children. -/
theorem concatVariableName_nil (n0 n1 : List Char) :
    concatVariableName n0 n1 [] =
      if (intersect n0 n1).length = 0 then none
      else if (intersect n0 n1).length > 1 then some (capitalizeFirst (intersect n0 n1))
      else some (intersect n0 n1) := rfl

/-- The merged name of the two example children as the code computes it. -/
theorem concat_example :
    concatVariableName "Negative particle concentration".data
      "Positive particle concentration".data [] = some "Tive particle concentration".data := by
  rw [concatVariableName_nil, intersect_example]
  decide

/-- C8 (counterexample): merging the names "Negative particle concentration"
and "Positive particle concentration" yields "Tive particle concentration" —
the longest common contiguous substring is "tive particle concentration", not
"particle concentration" — so the spec's expected merged name "Particle
concentration" is wrong; and a single-character common substring is returned
unchanged, not capitalized as the spec states. -/
theorem concat_variable_name_counterexample :
    concatVariableName "Negative particle concentration".data
        "Positive particle concentration".data [] =
      some "Tive particle concentration".data
    ∧ concatVariableName "Negative particle concentration".data
        "Positive particle concentration".data [] ≠
      some "Particle concentration".data
    ∧ concatVariableName "a".data "bab".data [] = some "a".data
    ∧ concatVariableName "a".data "bab".data [] ≠ some "A".data := by
  refine ⟨concat_example, ?_, by decide, by decide⟩
  rw [concat_example]
  decide

/-- C8 (amended): merging the two example names yields
"Tive particle concentration" (the whitespace-trimmed longest common
contiguous substring with its first character capitalized), and a
single-character common-substring result is returned unchanged, not
capitalized. -/
theorem concat_variable_name_merge :
    concatVariableName "Negative particle concentration".data
        "Positive particle concentration".data [] =
      some "Tive particle concentration".data
    ∧ ∀ n0 n1 : List Char, (intersect n0 n1).length = 1 →
        concatVariableName n0 n1 [] = some (intersect n0 n1) := by
  refine ⟨concat_example, ?_⟩
  intro n0 n1 h
  rw [concatVariableName_nil, h]
  simp

/-- Witness for C8: the names "a" and "bab" have the single-character longest
common substring "a", which survives uncapitalized. -/
theorem concat_variable_name_merge_witness :
    (intersect "a".data "bab".data).length = 1 ∧
    concatVariableName "a".data "bab".data [] = some (intersect "a".data "bab".data) :=
  ⟨by decide, concat_variable_name_merge.2 "a".data "bab".data (by decide)⟩


/-! ### C9 and C10: the simplifying constructors -/

/-- A shallow symbol tree for the simplification entry points.  Variables,
scalars, vectors and broadcasts live outside this file (`variable.py`,
`broadcasts.py`, ...) and are modelled from the spec as opaque leaves carrying
just the attributes the concatenation code reads: a name, a value and a domain
descriptor.  The three concatenation constructors mirror `Concatenation`,
`ConcatenationVariable` and `NumpyConcatenation`, storing the fields their
`__init__` computes.  `mul` stands for the `child * pybamm.Vector([1])`
wrapping of `NumpyConcatenation.__init__` (line 191). -/
inductive Expr where
  | var : List Char → Domains → Expr
  | scalar : Int → Expr
  | vector : List Int → Domains → Expr
  | mul : Expr → Expr → Expr
  | primaryBroadcast : Expr → List String → Expr
  | fullBroadcast : Expr → Domains → Expr
  | concat : List Expr → Domains → Expr
  | concatVariable : List Expr → Domains → List Char → Expr
  | numpyConcat : List Expr → Expr
  deriving BEq, Repr

/-- Children of a node (`Symbol.orphans`; copies are structural, so orphans
and children coincide in this model). -/
def Expr.orphans : Expr → List Expr
  | var _ _ => []
  | scalar _ => []
  | vector _ _ => []
  | mul a b => [a, b]
  | primaryBroadcast c _ => [c]
  | fullBroadcast c _ => [c]
  | concat cs _ => cs
  | concatVariable cs _ _ => cs
  | numpyConcat cs => cs

/-- Python's `isinstance(child, pybamm.Variable)`. -/
def Expr.isVariable : Expr → Bool
  | var _ _ => true
  | _ => false

/-- Python's `isinstance(child, pybamm.Broadcast)`. -/
def Expr.isBroadcast : Expr → Bool
  | primaryBroadcast _ _ => true
  | fullBroadcast _ _ => true
  | _ => false

/-- Python's `isinstance(child, NumpyConcatenation)`. -/
def Expr.isNumpyConcat : Expr → Bool
  | numpyConcat _ => true
  | _ => false

/-- The `.child` attribute of a broadcast node. -/
def Expr.broadcastChild : Expr → Option Expr
  | primaryBroadcast c _ => some c
  | fullBroadcast c _ => some c
  | _ => none

/-- The `domains` attribute read by `get_children_domains`.  Modelled from the
spec for the external leaves: scalars and the `* Vector([1])` wrappers carry
empty domains, broadcasts carry their broadcast domains.  For the nodes built
in this file it is the stored descriptor; a `NumpyConcatenation` stores
`{"primary": []}` (line 49, `check_domain=False`). -/
def Expr.domains : Expr → Domains
  | var _ d => d
  | scalar _ => ⟨[], [], [], []⟩
  | vector _ d => d
  | mul a _ => a.domains
  | primaryBroadcast _ ds => ⟨ds, [], [], []⟩
  | fullBroadcast _ d => d
  | concat _ d => d
  | concatVariable _ d _ => d
  | numpyConcat _ => ⟨[], [], [], []⟩

/-- The `name` attribute read by `ConcatenationVariable.__init__`; only
variable names are ever read by the code in this file (the all-`Variable`
branch of `simplified_concatenation`), the other leaves get a default. -/
def Expr.name : Expr → List Char
  | var n _ => n
  | concatVariable _ _ n => n
  | _ => []

mutual

/-- `Symbol.is_constant`, modelled from the spec for the external leaves
(scalars and vectors are constant, variables are not, the wrappers and
broadcasts follow their children); for concatenation nodes it is the source's
`all(child.is_constant() for child in self.children)` (line 148). -/
def Expr.isConstant : Expr → Bool
  | .var _ _ => false
  | .scalar _ => true
  | .vector _ _ => true
  | .mul a b => a.isConstant && b.isConstant
  | .primaryBroadcast c _ => c.isConstant
  | .fullBroadcast c _ => c.isConstant
  | .concat cs _ => isConstantList cs
  | .concatVariable cs _ _ => isConstantList cs
  | .numpyConcat cs => isConstantList cs

/-- `all(child.is_constant() for child in children)`. -/
def isConstantList : List Expr → Bool
  | [] => true
  | c :: cs => c.isConstant && isConstantList cs

end

/-- `Symbol.evaluates_to_number`, modelled from the spec: of the shapes in
this model only scalars evaluate to numbers; everything else (variables,
vectors, concatenations, broadcasts, and the already-wrapped products)
evaluates to an array. -/
def evaluatesToNumber : Expr → Bool
  | .scalar _ => true
  | _ => false

/-- The scalar-to-vector wrapping of `NumpyConcatenation.__init__` (lines
189-191): `child * pybamm.Vector([1])` when the child evaluates to a number. -/
def numpyScalarWrap (c : Expr) : Expr :=
  if evaluatesToNumber c then .mul c (.vector [1] ⟨[], [], [], []⟩) else c

/-- `NumpyConcatenation.__init__` (lines 185-197): wrap scalar children, then
store the children with `check_domain=False` (so no domain validation and no
error path; the `TypeError` guard of `Concatenation.__init__` never fires for
a subclass). -/
def numpyConcatenationMk (cs : List Expr) : Expr :=
  .numpyConcat (cs.map numpyScalarWrap)

/-- One step of the flattening loop of `simplified_numpy_concatenation`
(lines 468-473): a `NumpyConcatenation` child contributes its own children,
any other child contributes itself. -/
def extractNumpyChildren : Expr → List Expr
  | .numpyConcat gs => gs
  | c => [c]

/-- The flattening loop of `simplified_numpy_concatenation` (lines 467-473):
children that are themselves `NumpyConcatenation` nodes are replaced by their
children, one level deep. -/
def flattenNumpyChildren (cs : List Expr) : List Expr :=
  (cs.map extractNumpyChildren).flatten

/-- `pybamm.simplify_if_constant`, which lives outside this file; modelled
from the spec parametrically: a constant node is replaced by the result of an
external constant-folding function, any other node is returned unchanged. -/
def simplifyIfConstant (fold : Expr → Expr) (e : Expr) : Expr :=
  if e.isConstant then fold e else e

/-- `simplified_numpy_concatenation` (lines 464-474). -/
def simplified_numpy_concatenation (fold : Expr → Expr) (cs : List Expr) : Expr :=
  simplifyIfConstant fold (numpyConcatenationMk (flattenNumpyChildren cs))

/-- `numpy_concatenation` (lines 477-480). -/
def numpy_concatenation (fold : Expr → Expr) (cs : List Expr) : Expr :=
  simplified_numpy_concatenation fold cs

/-- `ConcatenationVariable.__init__` (lines 373-400) for two or more children:
the merged name is the running `intersect` of the children's names (an empty
result falls back to the default name "concatenation" of
`Concatenation.__init__` line 45), and `super().__init__` validates the
children's domains.  The scale/reference/bounds checks read attributes of the
external `Variable` class and are modelled from the spec as always passing
(all children carry the default scale, reference and bounds). -/
def concatenationVariableMk (c0 c1 : Expr) (rest : List Expr) : Except ConcatError Expr :=
  match getChildrenDomains ((c0 :: c1 :: rest).map Expr.domains) with
  | .error e => .error e
  | .ok doms =>
    .ok (.concatVariable (c0 :: c1 :: rest) doms
      ((concatVariableName c0.name c1.name (rest.map Expr.name)).getD "concatenation".data))

/-- The broadcast-collapse test of `simplified_concatenation` (lines 443-446):
every child is a broadcast of one and the same child expression. -/
def allBroadcastSameChild (c0 : Expr) (cs : List Expr) : Bool :=
  cs.all (fun c => c.isBroadcast && c.broadcastChild == c0.broadcastChild)

/-- `simplified_concatenation` (lines 428-455) after the `None` filter: no
children is a `ValueError`, one child is returned unchanged, all-`Variable`
children build a `ConcatenationVariable`; otherwise the domains are validated
by building a `Concatenation`, and either all children are broadcasts of one
shared child — collapsed to a single broadcast over the merged domains — or
the generic `Concatenation` node is returned. -/
def simplifiedConcatenationMulti (c0 c1 : Expr) (rest : List Expr) : Except ConcatError Expr :=
  if (c0 :: c1 :: rest).all Expr.isVariable then
    concatenationVariableMk c0 c1 rest
  else
    match getChildrenDomains ((c0 :: c1 :: rest).map Expr.domains) with
    | .error e => .error e
    | .ok doms =>
      if allBroadcastSameChild c0 (c0 :: c1 :: rest) then
        match c0.orphans with
        | [] => .error (.indexError "list index out of range")
        | u :: _ =>
          match c0 with
          | .primaryBroadcast _ _ => .ok (.primaryBroadcast u doms.primary)
          | _ => .ok (.fullBroadcast u doms)
      else
        .ok (.concat (c0 :: c1 :: rest) doms)

/-- Dispatch of `simplified_concatenation` on the number of children. -/
def simplifiedConcatenationCore : List Expr → Except ConcatError Expr
  | [] => .error (.valueError "Cannot create empty concatenation")
  | [c] => .ok c
  | c0 :: c1 :: rest => simplifiedConcatenationMulti c0 c1 rest

/-- `simplified_concatenation` (lines 428-455): discard `None` children, then
apply the simplification. -/
def simplified_concatenation (children : List (Option Expr)) : Except ConcatError Expr :=
  simplifiedConcatenationCore (children.filterMap id)

/-- `concatenation` (lines 458-461). -/
def concatenation (children : List (Option Expr)) : Except ConcatError Expr :=
  simplified_concatenation children


/-- Mapping `some` over a list and filtering the `None`s out recovers the
list: re-submitting a node's children to an entry point skips the filter. -/
theorem filterMap_id_map_some (l : List Expr) : (l.map some).filterMap id = l := by
  induction l with
  | nil => rfl
  | cons a t ih => simp [List.filterMap_cons, ih]

/-- Rebuild lemma: under the generic-branch conditions the core returns the
generic `Concatenation` node. -/
theorem core_generic (c0 c1 : Expr) (rest : List Expr) (doms : Domains)
    (hvar : (c0 :: c1 :: rest).all Expr.isVariable = false)
    (hgcd : getChildrenDomains ((c0 :: c1 :: rest).map Expr.domains) = .ok doms)
    (hbc : allBroadcastSameChild c0 (c0 :: c1 :: rest) = false) :
    simplifiedConcatenationMulti c0 c1 rest = .ok (.concat (c0 :: c1 :: rest) doms) := by
  unfold simplifiedConcatenationMulti
  split
  next hv => simp [hvar] at hv
  next =>
    split
    next e heq => rw [heq] at hgcd; exact Except.noConfusion hgcd
    next d heq =>
      rw [heq] at hgcd
      injection hgcd with hd
      subst hd
      split
      next hb => simp [hbc] at hb
      next => rfl


/-- Inversion: a generic `Concatenation` node out of the multi-child branch
pins down all three branch conditions and the stored children. -/
theorem core_generic_inv (c0 c1 : Expr) (rest : List Expr) (cs : List Expr) (doms : Domains)
    (h : simplifiedConcatenationMulti c0 c1 rest = .ok (.concat cs doms)) :
    (c0 :: c1 :: rest).all Expr.isVariable = false
    ∧ getChildrenDomains ((c0 :: c1 :: rest).map Expr.domains) = .ok doms
    ∧ allBroadcastSameChild c0 (c0 :: c1 :: rest) = false
    ∧ cs = c0 :: c1 :: rest := by
  unfold simplifiedConcatenationMulti at h
  split at h
  next hv =>
    unfold concatenationVariableMk at h
    split at h
    next => exact Except.noConfusion h
    next d heq =>
      injection h with h'
      exact Expr.noConfusion h'
  next hv =>
    split at h
    next e heq => exact Except.noConfusion h
    next d heq =>
      split at h
      next hb =>
        split at h
        next => exact Except.noConfusion h
        next u us horph =>
          split at h
          all_goals injection h with h'
          all_goals exact Expr.noConfusion h'
      next hb =>
        injection h with h'
        injection h' with hcs hdoms
        subst hdoms
        exact ⟨by simpa using hv, heq, by simpa using hb, hcs.symm⟩

/-- Extraction is trivial on a child that is not a numpy concatenation. -/
theorem extractNumpyChildren_not_numpy (a : Expr) (h : a.isNumpyConcat = false) :
    extractNumpyChildren a = [a] := by
  cases a <;> first | rfl | exact absurd h (by simp [Expr.isNumpyConcat])

/-- Flattening a list with no numpy-concatenation elements changes nothing. -/
theorem flattenNumpyChildren_no_numpy (l : List Expr)
    (h : ∀ e ∈ l, e.isNumpyConcat = false) : flattenNumpyChildren l = l := by
  induction l with
  | nil => rfl
  | cons a t ih =>
    have ht := ih (fun e he => h e (List.mem_cons_of_mem _ he))
    show extractNumpyChildren a ++ flattenNumpyChildren t = a :: t
    rw [extractNumpyChildren_not_numpy a (h a (List.mem_cons_self _ _)), ht]
    rfl

/-- Scalar wrapping never produces a numpy concatenation node. -/
theorem numpyScalarWrap_not_numpy (c : Expr) (h : c.isNumpyConcat = false) :
    (numpyScalarWrap c).isNumpyConcat = false := by
  cases c <;> first | rfl | exact h

/-- Scalar wrapping is idempotent: a wrapped scalar evaluates to a vector and
is not wrapped again. -/
theorem numpyScalarWrap_idem (c : Expr) :
    numpyScalarWrap (numpyScalarWrap c) = numpyScalarWrap c := by
  cases c <;> rfl

/-- A non-constant node passes through `simplify_if_constant` unchanged. -/
theorem simplifyIfConstant_not (fold : Expr → Expr) (e : Expr) (h : e.isConstant = false) :
    simplifyIfConstant fold e = e := by
  unfold simplifyIfConstant
  rw [h]
  simp

/-- Re-wrapping the already-wrapped children changes nothing. -/
theorem numpyConcatenationMk_map_wrap (l : List Expr) :
    numpyConcatenationMk (l.map numpyScalarWrap) = numpyConcatenationMk l := by
  unfold numpyConcatenationMk
  rw [List.map_map]
  congr 1
  exact List.map_congr_left (fun a _ => numpyScalarWrap_idem a)


/-- Example variables for the idempotence analysis. -/
def exSymX : Expr := .var "x".data ⟨["a"], [], [], []⟩

/-- Second example variable. -/
def exSymY : Expr := .var "y".data ⟨["b"], [], [], []⟩

/-- Third example variable. -/
def exSymZ : Expr := .var "z".data ⟨["cc"], [], [], []⟩

/-- Fourth example variable. -/
def exSymW : Expr := .var "w".data ⟨["d"], [], [], []⟩

/-- A raw numpy concatenation of two variables. -/
def exNested1 : Expr := .numpyConcat [exSymX, exSymY]

/-- A raw numpy concatenation nested two levels deep. -/
def exNested2 : Expr := .numpyConcat [exNested1, exSymZ]

/-- C9 (counterexample): the simplifying constructors are not idempotent in
the claimed sense.  `concatenation` of a single variable returns the variable
itself; re-applying the entry point to that result's (empty) child list
raises the empty-concatenation `ValueError`.  On the numpy side the
flattening is one level deep, so with a doubly nested child the first pass
returns a node that still has a `NumpyConcatenation` child, and re-applying
the pass to the result's children flattens further and yields a structurally
different node. -/
theorem concatenation_idempotence_counterexample :
    concatenation [some exSymX] = .ok exSymX
    ∧ concatenation (exSymX.orphans.map some) =
        .error (.valueError "Cannot create empty concatenation")
    ∧ numpy_concatenation id [exNested2, exSymW] =
        .numpyConcat [exNested1, exSymZ, exSymW]
    ∧ numpy_concatenation id (Expr.numpyConcat [exNested1, exSymZ, exSymW]).orphans =
        .numpyConcat [exSymX, exSymY, exSymZ, exSymW]
    ∧ Expr.numpyConcat [exSymX, exSymY, exSymZ, exSymW] ≠
        .numpyConcat [exNested1, exSymZ, exSymW] := by
  refine ⟨rfl, rfl, rfl, rfl, ?_⟩
  intro h
  have hlen := congrArg (fun e => e.orphans.length) h
  simp [Expr.orphans] at hlen

/-- C9 (amended): the simplification passes are idempotent on their main
branches.  If `concatenation` of at least two (post-filter) children returns
a generic `Concatenation` node, re-applying the entry point to that node's
children rebuilds the identical node.  If the flattened children of a numpy
concatenation contain no nested `NumpyConcatenation` and the built node is
not constant-folded, re-applying `numpy_concatenation` to the result's
children returns the identical node.  Outside these branches idempotence
fails (single-child pass-through, one-level flattening, broadcast collapse). -/
theorem concatenation_simplification_idempotent :
    (∀ (children : List (Option Expr)) (cs : List Expr) (doms : Domains),
        concatenation children = .ok (.concat cs doms) →
        2 ≤ (children.filterMap id).length →
        concatenation (cs.map some) = .ok (.concat cs doms))
    ∧ (∀ (fold : Expr → Expr) (cs : List Expr),
        (∀ e ∈ flattenNumpyChildren cs, e.isNumpyConcat = false) →
        (numpyConcatenationMk (flattenNumpyChildren cs)).isConstant = false →
        numpy_concatenation fold (numpy_concatenation fold cs).orphans =
          numpy_concatenation fold cs) := by
  constructor
  · intro children cs doms h hlen
    unfold concatenation simplified_concatenation at h ⊢
    cases hfm : children.filterMap id with
    | nil => rw [hfm] at hlen; simp at hlen
    | cons a t =>
      cases t with
      | nil => rw [hfm] at hlen; simp at hlen
      | cons b r =>
        rw [hfm] at h
        have h' : simplifiedConcatenationMulti a b r = .ok (.concat cs doms) := h
        obtain ⟨hv, hg, hb, hcs⟩ := core_generic_inv a b r cs doms h'
        subst hcs
        rw [filterMap_id_map_some]
        exact core_generic a b r doms hv hg hb
  · intro fold cs hflat hconst
    unfold numpy_concatenation simplified_numpy_concatenation
    rw [simplifyIfConstant_not fold _ hconst]
    have hws : ∀ e ∈ (flattenNumpyChildren cs).map numpyScalarWrap, e.isNumpyConcat = false := by
      intro e he
      obtain ⟨f, hf, rfl⟩ := List.mem_map.mp he
      exact numpyScalarWrap_not_numpy f (hflat f hf)
    rw [show (numpyConcatenationMk (flattenNumpyChildren cs)).orphans =
        (flattenNumpyChildren cs).map numpyScalarWrap from rfl]
    rw [flattenNumpyChildren_no_numpy _ hws]
    rw [numpyConcatenationMk_map_wrap]
    exact simplifyIfConstant_not fold _ hconst

/-- A variable over domain `a` for the idempotence witness. -/
def exSymA : Expr := .var "u".data ⟨["a"], [], [], []⟩

/-- A vector over domain `b` for the idempotence witness (so that the
children are not all variables and the generic branch fires). -/
def exVecB : Expr := .vector [1, 2] ⟨["b"], [], [], []⟩

/-- The merged domains of the idempotence witness. -/
def exDomsAB : Domains := ⟨["a", "b"], [], [], []⟩

/-- Witness for C9: the generic two-child concatenation rebuilds itself, and
a numpy concatenation of a variable and a scalar is a fixed point of the
pass. -/
theorem concatenation_simplification_idempotent_witness :
    concatenation [some exSymA, some exVecB] = .ok (.concat [exSymA, exVecB] exDomsAB)
    ∧ concatenation ([exSymA, exVecB].map some) = .ok (.concat [exSymA, exVecB] exDomsAB)
    ∧ numpy_concatenation id (numpy_concatenation id [exSymA, Expr.scalar 5]).orphans =
        numpy_concatenation id [exSymA, Expr.scalar 5] :=
  ⟨rfl,
   concatenation_simplification_idempotent.1 [some exSymA, some exVecB]
     [exSymA, exVecB] exDomsAB rfl (by decide),
   concatenation_simplification_idempotent.2 id [exSymA, Expr.scalar 5]
     (by
       intro e he
       rw [show flattenNumpyChildren [exSymA, Expr.scalar 5] = [exSymA, Expr.scalar 5]
         from rfl] at he
       rcases List.mem_cons.mp he with rfl | he2
       · rfl
       · rcases List.mem_cons.mp he2 with rfl | he3
         · rfl
         · exact absurd he3 (List.not_mem_nil e))
     rfl⟩

/-- C10: the public `concatenation` entry point discards `None` children
before any check — it is exactly the core simplification applied to the
filtered list — and a single remaining child is returned unchanged, so
`concatenation [c]` and `concatenation [c, None]` both return `c` for every
symbol `c`. -/
theorem concatenation_single_child :
    (∀ children : List (Option Expr),
        concatenation children = simplifiedConcatenationCore (children.filterMap id))
    ∧ (∀ c : Expr,
        concatenation [some c] = .ok c ∧ concatenation [some c, none] = .ok c) :=
  ⟨fun _ => rfl, fun _ => ⟨rfl, rfl⟩⟩
